import Mathlib

/-!
# libpersist: a verification development

Shallow embedding of the database access layer (`includes/db/conn.hpp`,
`includes/db/driver.hpp`, `src/dbconn.cpp`, `src/mysql/mysql.cpp`,
`src/mysql/mysql.hpp`) and theorems about it.

Conventions of the embedding.

* An object that the C++ code reaches through a pointer and calls virtual
  methods on (a `Connection`, a `Driver`, the native client library) is a
  record of transition functions over an arbitrary state type, so a theorem
  quantified over the record holds for every behaviour of the callee.
* Every call made through such an object is appended to a log kept next to
  the callee's state.  The log is ghost state: no code reads it; it is what
  "a call is issued" means in the theorems.
* C integers are `Int`/`Nat` with the conversions written out.
-/

namespace db

/-! ## `conn.hpp`: the connection interface and `Transaction` -/

/-- The three transaction primitives of `struct Connection`. -/
inductive ConnCall where
  | beginTransaction
  | rollbackTransaction
  | commitTransaction
  deriving DecidableEq, Repr

/-- The virtual methods of `struct Connection` used by `Transaction`:
each takes the connection's state and returns its `bool` with the new state. -/
structure Connection (σ : Type) where
  beginTransaction : σ → Bool × σ
  rollbackTransaction : σ → Bool × σ
  commitTransaction : σ → Bool × σ

/-- The object behind a `ConnectionPtr`: the connection's own state and the
ghost log of the calls made on it, oldest first, each with its result. -/
structure ConnObj (σ : Type) where
  st : σ
  log : List (ConnCall × Bool)
  deriving DecidableEq

/-- Call `m_conn->beginTransaction()`. -/
def ConnObj.beginTransaction {σ : Type} (I : Connection σ) (c : ConnObj σ) : Bool × ConnObj σ :=
  let r := I.beginTransaction c.st
  (r.1, { st := r.2, log := c.log ++ [(ConnCall.beginTransaction, r.1)] })

/-- Call `m_conn->rollbackTransaction()`. -/
def ConnObj.rollbackTransaction {σ : Type} (I : Connection σ) (c : ConnObj σ) : Bool × ConnObj σ :=
  let r := I.rollbackTransaction c.st
  (r.1, { st := r.2, log := c.log ++ [(ConnCall.rollbackTransaction, r.1)] })

/-- Call `m_conn->commitTransaction()`. -/
def ConnObj.commitTransaction {σ : Type} (I : Connection σ) (c : ConnObj σ) : Bool × ConnObj σ :=
  let r := I.commitTransaction c.st
  (r.1, { st := r.2, log := c.log ++ [(ConnCall.commitTransaction, r.1)] })

/-- The `Transaction::State` enumeration. -/
inductive State where
  | UNKNOWN
  | BEGAN
  | COMMITED
  | REVERTED
  deriving DecidableEq, Repr

/-- The `struct Transaction`: its state and the connection it points to. -/
structure Transaction (σ : Type) where
  m_state : State
  m_conn : ConnObj σ
  deriving DecidableEq

namespace Transaction

variable {σ : Type}

/-- The constructor `Transaction(ConnectionPtr conn)`. -/
def new (conn : ConnObj σ) : Transaction σ :=
  { m_state := State.UNKNOWN, m_conn := conn }

/-- The destructor `~Transaction()`; what is left is the connection. -/
def release (I : Connection σ) (t : Transaction σ) : ConnObj σ :=
  if t.m_state = State.BEGAN then (t.m_conn.rollbackTransaction I).2 else t.m_conn

/-- The method `Transaction::begin()`. -/
def begin (I : Connection σ) (t : Transaction σ) : Bool × Transaction σ :=
  if t.m_state ≠ State.UNKNOWN then (false, t)
  else
    let r := t.m_conn.beginTransaction I
    if !r.1 then (false, { t with m_conn := r.2 })
    else (true, { m_state := State.BEGAN, m_conn := r.2 })

/-- The method `Transaction::commit()`. -/
def commit (I : Connection σ) (t : Transaction σ) : Bool × Transaction σ :=
  if t.m_state ≠ State.BEGAN then (false, t)
  else
    let r := t.m_conn.commitTransaction I
    (r.1, { m_state := State.COMMITED, m_conn := r.2 })

/-- The method `Transaction::rollback()`. -/
def rollback (I : Connection σ) (t : Transaction σ) : Bool × Transaction σ :=
  if t.m_state ≠ State.BEGAN then (false, t)
  else
    let r := t.m_conn.rollbackTransaction I
    (r.1, { m_state := State.REVERTED, m_conn := r.2 })

end Transaction

/-- One call a client makes on a `Transaction`. -/
inductive TxOp where
  | begin
  | commit
  | rollback
  deriving DecidableEq, Repr

/-- Perform one client call, dropping its return value. -/
def TxOp.run {σ : Type} (I : Connection σ) (t : Transaction σ) : TxOp → Transaction σ
  | TxOp.begin => (t.begin I).2
  | TxOp.commit => (t.commit I).2
  | TxOp.rollback => (t.rollback I).2

/-- A client scope: construct a `Transaction` on `conn`, make the calls
`ops` in order, leave the scope. The first component is the transaction as
it is just before the destructor runs, the second the connection after. -/
def txScope {σ : Type} (I : Connection σ) (conn : ConnObj σ) (ops : List TxOp) :
    Transaction σ × ConnObj σ :=
  let t := ops.foldl (TxOp.run I) (Transaction.new conn)
  (t, t.release I)

/-- A connection-level commit or rollback, whatever its result. -/
def isEnd (e : ConnCall × Bool) : Bool :=
  e.1 = ConnCall.commitTransaction ∨ e.1 = ConnCall.rollbackTransaction

/-- A connection-level begin that succeeded. -/
def isBeginOk (e : ConnCall × Bool) : Bool :=
  e = (ConnCall.beginTransaction, true)

/-- A scripted connection: its state is the list of results still to hand
out, one per call, and `false` once the list is used up. -/
def scripted : Connection (List Bool) where
  beginTransaction := fun s => (s.headD false, s.tail)
  rollbackTransaction := fun s => (s.headD false, s.tail)
  commitTransaction := fun s => (s.headD false, s.tail)

/-- The connection-level calls made during a client scope: what the scope
added to the connection's log. -/
def txCalls {σ : Type} (I : Connection σ) (conn : ConnObj σ) (ops : List TxOp) :
    List (ConnCall × Bool) :=
  (txScope I conn ops).2.log.drop conn.log.length

/-- The connection-level calls a log consists of when no begin has succeeded. -/
def OnlyFailedBegins (l : List (ConnCall × Bool)) : Prop :=
  ∀ e ∈ l, e = (ConnCall.beginTransaction, false)

/-- The calls made on the connection since the transaction was built on a
connection whose log was `l0`, in each state of the transaction. -/
def TxShape {σ : Type} (l0 : List (ConnCall × Bool)) (t : Transaction σ) : Prop :=
  ∃ F, OnlyFailedBegins F ∧
    match t.m_state with
    | State.UNKNOWN => t.m_conn.log = l0 ++ F
    | State.BEGAN => t.m_conn.log = l0 ++ (F ++ [(ConnCall.beginTransaction, true)])
    | State.COMMITED => ∃ r, t.m_conn.log =
        l0 ++ (F ++ [(ConnCall.beginTransaction, true), (ConnCall.commitTransaction, r)])
    | State.REVERTED => ∃ r, t.m_conn.log =
        l0 ++ (F ++ [(ConnCall.beginTransaction, true), (ConnCall.rollbackTransaction, r)])

/-- The two shapes a finished scope's calls can have. -/
def ScopeShape (L : List (ConnCall × Bool)) : Prop :=
  ∃ F, OnlyFailedBegins F ∧
    (L = F ∨ ∃ e, isEnd e = true ∧ L = F ++ [(ConnCall.beginTransaction, true), e])

/-! ## `std::map` -/

/-- A `std::map<K, V>`: the entries, at most one per key when built with
`assign` from the empty map. -/
abbrev StdMap (κ ν : Type) := List (κ × ν)

namespace StdMap

variable {κ ν : Type} [DecidableEq κ]

/-- The member `find(k)`: `none` stands for `end()`. -/
def find : StdMap κ ν → κ → Option ν
  | [], _ => none
  | (k1, v1) :: m, k => if k1 = k then some v1 else find m k

/-- The assignment `m[k] = v`. -/
def assign : StdMap κ ν → κ → ν → StdMap κ ν
  | [], k, v => [(k, v)]
  | (k1, v1) :: m, k, v => if k1 = k then (k, v) :: m else (k1, v1) :: assign m k v

end StdMap

/-! ## `driver.hpp`: properties and the driver registry -/

/-- The type `Driver::Props`. -/
abbrev Props := StdMap String String

/-- The function `Driver::getProp(props, name, value)`: the returned string is
`value` after the call. -/
def Driver.getProp (props : Props) (name : String) (value : String) : Bool × String :=
  match props.find name with
  | none => (false, value)
  | some v => (true, v)

/-- A `DriverPtr`; `none` is the null pointer. -/
abbrev DriverPtr (δ : Type) := Option δ

/-- The class `Drivers`; the process-wide instance of `Drivers::get()` is
passed explicitly. -/
structure Drivers (δ : Type) where
  m_drivers : StdMap String (DriverPtr δ)

namespace Drivers

variable {δ : Type}

/-- The instance `Drivers::get()` returns when first used. -/
def instance0 : Drivers δ := { m_drivers := [] }

/-- The method `Drivers::_driver(name)`. -/
def _driver (r : Drivers δ) (name : String) : DriverPtr δ :=
  match r.m_drivers.find name with
  | none => none
  | some p => p

/-- The method `Drivers::_register(name, ptr)`. -/
def _register (r : Drivers δ) (name : String) (ptr : DriverPtr δ) : Drivers δ :=
  { m_drivers := r.m_drivers.assign name ptr }

/-- The static `Drivers::driver(name)`. -/
def driver (r : Drivers δ) (name : String) : DriverPtr δ :=
  r._driver name

/-- The static `Drivers::registerRaw<Driver>(name)`, as called by
`DriverRegistrar`: `made` is what `std::make_shared<Driver>()` yields, `none`
when it yields no object (the registration is then skipped). -/
def registerRaw (r : Drivers δ) (name : String) (made : DriverPtr δ) : Drivers δ :=
  match made with
  | none => r
  | some d => r._register name (some d)

/-- A sequence of registrations, each a name and the driver object made for
it, applied in order. -/
def registerAll (r : Drivers δ) (regs : List (String × δ)) : Drivers δ :=
  regs.foldl (fun r p => r.registerRaw p.1 (some p.2)) r

end Drivers

/-- In the words of the specification: the driver stored by the last
registration under `n`, none if there is no registration under `n`. -/
def lastRegistered {δ : Type} (regs : List (String × δ)) (n : String) : Option δ :=
  ((regs.filter (fun p => p.1 = n)).getLast?).map Prod.snd

/-! ## `dbconn.cpp`: reading the properties and `Connection::open` -/

/-- The function `std::isspace` in the "C" locale. -/
def isspace (c : Char) : Bool :=
  c = Char.ofNat 32 ∨ (9 ≤ c.toNat ∧ c.toNat ≤ 13)

/-- An open `std::ifstream`: the characters not read yet and the two state
bits the loop of `readProps` depends on. -/
structure IfStream where
  rest : List Char
  eofbit : Bool
  failbit : Bool
  deriving DecidableEq, Repr

/-- The extraction `ini >> line`: skip white space, then replace `line` by
the characters up to the next white space. When nothing is left to extract
the stream fails and `line` keeps its value. -/
def IfStream.extract (ini : IfStream) (line : List Char) : IfStream × List Char :=
  if ini.eofbit || ini.failbit then ({ ini with failbit := true }, line)
  else
    let r := ini.rest.dropWhile isspace
    if r.isEmpty then ({ rest := [], eofbit := true, failbit := true }, line)
    else
      let r2 := r.dropWhile (fun c => !isspace c)
      ({ rest := r2, eofbit := r2.isEmpty, failbit := false }, r.takeWhile (fun c => !isspace c))

/-- The body of the loop of `Driver::readProps` on the extracted `line`. -/
def readPropsLine (line : List Char) (props : Props) : Props :=
  if line.contains '=' then
    props.assign (String.mk (line.takeWhile (fun c => c != '=')))
      (String.mk ((line.dropWhile (fun c => c != '=')).drop 1))
  else props

/-- The loop `while (!ini.eof())` of `Driver::readProps`, run for at most
`fuel` iterations. -/
def readPropsLoop : Nat → IfStream → List Char → Props → Props
  | 0, _, _, props => props
  | fuel + 1, ini, line, props =>
    if ini.eofbit then props
    else
      let r := ini.extract line
      readPropsLoop fuel r.1 r.2 (readPropsLine r.2 props)

/-- The files a path can name: the content, or `none` when the file cannot
be opened. -/
abbrev FileSystem := String → Option (List Char)

/-- The function `Driver::readProps(path, props)`. Every iteration but the
last consumes a character, so `length + 1` iterations reach the end. -/
def Driver.readProps (fs : FileSystem) (path : String) (props : Props) : Bool × Props :=
  match fs path with
  | none => (false, props)
  | some content =>
    (true, readPropsLoop (content.length + 1)
      { rest := content, eofbit := false, failbit := false } [] props)

/-- The virtual `Driver::open(ini_path, props)` of a driver object: it acts
on the world outside the process, of state `ω`, and may yield a connection. -/
structure Driver (ω κ : Type) where
  open_ : String → Props → ω → Option κ × ω

/-- The world the drivers act on, with the ghost log of the `Driver::open`
calls made so far: the path and the properties each was given. -/
structure World (ω : Type) where
  st : ω
  opens : List (String × Props)
  deriving DecidableEq

/-- Call `driver->open(path, props)`. -/
def World.driverOpen {ω κ : Type} (d : Driver ω κ) (path : String) (props : Props)
    (w : World ω) : Option κ × World ω :=
  let r := d.open_ path props w.st
  (r.1, { st := r.2, opens := w.opens ++ [(path, props)] })

/-- The static `Connection::open(path)`; `none` is the null `ConnectionPtr`. -/
def Connection.open {ω κ : Type} (fs : FileSystem) (reg : Drivers (Driver ω κ))
    (path : String) (w : World ω) : Option κ × World ω :=
  let rp := Driver.readProps fs path []
  if !rp.1 then (none, w)
  else
    let gp := Driver.getProp rp.2 "driver" ""
    if !gp.1 then (none, w)
    else
      match Drivers.driver reg gp.2 with
      | none => (none, w)
      | some driver => w.driverOpen driver path rp.2

/-- The three conditions under which `Connection::open` reaches the driver:
the properties are read, they hold the `driver` key, and its value names a
registered driver. -/
def OpenReaches {ω κ : Type} (fs : FileSystem) (reg : Drivers (Driver ω κ)) (path : String)
    (props : Props) (d : Driver ω κ) : Prop :=
  ∃ id, Driver.readProps fs path [] = (true, props) ∧
    Driver.getProp props "driver" "" = (true, id) ∧ Drivers.driver reg id = some d

/-- A driver that opens connection `7` whenever it is asked, counting its calls. -/
def sampleDriver : Driver Nat Nat where
  open_ := fun _ _ n => (some 7, n + 1)

/-- A file system with one configuration file, `db.ini`. -/
def sampleFs : FileSystem :=
  fun path => if path = "db.ini" then some "driver=mysql user=root".toList else none

/-! ## The platform and the native client library (`mysql.h`) -/

/-- A byte of memory. -/
abbrev Byte := Nat

/-- A `char` of a heap buffer: `none` until it is first written, since
`new char[n]` leaves the contents indeterminate. -/
abbrev Cell := Option Byte

/-- The conversion of a 32-bit quantity to `unsigned int`. -/
def u32 (x : Int) : Nat := (x % 4294967296).toNat

/-- The conversion of an integer to `int`, wrapping. -/
def i32 (x : Int) : Int := (x + 2147483648) % 4294967296 - 2147483648

/-- The values of type `int`. -/
def IsInt (x : Int) : Prop := -2147483648 ≤ x ∧ x < 2147483648

instance (x : Int) : Decidable (IsInt x) := by unfold IsInt; infer_instance

/-- The enumeration `enum_field_types` of `mysql.h`, in the order of its
values; `MYSQL_TYPE_DECIMAL` is the one with value zero. -/
inductive enum_field_types where
  | MYSQL_TYPE_DECIMAL | MYSQL_TYPE_TINY | MYSQL_TYPE_SHORT | MYSQL_TYPE_LONG
  | MYSQL_TYPE_FLOAT | MYSQL_TYPE_DOUBLE | MYSQL_TYPE_NULL | MYSQL_TYPE_TIMESTAMP
  | MYSQL_TYPE_LONGLONG | MYSQL_TYPE_INT24 | MYSQL_TYPE_DATE | MYSQL_TYPE_TIME
  | MYSQL_TYPE_DATETIME | MYSQL_TYPE_YEAR | MYSQL_TYPE_NEWDATE | MYSQL_TYPE_VARCHAR
  | MYSQL_TYPE_BIT | MYSQL_TYPE_NEWDECIMAL | MYSQL_TYPE_ENUM | MYSQL_TYPE_SET
  | MYSQL_TYPE_TINY_BLOB | MYSQL_TYPE_MEDIUM_BLOB | MYSQL_TYPE_LONG_BLOB | MYSQL_TYPE_BLOB
  | MYSQL_TYPE_VAR_STRING | MYSQL_TYPE_STRING | MYSQL_TYPE_GEOMETRY
  deriving DecidableEq, Repr

export enum_field_types (MYSQL_TYPE_DECIMAL MYSQL_TYPE_TINY MYSQL_TYPE_SHORT MYSQL_TYPE_LONG
  MYSQL_TYPE_FLOAT MYSQL_TYPE_DOUBLE MYSQL_TYPE_NULL MYSQL_TYPE_TIMESTAMP
  MYSQL_TYPE_LONGLONG MYSQL_TYPE_INT24 MYSQL_TYPE_DATE MYSQL_TYPE_TIME
  MYSQL_TYPE_DATETIME MYSQL_TYPE_YEAR MYSQL_TYPE_NEWDATE MYSQL_TYPE_VARCHAR
  MYSQL_TYPE_BIT MYSQL_TYPE_NEWDECIMAL MYSQL_TYPE_ENUM MYSQL_TYPE_SET
  MYSQL_TYPE_TINY_BLOB MYSQL_TYPE_MEDIUM_BLOB MYSQL_TYPE_LONG_BLOB MYSQL_TYPE_BLOB
  MYSQL_TYPE_VAR_STRING MYSQL_TYPE_STRING MYSQL_TYPE_GEOMETRY)

/-- The enumeration `enum_mysql_timestamp_type`; `MYSQL_TIMESTAMP_DATE` is
the one with value zero. -/
inductive enum_mysql_timestamp_type where
  | MYSQL_TIMESTAMP_NONE | MYSQL_TIMESTAMP_ERROR | MYSQL_TIMESTAMP_DATE
  | MYSQL_TIMESTAMP_DATETIME | MYSQL_TIMESTAMP_TIME
  deriving DecidableEq, Repr

export enum_mysql_timestamp_type (MYSQL_TIMESTAMP_NONE MYSQL_TIMESTAMP_ERROR
  MYSQL_TIMESTAMP_DATE MYSQL_TIMESTAMP_DATETIME MYSQL_TIMESTAMP_TIME)

/-- The record `MYSQL_TIME`: six `unsigned int` calendar fields, the
fraction, the sign and the kind of value. -/
structure MYSQL_TIME where
  year : Nat
  month : Nat
  day : Nat
  hour : Nat
  minute : Nat
  second : Nat
  second_part : Nat
  neg : Bool
  time_type : enum_mysql_timestamp_type
  deriving DecidableEq, Repr

/-- The value of `MYSQL_TIME time = {}`. -/
def MYSQL_TIME.zero : MYSQL_TIME :=
  { year := 0, month := 0, day := 0, hour := 0, minute := 0, second := 0,
    second_part := 0, neg := false, time_type := MYSQL_TIMESTAMP_DATE }

/-- The bounds a `MYSQL_TIME` has by the types of its members: six
`unsigned int`, and an `unsigned long` of at least 32 bits. -/
def MYSQL_TIME.Valid (t : MYSQL_TIME) : Prop :=
  t.year < 4294967296 ∧ t.month < 4294967296 ∧ t.day < 4294967296 ∧ t.hour < 4294967296 ∧
    t.minute < 4294967296 ∧ t.second < 4294967296 ∧ t.second_part < 4294967296

instance (t : MYSQL_TIME) : Decidable t.Valid := by
  unfold MYSQL_TIME.Valid; infer_instance

/-- What the code takes from the compiler and from `mysql.h`: the sizes of
the types it applies `sizeof` to, the range of `size_t`, and the object
representations of the values it stores through or loads from a `char`
buffer. -/
structure ABI where
  SIZE_MAX : Nat
  sizeof_pointer : Nat
  sizeof_MYSQL_BIND : Nat
  sizeof_short : Nat
  sizeof_long : Nat
  sizeof_long_long : Nat
  sizeof_float : Nat
  sizeof_double : Nat
  sizeof_MYSQL_TIME : Nat
  repr_short : Int → List Byte
  repr_long : Int → List Byte
  repr_long_long : Int → List Byte
  repr_MYSQL_TIME : MYSQL_TIME → List Byte
  load_long : List Byte → Int
  load_long_long : List Byte → Int
  load_MYSQL_TIME : List Byte → MYSQL_TIME

/-- The conversion `(size_t)x` of an `int`. -/
def ABI.size_t (abi : ABI) (x : Int) : Nat := (x % (abi.SIZE_MAX + 1)).toNat

/-- What every platform the library builds on guarantees, 32-bit ones
included: an object's representation has the object's size, a stored
`MYSQL_TIME` loads back, pointers have at least two bytes, and `size_t` has
at least the 32 bits of `int`. -/
structure ABI.Lawful (abi : ABI) : Prop where
  pointer_ge : 2 ≤ abi.sizeof_pointer
  size_max_ge : 4294967296 ≤ abi.SIZE_MAX + 1
  length_short : ∀ v, (abi.repr_short v).length = abi.sizeof_short
  length_long : ∀ v, (abi.repr_long v).length = abi.sizeof_long
  length_long_long : ∀ v, (abi.repr_long_long v).length = abi.sizeof_long_long
  length_MYSQL_TIME : ∀ t, (abi.repr_MYSQL_TIME t).length = abi.sizeof_MYSQL_TIME
  load_repr_MYSQL_TIME : ∀ t, t.Valid → abi.load_MYSQL_TIME (abi.repr_MYSQL_TIME t) = t

/-- The expression `new (std::nothrow) char[len]` when it succeeds. -/
def newChars (len : Nat) : List Cell := List.replicate len none

/-- Store `bytes` from the start of a buffer; what does not fit is dropped. -/
def store (buf : List Cell) (bytes : List Byte) : List Cell :=
  (bytes.take buf.length).map some ++ buf.drop bytes.length

/-- Store `bytes` from the start of an initialised object. -/
def overwrite (obj : List Byte) (bytes : List Byte) : List Byte :=
  bytes.take obj.length ++ obj.drop bytes.length

/-- The function `strlen` on the memory a `const char*` points to: the
bytes before the first zero byte. -/
def strlen (value : List Byte) : Nat := (value.takeWhile (fun b => b != 0)).length

/-- The bytes `strncpy(dst, value, len)` writes: the string, then zero
bytes up to `len`. -/
def strncpy (value : List Byte) (len : Nat) : List Byte :=
  ((value.takeWhile (fun b => b != 0)) ++ List.replicate len 0).take len

/-- The bytes `memcpy(dst, value, size)` writes. -/
def memcpy (value : List Byte) (size : Nat) : List Byte := value.take size

/-- The `void* buffer` of a `MYSQL_BIND` held in `m_bind[i]`: null, the
current allocation of `m_buffers[i]`, or an allocation deleted since. -/
inductive BufPtr where
  | null
  | slot
  | stale
  deriving DecidableEq, Repr

/-- The members of `MYSQL_BIND` the code sets. -/
structure MYSQL_BIND where
  buffer_type : enum_field_types
  buffer : BufPtr
  buffer_length : Nat
  deriving DecidableEq, Repr

/-- A `MYSQL_BIND` after `memset(bind, 0, ...)`. -/
def MYSQL_BIND.zero : MYSQL_BIND :=
  { buffer_type := MYSQL_TYPE_DECIMAL, buffer := BufPtr.null, buffer_length := 0 }

instance : Inhabited MYSQL_BIND := ⟨MYSQL_BIND.zero⟩

/-! ## `mysql.hpp`: `MySQLBinding` -/

/-- The class `MySQLBinding`: `m_bind`, `m_buffers` (`none` is a null
`char*`) and `m_count`. -/
structure MySQLBinding where
  m_bind : List MYSQL_BIND
  m_buffers : List (Option (List Cell))
  m_count : Nat
  deriving DecidableEq, Repr

namespace MySQLBinding

/-- The state the constructor leaves. -/
def new : MySQLBinding := { m_bind := [], m_buffers := [], m_count := 0 }

/-- The method `MySQLBinding::allocBind(count)`. The two flags say whether
the heap can serve the two `new (std::nothrow)` expressions; an array whose
size in bytes exceeds `SIZE_MAX` is never served. -/
def allocBind (abi : ABI) (heapBind heapBuffers : Bool) (b : MySQLBinding) (count : Nat) :
    Bool × MySQLBinding :=
  let bind := heapBind && decide (count * abi.sizeof_MYSQL_BIND ≤ abi.SIZE_MAX)
  let buffers := heapBuffers && decide (count * abi.sizeof_pointer ≤ abi.SIZE_MAX)
  if !bind || !buffers then (false, b)
  else
    (true, { m_bind := List.replicate count MYSQL_BIND.zero,
             m_buffers := List.replicate count none,
             m_count := count })

/-- The state of a binding whose arrays were obtained by `allocBind`. -/
def Allocated (abi : ABI) (b : MySQLBinding) : Prop :=
  b.m_bind.length = b.m_count ∧ b.m_buffers.length = b.m_count ∧
    b.m_count * abi.sizeof_pointer ≤ abi.SIZE_MAX

instance (abi : ABI) (b : MySQLBinding) : Decidable (Allocated abi b) := by
  unfold Allocated; infer_instance

end MySQLBinding

/-! ## The calendar library (`utils.hpp`, namespace `tyme`) -/

/-- The record `tyme::tm_t`: the six calendar members the driver reads and
writes, and the remaining members of a `struct tm`, which it leaves at the
zero of `tm = {}`. All are of type `int`. -/
structure tm_t where
  tm_sec : Int
  tm_min : Int
  tm_hour : Int
  tm_mday : Int
  tm_mon : Int
  tm_year : Int
  tm_wday : Int
  tm_yday : Int
  tm_isdst : Int
  deriving DecidableEq, Repr

/-- The value of `tyme::tm_t tm = {}`. -/
def tm_t.zero : tm_t :=
  { tm_sec := 0, tm_min := 0, tm_hour := 0, tm_mday := 0, tm_mon := 0, tm_year := 0,
    tm_wday := 0, tm_yday := 0, tm_isdst := 0 }

/-- Two broken-down times with the same calendar fields. -/
def tm_t.SameCalendar (a b : tm_t) : Prop :=
  a.tm_year = b.tm_year ∧ a.tm_mon = b.tm_mon ∧ a.tm_mday = b.tm_mday ∧
    a.tm_hour = b.tm_hour ∧ a.tm_min = b.tm_min ∧ a.tm_sec = b.tm_sec

instance (a b : tm_t) : Decidable (a.SameCalendar b) := by
  unfold tm_t.SameCalendar; infer_instance

/-- The calendar fields are values of type `int`, and so are the year and
month the driver computes from them. -/
def tm_t.IsInts (a : tm_t) : Prop :=
  IsInt a.tm_year ∧ IsInt a.tm_mon ∧ IsInt a.tm_mday ∧ IsInt a.tm_hour ∧ IsInt a.tm_min ∧
    IsInt a.tm_sec ∧ IsInt (a.tm_year + 1900) ∧ IsInt (a.tm_mon + 1)

instance (a : tm_t) : Decidable a.IsInts := by
  unfold tm_t.IsInts; infer_instance

/-- The two functions of the calendar library the driver calls, on
`tyme::time_t` values. -/
structure Calendar where
  gmtime : Int → tm_t
  mktime : tm_t → Int

/-- The calendar library's `mktime` inverts its `gmtime`: it returns `t` for
the calendar fields `gmtime` gives for `t`. -/
def Calendar.Inverts (cal : Calendar) : Prop :=
  ∀ t tm, tm_t.SameCalendar tm (cal.gmtime t) → cal.mktime tm = t

/-- The assignments of `MySQLStatement::bindTime` to `MYSQL_TIME time = {}`. -/
def MYSQL_TIME.ofTm (tm : tm_t) : MYSQL_TIME :=
  { MYSQL_TIME.zero with
    year := u32 (tm.tm_year + 1900)
    month := u32 (tm.tm_mon + 1)
    day := u32 tm.tm_mday
    hour := u32 tm.tm_hour
    minute := u32 tm.tm_min
    second := u32 tm.tm_sec
    time_type := MYSQL_TIMESTAMP_DATETIME }

/-- The assignments of `MySQLCursor::getTimestamp` to `tyme::tm_t tm = {}`;
the subtractions are on `unsigned int`. -/
def tm_t.ofTime (time : MYSQL_TIME) : tm_t :=
  { tm_t.zero with
    tm_year := i32 (u32 ((time.year : Int) - 1900))
    tm_mon := i32 (u32 ((time.month : Int) - 1))
    tm_mday := i32 time.day
    tm_hour := i32 time.hour
    tm_min := i32 time.minute
    tm_sec := i32 time.second }

/-! ## `mysql.cpp`: `MySQLStatement`, parameter binding -/

/-- The class `MySQLStatement`, as far as binding goes: its `MySQLBinding`
base. -/
structure MySQLStatement extends MySQLBinding
  deriving DecidableEq, Repr

namespace MySQLStatement

/-- The method `bindNull(arg)`. -/
def bindNull (abi : ABI) (s : MySQLStatement) (arg : Int) : Bool × MySQLStatement :=
  if abi.size_t arg ≥ s.m_count then (false, s)
  else
    (true, { s with
      m_buffers := s.m_buffers.set arg.toNat none
      m_bind := s.m_bind.set arg.toNat
        { buffer := BufPtr.null, buffer_length := 0, buffer_type := MYSQL_TYPE_NULL } })

/-- The method `bindImpl(arg, value, len)`; `heap` says whether
`new (std::nothrow) char[len]` is served. When it is not, `m_buffers[arg]` is
null and `m_bind[arg].buffer` still holds the deleted pointer. -/
def bindImpl (abi : ABI) (heap : Bool) (s : MySQLStatement) (arg : Int) (len : Nat) :
    Bool × MySQLStatement :=
  if abi.size_t arg ≥ s.m_count then (false, s)
  else if !heap then
    (false, { s with
      m_buffers := s.m_buffers.set arg.toNat none
      m_bind := s.m_bind.set arg.toNat
        { (s.m_bind.getD arg.toNat default) with
          buffer := if (s.m_bind.getD arg.toNat default).buffer = BufPtr.null
            then BufPtr.null else BufPtr.stale } })
  else
    (true, { s with
      m_buffers := s.m_buffers.set arg.toNat (some (newChars len))
      m_bind := s.m_bind.set arg.toNat
        { (s.m_bind.getD arg.toNat default) with buffer := BufPtr.slot, buffer_length := len } })

/-- Write `bytes` from the start of `m_buffers[arg]`. -/
def poke (s : MySQLStatement) (arg : Int) (bytes : List Byte) : MySQLStatement :=
  let buffer := (s.m_buffers.getD arg.toNat none).map (fun buf => store buf bytes)
  { s with m_buffers := s.m_buffers.set arg.toNat buffer }

/-- Assign `m_bind[arg].buffer_type`. -/
def setType (s : MySQLStatement) (arg : Int) (ty : enum_field_types) : MySQLStatement :=
  let bind := { (s.m_bind.getD arg.toNat default) with buffer_type := ty }
  { s with m_bind := s.m_bind.set arg.toNat bind }

/-- The template `bindImpl<T>(arg, value)`: `size` is `sizeof(T)` and `repr`
the object representation of `value`. -/
def bindImplT (abi : ABI) (heap : Bool) (s : MySQLStatement) (arg : Int) (size : Nat)
    (repr : List Byte) : Bool × MySQLStatement :=
  let r := bindImpl abi heap s arg size
  if !r.1 then (false, r.2) else (true, r.2.poke arg repr)

/-- The method `bind(int arg, short value)`. -/
def bindShort (abi : ABI) (heap : Bool) (s : MySQLStatement) (arg : Int) (value : Int) :
    Bool × MySQLStatement :=
  let r := bindImplT abi heap s arg abi.sizeof_short (abi.repr_short value)
  if !r.1 then (false, r.2) else (true, r.2.setType arg MYSQL_TYPE_SHORT)

/-- The method `bind(int arg, long value)`. -/
def bindLong (abi : ABI) (heap : Bool) (s : MySQLStatement) (arg : Int) (value : Int) :
    Bool × MySQLStatement :=
  let r := bindImplT abi heap s arg abi.sizeof_long (abi.repr_long value)
  if !r.1 then (false, r.2) else (true, r.2.setType arg MYSQL_TYPE_LONG)

/-- The method `bind(int arg, int value)`, which is `bind(arg, (long)value)`. -/
def bindInt (abi : ABI) (heap : Bool) (s : MySQLStatement) (arg : Int) (value : Int) :
    Bool × MySQLStatement :=
  bindLong abi heap s arg value

/-- The method `bind(int arg, long long value)`. -/
def bindLongLong (abi : ABI) (heap : Bool) (s : MySQLStatement) (arg : Int) (value : Int) :
    Bool × MySQLStatement :=
  let r := bindImplT abi heap s arg abi.sizeof_long_long (abi.repr_long_long value)
  if !r.1 then (false, r.2) else (true, r.2.setType arg MYSQL_TYPE_LONGLONG)

/-- The method `bind(int arg, const char* value)`; `none` is a null
pointer, otherwise `value` is the memory pointed to. -/
def bindText (abi : ABI) (heap : Bool) (s : MySQLStatement) (arg : Int)
    (value : Option (List Byte)) : Bool × MySQLStatement :=
  match value with
  | none => bindNull abi s arg
  | some value =>
    let len := strlen value
    let r := bindImpl abi heap s arg len
    if !r.1 then (false, r.2)
    else (true, (r.2.poke arg (strncpy value len)).setType arg MYSQL_TYPE_STRING)

/-- The method `bind(int arg, const void* value, size_t size)`. -/
def bindBlob (abi : ABI) (heap : Bool) (s : MySQLStatement) (arg : Int)
    (value : Option (List Byte)) (size : Nat) : Bool × MySQLStatement :=
  match value with
  | none => bindNull abi s arg
  | some value =>
    let r := bindImpl abi heap s arg size
    if !r.1 then (false, r.2)
    else (true, (r.2.poke arg (memcpy value size)).setType arg MYSQL_TYPE_BLOB)

/-- The method `bindTime(int arg, tyme::time_t value)`. -/
def bindTime (abi : ABI) (cal : Calendar) (heap : Bool) (s : MySQLStatement) (arg : Int)
    (value : Int) : Bool × MySQLStatement :=
  let time := MYSQL_TIME.ofTm (cal.gmtime value)
  let r := bindImplT abi heap s arg abi.sizeof_MYSQL_TIME (abi.repr_MYSQL_TIME time)
  if !r.1 then (false, r.2) else (true, r.2.setType arg MYSQL_TYPE_TIMESTAMP)

end MySQLStatement

/-- Slot `i` of the buffer-set has type tag `ty`, a buffer holding exactly
`cells`, of the recorded length `len`, which `m_bind[i].buffer` points to. -/
def MySQLBinding.HoldsAt (b : MySQLBinding) (i : Nat) (ty : enum_field_types)
    (cells : List Cell) (len : Nat) : Prop :=
  b.m_bind[i]? = some { buffer_type := ty, buffer := BufPtr.slot, buffer_length := len } ∧
    b.m_buffers[i]? = some (some cells) ∧ cells.length = len

/-- Slot `i` of the buffer-set has no buffer, length zero and the null type. -/
def MySQLBinding.NullAt (b : MySQLBinding) (i : Nat) : Prop :=
  b.m_bind[i]? =
      some { buffer_type := MYSQL_TYPE_NULL, buffer := BufPtr.null, buffer_length := 0 } ∧
    b.m_buffers[i]? = some none

/-- Every slot of `b2` other than `i` is as in `b1`, and so is the count. -/
def MySQLBinding.SameExcept (b1 b2 : MySQLBinding) (i : Nat) : Prop :=
  b2.m_count = b1.m_count ∧ b2.m_bind.length = b1.m_bind.length ∧
    b2.m_buffers.length = b1.m_buffers.length ∧
    ∀ j, j ≠ i → b2.m_bind[j]? = b1.m_bind[j]? ∧ b2.m_buffers[j]? = b1.m_buffers[j]?

/-- The `n` low bytes of `x`, least significant first. -/
def leBytes : Nat → Nat → List Byte
  | 0, _ => []
  | n + 1, x => x % 256 :: leBytes n (x / 256)

/-- The number a little-endian byte sequence stands for. -/
def leNat : List Byte → Nat
  | [] => 0
  | b :: bs => b + 256 * leNat bs

/-- The two's complement representation of `v` on `n` bytes. -/
def leInt (n : Nat) (v : Int) : List Byte := leBytes n (v % (256 ^ n : Nat)).toNat

/-- The signed value of a little-endian two's complement byte sequence. -/
def leSigned (bs : List Byte) : Int :=
  if leNat bs < 256 ^ bs.length / 2 then leNat bs else (leNat bs : Int) - (256 ^ bs.length : Nat)

/-- The value of an `enum_mysql_timestamp_type`. -/
def enum_mysql_timestamp_type.toInt : enum_mysql_timestamp_type → Int
  | MYSQL_TIMESTAMP_NONE => -2
  | MYSQL_TIMESTAMP_ERROR => -1
  | MYSQL_TIMESTAMP_DATE => 0
  | MYSQL_TIMESTAMP_DATETIME => 1
  | MYSQL_TIMESTAMP_TIME => 2

/-- The `enum_mysql_timestamp_type` of a value. -/
def enum_mysql_timestamp_type.ofValue (n : Nat) : enum_mysql_timestamp_type :=
  if n = 4294967294 then MYSQL_TIMESTAMP_NONE
  else if n = 4294967295 then MYSQL_TIMESTAMP_ERROR
  else if n = 1 then MYSQL_TIMESTAMP_DATETIME
  else if n = 2 then MYSQL_TIMESTAMP_TIME
  else MYSQL_TIMESTAMP_DATE

/-- A 64-bit little-endian platform with 8-byte `long`, and the layout of
`MYSQL_TIME` there: six 4-byte fields, the 8-byte fraction, the sign byte
with three bytes of padding, the 4-byte kind. -/
def lp64 : ABI where
  SIZE_MAX := 18446744073709551615
  sizeof_pointer := 8
  sizeof_MYSQL_BIND := 112
  sizeof_short := 2
  sizeof_long := 8
  sizeof_long_long := 8
  sizeof_float := 4
  sizeof_double := 8
  sizeof_MYSQL_TIME := 40
  repr_short := leInt 2
  repr_long := leInt 8
  repr_long_long := leInt 8
  repr_MYSQL_TIME := fun t =>
    leBytes 4 t.year ++ leBytes 4 t.month ++ leBytes 4 t.day ++ leBytes 4 t.hour ++
      leBytes 4 t.minute ++ leBytes 4 t.second ++ leBytes 8 t.second_part ++
      [if t.neg then 1 else 0, 0, 0, 0] ++ leInt 4 t.time_type.toInt
  load_long := leSigned
  load_long_long := leSigned
  load_MYSQL_TIME := fun bs =>
    { year := leNat (bs.take 4)
      month := leNat ((bs.drop 4).take 4)
      day := leNat ((bs.drop 8).take 4)
      hour := leNat ((bs.drop 12).take 4)
      minute := leNat ((bs.drop 16).take 4)
      second := leNat ((bs.drop 20).take 4)
      second_part := leNat ((bs.drop 24).take 8)
      neg := (bs.getD 32 0) != 0
      time_type := enum_mysql_timestamp_type.ofValue (leNat ((bs.drop 36).take 4)) }

/-- A 32-bit little-endian platform with 4-byte pointers, `size_t` and
`long`, and the layout of `MYSQL_TIME` there: six 4-byte fields, the 4-byte
fraction, the sign byte with three bytes of padding, the 4-byte kind. -/
def ilp32 : ABI where
  SIZE_MAX := 4294967295
  sizeof_pointer := 4
  sizeof_MYSQL_BIND := 64
  sizeof_short := 2
  sizeof_long := 4
  sizeof_long_long := 8
  sizeof_float := 4
  sizeof_double := 8
  sizeof_MYSQL_TIME := 36
  repr_short := leInt 2
  repr_long := leInt 4
  repr_long_long := leInt 8
  repr_MYSQL_TIME := fun t =>
    leBytes 4 t.year ++ leBytes 4 t.month ++ leBytes 4 t.day ++ leBytes 4 t.hour ++
      leBytes 4 t.minute ++ leBytes 4 t.second ++ leBytes 4 t.second_part ++
      [if t.neg then 1 else 0, 0, 0, 0] ++ leInt 4 t.time_type.toInt
  load_long := leSigned
  load_long_long := leSigned
  load_MYSQL_TIME := fun bs =>
    { year := leNat (bs.take 4)
      month := leNat ((bs.drop 4).take 4)
      day := leNat ((bs.drop 8).take 4)
      hour := leNat ((bs.drop 12).take 4)
      minute := leNat ((bs.drop 16).take 4)
      second := leNat ((bs.drop 20).take 4)
      second_part := leNat ((bs.drop 24).take 4)
      neg := (bs.getD 28 0) != 0
      time_type := enum_mysql_timestamp_type.ofValue (leNat ((bs.drop 32).take 4)) }

/-- A statement with three parameters, none bound yet. -/
def sampleStatement : MySQLStatement :=
  { m_bind := List.replicate 3 MYSQL_BIND.zero, m_buffers := List.replicate 3 none, m_count := 3 }

/-- The outcome `r` of a bind on `s` is success, slot `i` holding `cells`
under the tag `ty` with length `len`, and no other slot changed. -/
def MySQLStatement.Bound (s : MySQLStatement) (r : Bool × MySQLStatement) (i : Nat)
    (ty : enum_field_types) (cells : List Cell) (len : Nat) : Prop :=
  r.1 = true ∧ r.2.toMySQLBinding.HoldsAt i ty cells len ∧
    s.toMySQLBinding.SameExcept r.2.toMySQLBinding i

/-- The outcome `r` of a bind on `s` is success, slot `i` being null, and
no other slot changed. -/
def MySQLStatement.BoundNull (s : MySQLStatement) (r : Bool × MySQLStatement) (i : Nat) : Prop :=
  r.1 = true ∧ r.2.toMySQLBinding.NullAt i ∧ s.toMySQLBinding.SameExcept r.2.toMySQLBinding i

/-! ## `mysql.cpp`: `MySQLCursor`, column access -/

/-- The calls of the native client library on the statement handle. -/
inductive NativeCall where
  | mysql_stmt_fetch
  | mysql_stmt_fetch_column (buffer_type : enum_field_types) (buffer_length : Nat) (column : Nat)
  | mysql_stmt_result_metadata
  | mysql_stmt_bind_result (bind : List MYSQL_BIND)
  | mysql_stmt_bind_param (bind : List MYSQL_BIND)
  | mysql_stmt_attr_set
  | mysql_stmt_execute
  deriving DecidableEq, Repr

/-- The function `mysql_stmt_fetch_column(stmt, bind, column, 0)` of the
client library, on a statement handle of state `σ`: given the type and the
length of the `bind` and the column, the return code and the bytes stored
through `bind->buffer`. -/
structure Native (σ : Type) where
  mysql_stmt_fetch_column : σ → enum_field_types → Nat → Nat → (Int × List Byte) × σ

/-- The object behind `m_stmt`: the handle's state and the ghost log of the
native calls made on it, oldest first. -/
structure StmtObj (σ : Type) where
  st : σ
  log : List NativeCall
  deriving DecidableEq

/-- Call `mysql_stmt_fetch_column(m_stmt, &bind, column, 0)`. -/
def StmtObj.mysql_stmt_fetch_column {σ : Type} (N : Native σ) (m : StmtObj σ)
    (buffer_type : enum_field_types) (buffer_length : Nat) (column : Nat) :
    (Int × List Byte) × StmtObj σ :=
  let r := N.mysql_stmt_fetch_column m.st buffer_type buffer_length column
  (r.1, { st := r.2,
          log := m.log ++ [NativeCall.mysql_stmt_fetch_column buffer_type buffer_length column] })

/-- The class `MySQLCursor`: the `MySQLBinding` base, the three indicator
arrays and the statement handle. -/
structure MySQLCursor (σ : Type) extends MySQLBinding where
  m_lengths : List Nat
  m_is_null : List Bool
  m_error : List Bool
  m_stmt : StmtObj σ
  deriving DecidableEq

/-- A write outside a buffer: the behaviour of the program is undefined. -/
inductive Fault where
  | outOfBounds (index : Nat) (capacity : Nat)
  deriving DecidableEq, Repr

/-- The template `getIntType<T>(stmt, column, type)`: `zero` is the object
representation of `T ret = 0` and `load` reads a `T`. -/
def getIntType {σ : Type} (N : Native σ) (stmt : StmtObj σ) (column : Int)
    (type : enum_field_types) (zero : List Byte) (load : List Byte → Int) : Int × StmtObj σ :=
  let r := stmt.mysql_stmt_fetch_column N type 0 (u32 column)
  if r.1.1 ≠ 0 then (0, r.2) else (load (overwrite zero r.1.2), r.2)

namespace MySQLCursor

variable {σ : Type}

/-- The method `getLong(column)`; `return false` is the value 0. -/
def getLong (abi : ABI) (N : Native σ) (c : MySQLCursor σ) (column : Int) :
    Int × MySQLCursor σ :=
  if abi.size_t column ≥ c.m_count then (0, c)
  else if c.m_is_null.getD column.toNat false then (0, c)
  else
    let r := getIntType N c.m_stmt column MYSQL_TYPE_LONG (abi.repr_long 0) abi.load_long
    (r.1, { c with m_stmt := r.2 })

/-- The method `getInt(column)`, which converts `getLong(column)` to `int`. -/
def getInt (abi : ABI) (N : Native σ) (c : MySQLCursor σ) (column : Int) :
    Int × MySQLCursor σ :=
  let r := getLong abi N c column
  (i32 r.1, r.2)

/-- The method `getLongLong(column)`. -/
def getLongLong (abi : ABI) (N : Native σ) (c : MySQLCursor σ) (column : Int) :
    Int × MySQLCursor σ :=
  if abi.size_t column ≥ c.m_count then (0, c)
  else if c.m_is_null.getD column.toNat false then (0, c)
  else
    let r := getIntType N c.m_stmt column MYSQL_TYPE_LONGLONG (abi.repr_long_long 0)
      abi.load_long_long
    (r.1, { c with m_stmt := r.2 })

/-- The method `getTimestamp(column)`. -/
def getTimestamp (abi : ABI) (cal : Calendar) (N : Native σ) (c : MySQLCursor σ)
    (column : Int) : Int × MySQLCursor σ :=
  if abi.size_t column ≥ c.m_count then (0, c)
  else if c.m_is_null.getD column.toNat false then (0, c)
  else
    let r := c.m_stmt.mysql_stmt_fetch_column N MYSQL_TYPE_TIMESTAMP 0 (u32 column)
    if r.1.1 ≠ 0 then (0, { c with m_stmt := r.2 })
    else
      let time := abi.load_MYSQL_TIME (overwrite (abi.repr_MYSQL_TIME MYSQL_TIME.zero) r.1.2)
      (cal.mktime (tm_t.ofTime time), { c with m_stmt := r.2 })

/-- The common body of `getText(column)` and `getBlob(column)`, which
differ in the type `ty` they fetch as. `heap` says whether
`new (std::nothrow) char[m_lengths[column] + 1]` is served. The result is the
buffer the returned pointer points to, `none` for a null pointer. -/
def getBytes (ty : enum_field_types) (abi : ABI) (N : Native σ) (heap : Bool)
    (c : MySQLCursor σ) (column : Int) : Except Fault (Option (List Cell) × MySQLCursor σ) :=
  if abi.size_t column ≥ c.m_count then Except.ok (none, c)
  else if c.m_is_null.getD column.toNat false then Except.ok (none, c)
  else
    let i := column.toNat
    let len := c.m_lengths.getD i 0
    let grow := c.m_error.getD i false || (c.m_buffers.getD i none).isNone
    if grow && !heap then Except.ok (none, c)
    else
      let bind : MYSQL_BIND := { buffer_type := ty, buffer := BufPtr.slot, buffer_length := len }
      let c1 : MySQLCursor σ :=
        if grow then
          { c with m_buffers := c.m_buffers.set i (some (newChars (len + 1)))
                   m_bind := c.m_bind.set i bind }
        else c
      let r := c1.m_stmt.mysql_stmt_fetch_column N ty len (u32 column)
      if r.1.1 ≠ 0 then Except.ok (none, { c1 with m_stmt := r.2 })
      else
        let buffer := store ((c1.m_buffers.getD i none).getD []) (r.1.2.take len)
        if len < buffer.length then
          let buffer := buffer.set len (some 0)
          Except.ok (some buffer,
            { c1 with m_stmt := r.2, m_buffers := c1.m_buffers.set i (some buffer) })
        else Except.error (Fault.outOfBounds len buffer.length)

/-- The method `getText(column)`. -/
def getText (abi : ABI) (N : Native σ) (heap : Bool) (c : MySQLCursor σ) (column : Int) :
    Except Fault (Option (List Cell) × MySQLCursor σ) :=
  getBytes MYSQL_TYPE_STRING abi N heap c column

/-- The method `getBlobSize(column)`. -/
def getBlobSize (abi : ABI) (c : MySQLCursor σ) (column : Int) : Nat :=
  if abi.size_t column ≥ c.m_count then 0 else c.m_lengths.getD column.toNat 0

/-- The method `getBlob(column)`. -/
def getBlob (abi : ABI) (N : Native σ) (heap : Bool) (c : MySQLCursor σ) (column : Int) :
    Except Fault (Option (List Cell) × MySQLCursor σ) :=
  getBytes MYSQL_TYPE_BLOB abi N heap c column

/-- The method `isNull(column)`. -/
def isNull (abi : ABI) (c : MySQLCursor σ) (column : Int) : Bool :=
  if abi.size_t column ≥ c.m_count then true else c.m_is_null.getD column.toNat false

end MySQLCursor

/-- The six calendar members of two `MYSQL_TIME` records are the same. -/
def MYSQL_TIME.SameFields (a b : MYSQL_TIME) : Prop :=
  a.year = b.year ∧ a.month = b.month ∧ a.day = b.day ∧ a.hour = b.hour ∧
    a.minute = b.minute ∧ a.second = b.second

instance (a b : MYSQL_TIME) : Decidable (a.SameFields b) := by
  unfold MYSQL_TIME.SameFields; infer_instance

/-- The client library, for column `column` of the current row, fetched as a
timestamp, succeeds and stores the record `tv`. -/
def Native.HoldsTime {σ : Type} (abi : ABI) (N : Native σ) (st : σ) (column : Nat)
    (tv : MYSQL_TIME) : Prop :=
  (N.mysql_stmt_fetch_column st MYSQL_TYPE_TIMESTAMP 0 column).1 = (0, abi.repr_MYSQL_TIME tv)

/-- A client library whose every column holds the record `tv`; the handle
counts the fetches. -/
def timeNative (tv : MYSQL_TIME) : Native Nat where
  mysql_stmt_fetch_column := fun n _ _ _ => ((0, lp64.repr_MYSQL_TIME tv), n + 1)

/-- A calendar library on days and seconds since the first day of the
month of January 1970, enough to see one value go round: `gmtime` splits the
seconds of that month into day, hour, minute and second, and `mktime` puts
them together. -/
def sampleCalendar : Calendar where
  gmtime := fun t =>
    { tm_t.zero with
      tm_year := 70, tm_mon := 0, tm_mday := t / 86400 + 1, tm_hour := t % 86400 / 3600,
      tm_min := t % 3600 / 60, tm_sec := t % 60, tm_wday := (t / 86400 + 4) % 7,
      tm_yday := t / 86400 }
  mktime := fun tm =>
    (tm.tm_mday - 1) * 86400 + tm.tm_hour * 3600 + tm.tm_min * 60 + tm.tm_sec

/-- A cursor over two columns on its first row: column 0 is not null,
column 1 is null. -/
def sampleCursor : MySQLCursor Nat :=
  { m_bind := List.replicate 2 MYSQL_BIND.zero, m_buffers := [none, none], m_count := 2,
    m_lengths := [0, 0], m_is_null := [false, true], m_error := [false, false],
    m_stmt := { st := 0, log := [] } }

end db

namespace db

/-- Two calls of `getText`/`getBlob` in a row on the same column, the second
with the heap outcome `heap2`: the two results and the cursor after each. -/
def MySQLCursor.getBytesTwice {σ : Type} (ty : enum_field_types) (abi : ABI) (N : Native σ)
    (heap1 heap2 : Bool) (c : MySQLCursor σ) (column : Int) :
    Except Fault ((Option (List Cell) × MySQLCursor σ) × (Option (List Cell) × MySQLCursor σ)) :=
  match MySQLCursor.getBytes ty abi N heap1 c column with
  | Except.error f => Except.error f
  | Except.ok r1 =>
    match MySQLCursor.getBytes ty abi N heap2 r1.2 column with
    | Except.error f => Except.error f
    | Except.ok r2 => Except.ok (r1, r2)

/-- A client library whose every column holds the bytes `data`, delivered
up to the length of the `bind`; the handle counts the fetches. -/
def bytesNative (data : List Byte) : Native Nat where
  mysql_stmt_fetch_column := fun n _ len _ => ((0, data.take len), n + 1)

/-- A cursor on a row whose only column is a text of two bytes that did not
fit the buffer of the bulk fetch: no buffer yet, truncation flagged. -/
def truncatedCursor : MySQLCursor Nat :=
  { m_bind := [{ buffer_type := MYSQL_TYPE_VAR_STRING, buffer := BufPtr.null,
                 buffer_length := 0 }],
    m_buffers := [none], m_count := 1, m_lengths := [2], m_is_null := [false],
    m_error := [true], m_stmt := { st := 0, log := [] } }

/-- The number of native calls logged after each of two calls in a row. -/
def MySQLCursor.fetchCounts {σ : Type}
    (r : Except Fault ((Option (List Cell) × MySQLCursor σ) × (Option (List Cell) × MySQLCursor σ))) :
    Option (Nat × Nat) :=
  match r with
  | Except.error _ => none
  | Except.ok r => some (r.1.2.m_stmt.log.length, r.2.2.m_stmt.log.length)

/-- The buffers returned by two calls in a row, `none` for a null pointer. -/
def MySQLCursor.results {σ : Type}
    (r : Except Fault ((Option (List Cell) × MySQLCursor σ) × (Option (List Cell) × MySQLCursor σ))) :
    Option (Option (List Cell) × Option (List Cell)) :=
  match r with
  | Except.error _ => none
  | Except.ok r => some (r.1.1, r.2.1)

/-- The cursor `truncatedCursor` after a first `getText(0)` served by
`bytesNative [104, 105]`. -/
def truncatedCursorRead : MySQLCursor Nat :=
  { m_bind := [{ buffer_type := MYSQL_TYPE_STRING, buffer := BufPtr.slot, buffer_length := 2 }],
    m_buffers := [some [some 104, some 105, some 0]], m_count := 1, m_lengths := [2],
    m_is_null := [false], m_error := [true],
    m_stmt := { st := 1, log := [NativeCall.mysql_stmt_fetch_column MYSQL_TYPE_STRING 2 0] } }

end db

namespace db

/-! ## `mysql.cpp`: preparing a cursor and fetching rows -/

/-- The sizes `fieldSize` can return are proper sizes: none is zero and none
is `(size_t)-1`. -/
def ABI.SizesFit (abi : ABI) : Prop :=
  1 < abi.SIZE_MAX ∧
  (0 < abi.sizeof_short ∧ abi.sizeof_short < abi.SIZE_MAX) ∧
  (0 < abi.sizeof_long ∧ abi.sizeof_long < abi.SIZE_MAX) ∧
  (0 < abi.sizeof_long_long ∧ abi.sizeof_long_long < abi.SIZE_MAX) ∧
  (0 < abi.sizeof_float ∧ abi.sizeof_float < abi.SIZE_MAX) ∧
  (0 < abi.sizeof_double ∧ abi.sizeof_double < abi.SIZE_MAX) ∧
  (0 < abi.sizeof_MYSQL_TIME ∧ abi.sizeof_MYSQL_TIME < abi.SIZE_MAX)

instance (abi : ABI) : Decidable abi.SizesFit := by
  unfold ABI.SizesFit; infer_instance

/-- The function `fieldSize(fld_type)`; `(size_t)-1` is `SIZE_MAX`, and
`sizeof(char)` is 1. -/
def fieldSize (abi : ABI) : enum_field_types → Nat
  | MYSQL_TYPE_TINY => 1
  | MYSQL_TYPE_SHORT => abi.sizeof_short
  | MYSQL_TYPE_INT24 => abi.sizeof_long
  | MYSQL_TYPE_LONG => abi.sizeof_long
  | MYSQL_TYPE_LONGLONG => abi.sizeof_long_long
  | MYSQL_TYPE_FLOAT => abi.sizeof_float
  | MYSQL_TYPE_DOUBLE => abi.sizeof_double
  | MYSQL_TYPE_NULL => 0
  | MYSQL_TYPE_YEAR => abi.sizeof_short
  | MYSQL_TYPE_TIMESTAMP => abi.sizeof_MYSQL_TIME
  | MYSQL_TYPE_DATE => abi.sizeof_MYSQL_TIME
  | MYSQL_TYPE_TIME => abi.sizeof_MYSQL_TIME
  | MYSQL_TYPE_DATETIME => abi.sizeof_MYSQL_TIME
  | MYSQL_TYPE_NEWDECIMAL => 0
  | MYSQL_TYPE_VARCHAR => 0
  | MYSQL_TYPE_BIT => 0
  | MYSQL_TYPE_TINY_BLOB => 0
  | MYSQL_TYPE_MEDIUM_BLOB => 0
  | MYSQL_TYPE_LONG_BLOB => 0
  | MYSQL_TYPE_BLOB => 0
  | MYSQL_TYPE_VAR_STRING => 0
  | MYSQL_TYPE_STRING => 0
  | _ => abi.SIZE_MAX

/-- The static `MySQLCursor::bindResult(field, bind, buffer)` on the type of
the field; `heap` says whether `new (std::nothrow) char[size]` is served. The
result is the return value and `bind` and `buffer` after the call. -/
def bindResult (abi : ABI) (heap : Bool) (field_type : enum_field_types) (bind : MYSQL_BIND)
    (buffer : Option (List Cell)) : Bool × MYSQL_BIND × Option (List Cell) :=
  let size := fieldSize abi field_type
  if size = abi.SIZE_MAX then (false, bind, buffer)
  else
    let ptr := if buffer.isSome then BufPtr.slot else BufPtr.null
    let bind1 : MYSQL_BIND := { buffer_type := field_type, buffer_length := 0, buffer := ptr }
    if size = 0 then (true, bind1, buffer)
    else if !heap then
      (false, { bind1 with buffer := if buffer.isSome then BufPtr.stale else BufPtr.null }, none)
    else
      (true, { bind1 with buffer := BufPtr.slot, buffer_length := size }, some (newChars size))

/-- What `mysql_stmt_fetch` stores for one column of the row through the
pointers of the column's `MYSQL_BIND`: the length, the null and truncation
indicators, and the bytes put in the buffer. -/
structure ColumnFetch where
  length : Nat
  is_null : Bool
  error : Bool
  data : List Byte
  deriving DecidableEq, Repr

/-- The functions of the client library the statement and the cursor call
besides `mysql_stmt_fetch_column`. `mysql_stmt_result_metadata` with
`mysql_num_fields` and `mysql_fetch_fields` gives the types of the result's
fields, or nothing. -/
structure NativeStmt (σ : Type) extends Native σ where
  mysql_stmt_result_metadata : σ → Option (List enum_field_types) × σ
  mysql_stmt_bind_result : σ → List MYSQL_BIND → Int × σ
  mysql_stmt_fetch : σ → (Int × List ColumnFetch) × σ
  mysql_stmt_bind_param : σ → List MYSQL_BIND → Int × σ
  mysql_stmt_attr_set : σ → Int × σ
  mysql_stmt_execute : σ → Int × σ

/-- The constant `MYSQL_DATA_TRUNCATED`. -/
def MYSQL_DATA_TRUNCATED : Int := 101

/-- Call `mysql_stmt_result_metadata(m_stmt)`. -/
def StmtObj.mysql_stmt_result_metadata {σ : Type} (N : NativeStmt σ) (m : StmtObj σ) :
    Option (List enum_field_types) × StmtObj σ :=
  let r := N.mysql_stmt_result_metadata m.st
  (r.1, { st := r.2, log := m.log ++ [NativeCall.mysql_stmt_result_metadata] })

/-- Call `mysql_stmt_bind_result(m_stmt, m_bind)`. -/
def StmtObj.mysql_stmt_bind_result {σ : Type} (N : NativeStmt σ) (m : StmtObj σ)
    (bind : List MYSQL_BIND) : Int × StmtObj σ :=
  let r := N.mysql_stmt_bind_result m.st bind
  (r.1, { st := r.2, log := m.log ++ [NativeCall.mysql_stmt_bind_result bind] })

/-- Call `mysql_stmt_fetch(m_stmt)`. -/
def StmtObj.mysql_stmt_fetch {σ : Type} (N : NativeStmt σ) (m : StmtObj σ) :
    (Int × List ColumnFetch) × StmtObj σ :=
  let r := N.mysql_stmt_fetch m.st
  (r.1, { st := r.2, log := m.log ++ [NativeCall.mysql_stmt_fetch] })

/-- Call `mysql_stmt_bind_param(m_stmt, m_bind)`. -/
def StmtObj.mysql_stmt_bind_param {σ : Type} (N : NativeStmt σ) (m : StmtObj σ)
    (bind : List MYSQL_BIND) : Int × StmtObj σ :=
  let r := N.mysql_stmt_bind_param m.st bind
  (r.1, { st := r.2, log := m.log ++ [NativeCall.mysql_stmt_bind_param bind] })

/-- Call `mysql_stmt_attr_set(m_stmt, STMT_ATTR_CURSOR_TYPE, &type)`. -/
def StmtObj.mysql_stmt_attr_set {σ : Type} (N : NativeStmt σ) (m : StmtObj σ) :
    Int × StmtObj σ :=
  let r := N.mysql_stmt_attr_set m.st
  (r.1, { st := r.2, log := m.log ++ [NativeCall.mysql_stmt_attr_set] })

/-- Call `mysql_stmt_execute(m_stmt)`. -/
def StmtObj.mysql_stmt_execute {σ : Type} (N : NativeStmt σ) (m : StmtObj σ) :
    Int × StmtObj σ :=
  let r := N.mysql_stmt_execute m.st
  (r.1, { st := r.2, log := m.log ++ [NativeCall.mysql_stmt_execute] })

/-- Which of the allocations of `MySQLCursor::prepare` the heap serves: the
five arrays of `allocBind`, and the buffer of each column in `bindResult`. -/
structure PrepareHeap where
  bind : Bool
  buffers : Bool
  lengths : Bool
  is_null : Bool
  error : Bool
  column : Nat → Bool

/-- A heap that serves every allocation. -/
def PrepareHeap.all : PrepareHeap :=
  { bind := true, buffers := true, lengths := true, is_null := true, error := true,
    column := fun _ => true }

namespace MySQLCursor

variable {σ : Type}

/-- The constructor `MySQLCursor(mysql, stmt, parent)`. -/
def new (stmt : StmtObj σ) : MySQLCursor σ :=
  { MySQLBinding.new with m_lengths := [], m_is_null := [], m_error := [], m_stmt := stmt }

/-- The method `MySQLCursor::allocBind(count)`. -/
def allocBind (abi : ABI) (heap : PrepareHeap) (c : MySQLCursor σ) (count : Nat) :
    Bool × MySQLCursor σ :=
  let r := MySQLBinding.allocBind abi heap.bind heap.buffers c.toMySQLBinding count
  if !r.1 then (false, c)
  else if !heap.lengths || !heap.is_null || !heap.error then
    (false, { c with toMySQLBinding := r.2 })
  else
    (true, { c with
      toMySQLBinding := r.2
      m_lengths := List.replicate count 0
      m_is_null := List.replicate count false
      m_error := List.replicate count false })

/-- The loop `for (i = 0; i < m_count; ++i) if (!bindResult(...)) return false`
of `prepare`, from index `i` on the fields not bound yet. -/
def bindResults (abi : ABI) (heap : PrepareHeap) :
    List enum_field_types → Nat → MySQLBinding → Bool × MySQLBinding
  | [], _, b => (true, b)
  | field :: fields, i, b =>
    let r := bindResult abi (heap.column i) field (b.m_bind.getD i default)
      (b.m_buffers.getD i none)
    let b1 : MySQLBinding :=
      { b with m_bind := b.m_bind.set i r.2.1, m_buffers := b.m_buffers.set i r.2.2 }
    if !r.1 then (false, b1) else bindResults abi heap fields (i + 1) b1

/-- The method `MySQLCursor::prepare()`. -/
def prepare (abi : ABI) (N : NativeStmt σ) (heap : PrepareHeap) (c : MySQLCursor σ) :
    Bool × MySQLCursor σ :=
  let metadata := c.m_stmt.mysql_stmt_result_metadata N
  let c0 : MySQLCursor σ := { c with m_stmt := metadata.2 }
  match metadata.1 with
  | none => (false, c0)
  | some fields =>
    let a := allocBind abi heap c0 fields.length
    if !a.1 then (false, a.2)
    else
      let b := bindResults abi heap fields 0 a.2.toMySQLBinding
      let c1 : MySQLCursor σ := { a.2 with toMySQLBinding := b.2 }
      if !b.1 then (false, c1)
      else
        let r := c1.m_stmt.mysql_stmt_bind_result N c1.m_bind
        (r.1 == 0, { c1 with m_stmt := r.2 })

/-- The reports of `mysql_stmt_fetch` stored column by column from index `i`. -/
def storeFetch : List ColumnFetch → Nat → MySQLCursor σ → MySQLCursor σ
  | [], _, c => c
  | f :: fs, i, c =>
    storeFetch fs (i + 1)
      { c with
        m_lengths := c.m_lengths.set i f.length
        m_is_null := c.m_is_null.set i f.is_null
        m_error := c.m_error.set i f.error
        m_buffers := c.m_buffers.set i ((c.m_buffers.getD i none).map (fun buf => store buf f.data)) }

/-- The method `MySQLCursor::next()`. The library stores what it reports for
each column through the pointers it was given by `mysql_stmt_bind_result`. -/
def next (N : NativeStmt σ) (c : MySQLCursor σ) : Bool × MySQLCursor σ :=
  let r := c.m_stmt.mysql_stmt_fetch N
  let c1 := storeFetch r.1.2 0 { c with m_stmt := r.2 }
  let rc := if r.1.1 = MYSQL_DATA_TRUNCATED then 0 else r.1.1
  (rc == 0, c1)

end MySQLCursor

/-- Which allocations a call of `query()` finds served. -/
structure QueryHeap where
  cursor : Bool
  prepare : PrepareHeap

/-- The method `MySQLStatement::query()` on the statement's handle `stmt`;
`none` is the null `CursorPtr`. -/
def MySQLStatement.query {σ : Type} (abi : ABI) (N : NativeStmt σ) (heap : QueryHeap)
    (s : MySQLStatement) (stmt : StmtObj σ) : Option (MySQLCursor σ) × StmtObj σ :=
  let r1 := stmt.mysql_stmt_bind_param N s.m_bind
  if r1.1 ≠ 0 then (none, r1.2)
  else
    let r2 := r1.2.mysql_stmt_attr_set N
    if r2.1 ≠ 0 then (none, r2.2)
    else
      let r3 := r2.2.mysql_stmt_execute N
      if r3.1 ≠ 0 then (none, r3.2)
      else if !heap.cursor then (none, r3.2)
      else
        let p := MySQLCursor.prepare abi N heap.prepare (MySQLCursor.new r3.2)
        if !p.1 then (none, p.2.m_stmt) else (some p.2, p.2.m_stmt)

end db

namespace db

/-- In the words of the claim: the initial buffer length of a column by its
native type. Zero for the variable-width types (decimal as text, varchar,
bit, the four blobs, var-string, string), the static width for the
fixed-width types, nothing for any other type. -/
def claimedWidth (abi : ABI) : enum_field_types → Option Nat
  | MYSQL_TYPE_NEWDECIMAL => some 0
  | MYSQL_TYPE_VARCHAR => some 0
  | MYSQL_TYPE_BIT => some 0
  | MYSQL_TYPE_TINY_BLOB => some 0
  | MYSQL_TYPE_MEDIUM_BLOB => some 0
  | MYSQL_TYPE_LONG_BLOB => some 0
  | MYSQL_TYPE_BLOB => some 0
  | MYSQL_TYPE_VAR_STRING => some 0
  | MYSQL_TYPE_STRING => some 0
  | MYSQL_TYPE_TINY => some 1
  | MYSQL_TYPE_SHORT => some abi.sizeof_short
  | MYSQL_TYPE_YEAR => some abi.sizeof_short
  | MYSQL_TYPE_INT24 => some abi.sizeof_long
  | MYSQL_TYPE_LONG => some abi.sizeof_long
  | MYSQL_TYPE_LONGLONG => some abi.sizeof_long_long
  | MYSQL_TYPE_FLOAT => some abi.sizeof_float
  | MYSQL_TYPE_DOUBLE => some abi.sizeof_double
  | MYSQL_TYPE_TIMESTAMP => some abi.sizeof_MYSQL_TIME
  | MYSQL_TYPE_DATE => some abi.sizeof_MYSQL_TIME
  | MYSQL_TYPE_TIME => some abi.sizeof_MYSQL_TIME
  | MYSQL_TYPE_DATETIME => some abi.sizeof_MYSQL_TIME
  | _ => none

/-- The claim's table with the null type added, of width zero. -/
def supportedWidth (abi : ABI) (ty : enum_field_types) : Option Nat :=
  if ty = MYSQL_TYPE_NULL then some 0 else claimedWidth abi ty

/-- A slot as preparation leaves it for a column of a supported type `ty`:
the tag is `ty`; for width zero there is no buffer and the length is zero,
otherwise the buffer has the width's length, which is the recorded length. -/
def PreparedSlot (abi : ABI) (ty : enum_field_types) (bind : MYSQL_BIND)
    (buffer : Option (List Cell)) : Prop :=
  ∃ w, supportedWidth abi ty = some w ∧
    ((w = 0 ∧ bind = { buffer_type := ty, buffer := BufPtr.null, buffer_length := 0 } ∧
        buffer = none) ∨
     (0 < w ∧ bind = { buffer_type := ty, buffer := BufPtr.slot, buffer_length := w } ∧
        ∃ cells, buffer = some cells ∧ cells.length = w))

/-- Every column `i` of `fields` has its slot prepared in `b`. -/
def PreparedSlots (abi : ABI) (fields : List enum_field_types) (b : MySQLBinding) : Prop :=
  b.m_count = fields.length ∧
    ∀ i ty, fields[i]? = some ty →
      PreparedSlot abi ty (b.m_bind.getD i default) (b.m_buffers.getD i none)

/-- A client library for a result with the given field types on which every
call succeeds; `mysql_stmt_fetch` reports `row` for every row. -/
def fieldsNative (fields : List enum_field_types) (row : List ColumnFetch) : NativeStmt Nat where
  mysql_stmt_fetch_column := fun n _ len _ => ((0, List.replicate len 49), n + 1)
  mysql_stmt_result_metadata := fun n => (some fields, n + 1)
  mysql_stmt_bind_result := fun n _ => (0, n + 1)
  mysql_stmt_fetch := fun n => ((0, row), n + 1)
  mysql_stmt_bind_param := fun n _ => (0, n + 1)
  mysql_stmt_attr_set := fun n => (0, n + 1)
  mysql_stmt_execute := fun n => (0, n + 1)

end db

namespace db

/-- The row the library reports for a result with one `TINY` column holding
5: length 1, not null, not truncated, one byte stored. -/
def tinyRow : List ColumnFetch :=
  [{ length := 1, is_null := false, error := false, data := [5] }]

/-- The cursor over that result after `prepare()` and one `next()`. -/
def tinyCursor : MySQLCursor Nat :=
  (MySQLCursor.next (fieldsNative [MYSQL_TYPE_TINY] tinyRow)
    (MySQLCursor.prepare lp64 (fieldsNative [MYSQL_TYPE_TINY] tinyRow) PrepareHeap.all
      (MySQLCursor.new (StmtObj.mk 0 []))).2).2

end db

namespace db

/-! ## `conn.hpp`: the cursor interface and the row mapper -/

/-- The virtual methods of `struct Cursor` the row mapper calls, on a cursor
of state `γ`; a `const char*` result is the string pointed to, `none` for a
null pointer. -/
structure Cursor (γ : Type) where
  next : γ → Bool × γ
  getInt : γ → Int → Int × γ
  getLong : γ → Int → Int × γ
  getLongLong : γ → Int → Int × γ
  getTimestamp : γ → Int → Int × γ
  getText : γ → Int → Option (List Byte) × γ
  isNull : γ → Int → Bool × γ

/-- The function `Selector<int>::get(c, column)`. -/
def Selector_int {γ : Type} (C : Cursor γ) (c : γ) (column : Int) : Int × γ :=
  C.getInt c column

/-- The function `Selector<long>::get(c, column)`. -/
def Selector_long {γ : Type} (C : Cursor γ) (c : γ) (column : Int) : Int × γ :=
  C.getLong c column

/-- The function `Selector<long long>::get(c, column)`. -/
def Selector_long_long {γ : Type} (C : Cursor γ) (c : γ) (column : Int) : Int × γ :=
  C.getLongLong c column

/-- The function `Selector<time_tag>::get(c, column)`. -/
def Selector_time_tag {γ : Type} (C : Cursor γ) (c : γ) (column : Int) : Int × γ :=
  C.getTimestamp c column

/-- The function `Selector<const char*>::get(c, column)`. -/
def Selector_c_str {γ : Type} (C : Cursor γ) (c : γ) (column : Int) :
    Option (List Byte) × γ :=
  C.getText c column

/-- The conversion of a `const char*` to `std::string`: the bytes before the
first zero byte (of a null pointer, for which C++ defines nothing, none). -/
def stringOfCStr (p : Option (List Byte)) : List Byte :=
  (p.getD []).takeWhile (fun b => b != 0)

/-- The function `Selector<std::string>::get(c, column)`:
`c->isNull(column) ? std::string() : c->getText(column)`. -/
def Selector_string {γ : Type} (C : Cursor γ) (c : γ) (column : Int) : List Byte × γ :=
  let n := C.isNull c column
  if n.1 then ([], n.2)
  else
    let t := C.getText n.2 column
    (stringOfCStr t.1, t.2)

/-- The virtual `SelectorBase::get(c, context)`: `context` is the record the
`void*` points to, `none` for a null pointer; the result is the return value,
the cursor and the record after the call. -/
structure SelectorBase (γ τ : Type) where
  get : γ → Option τ → Bool × γ × Option τ

/-- The method `MemberSelector<Type, Member>::get`, for the selector
function `sel` of `Member` and the member `m_member`, given as the
assignment `ctx->*m_member = value`. `TimeMemberSelector<Type>::get` is the
same with `Selector<db::time_tag>`. -/
def MemberSelector {γ τ μ : Type} (sel : γ → Int → μ × γ) (m_column : Int)
    (m_member : τ → μ → τ) : SelectorBase γ τ where
  get := fun c context =>
    match context with
    | none => (false, c, none)
    | some ctx =>
      let v := sel c m_column
      (true, v.2, some (m_member ctx v.1))

/-- The template `CursorStruct<Type>`. -/
structure CursorStruct (γ τ : Type) where
  m_selectors : List (SelectorBase γ τ)

namespace CursorStruct

variable {γ τ : Type}

/-- The method `add(column, dest)`, for the selector function of the
member's type. -/
def add {μ : Type} (M : CursorStruct γ τ) (sel : γ → Int → μ × γ) (column : Int)
    (dest : τ → μ → τ) : CursorStruct γ τ :=
  { m_selectors := M.m_selectors ++ [MemberSelector sel column dest] }

/-- The method `addTime(column, dest)`. -/
def addTime (M : CursorStruct γ τ) (C : Cursor γ) (column : Int) (dest : τ → Int → τ) :
    CursorStruct γ τ :=
  { m_selectors := M.m_selectors ++ [MemberSelector (Selector_time_tag C) column dest] }

/-- The loop of `get(c, Type& ctx)` over the selectors left. -/
def getLoop : List (SelectorBase γ τ) → γ → τ → Bool × γ × τ
  | [], c, ctx => (true, c, ctx)
  | selector :: rest, c, ctx =>
    let r := selector.get c (some ctx)
    if !r.1 then (false, r.2.1, r.2.2.getD ctx)
    else getLoop rest r.2.1 (r.2.2.getD ctx)

/-- The method `get(const CursorPtr& c, Type& ctx)`. -/
def get (M : CursorStruct γ τ) (c : γ) (ctx : τ) : Bool × γ × τ :=
  getLoop M.m_selectors c ctx

/-- The method `get(const CursorPtr& c, std::list<Type>& ctx)`, its loop run
for at most `fuel` iterations; `item` is the value of `Type item;`. -/
def getList (M : CursorStruct γ τ) (C : Cursor γ) (item : τ) :
    Nat → γ → List τ → Option (Bool × γ × List τ)
  | 0, _, _ => none
  | fuel + 1, c, ctx =>
    let n := C.next c
    if !n.1 then some (true, n.2, ctx)
    else
      let r := M.get n.2 item
      if !r.1 then some (false, r.2.1, ctx)
      else getList M C item fuel r.2.1 (ctx ++ [r.2.2])

/-- The method `get(const CursorPtr& c, std::vector<Type>& ctx)`. -/
def getVector (M : CursorStruct γ τ) (C : Cursor γ) (item : τ) :
    Nat → γ → List τ → Option (Bool × γ × List τ)
  | 0, _, _ => none
  | fuel + 1, c, ctx =>
    let n := C.next c
    if !n.1 then some (true, n.2, ctx)
    else
      let r := M.get n.2 item
      if !r.1 then some (false, r.2.1, ctx)
      else getVector M C item fuel r.2.1 (ctx ++ [r.2.2])

end CursorStruct

/-- A binding registered with `add` or `addTime`: the member's type, its
selector function, the column and the member. -/
structure Binding (γ τ : Type) where
  μ : Type
  sel : γ → Int → μ × γ
  column : Int
  member : τ → μ → τ

/-- The mapper that registering the bindings in order builds. -/
def CursorStruct.ofBindings {γ τ : Type} (bs : List (Binding γ τ)) : CursorStruct γ τ :=
  bs.foldl (fun M b => M.add b.sel b.column b.member) { m_selectors := [] }

/-- In the words of the claim: every bound field set to the value its column
accessor returns on the current row, the bindings applied in registration
order. -/
def applyBindings {γ τ : Type} : List (Binding γ τ) → γ → τ → γ × τ
  | [], c, x => (c, x)
  | b :: bs, c, x => applyBindings bs (b.sel c b.column).2 (b.member x (b.sel c b.column).1)

/-- In the words of the claim: the next `n` rows fetched and mapped one after
the other, each with success; the records in fetch order and the cursor
after the last of them. -/
def mappedRows {γ τ : Type} (M : CursorStruct γ τ) (C : Cursor γ) (item : τ) :
    Nat → γ → Option (List τ × γ)
  | 0, c => some ([], c)
  | n + 1, c =>
    if (C.next c).1 = true ∧ (M.get (C.next c).2 item).1 = true then
      (mappedRows M C item n (M.get (C.next c).2 item).2.1).map
        (fun p => ((M.get (C.next c).2 item).2.2 :: p.1, p.2))
    else none

end db

namespace db

/-- A value of a column of a row held in memory. -/
inductive Field where
  | null
  | int (v : Int)
  | text (s : List Byte)
  deriving DecidableEq, Repr

/-- A cursor over rows held in memory: the rows not fetched yet, the
current row, and the number of calls of `next()` so far. -/
structure RowsCursor where
  rest : List (List Field)
  row : List Field
  fetches : Nat
  deriving DecidableEq, Repr

/-- The column `column` of the current row; null when out of range. -/
def RowsCursor.field (c : RowsCursor) (column : Int) : Field :=
  if column < 0 then Field.null else c.row.getD column.toNat Field.null

/-- The integer an integer accessor returns for a field: 0 unless it holds one. -/
def Field.toInt : Field → Int
  | Field.int v => v
  | _ => 0

/-- The text `getText` returns for a field: null unless it holds one. -/
def Field.toText : Field → Option (List Byte)
  | Field.text s => some s
  | _ => none

/-- The `Cursor` implementation over rows held in memory. -/
def rowsCursor : Cursor RowsCursor where
  next := fun c =>
    match c.rest with
    | [] => (false, { c with fetches := c.fetches + 1 })
    | r :: rs => (true, { rest := rs, row := r, fetches := c.fetches + 1 })
  getInt := fun c column => ((c.field column).toInt, c)
  getLong := fun c column => ((c.field column).toInt, c)
  getLongLong := fun c column => ((c.field column).toInt, c)
  getTimestamp := fun c column => ((c.field column).toInt, c)
  getText := fun c column => ((c.field column).toText, c)
  isNull := fun c column => (decide (c.field column = Field.null), c)

/-- A record shape with two fields, `int id` and `std::string name`. -/
structure Person where
  id : Int
  name : List Byte
  deriving DecidableEq, Repr

/-- The bindings of `CURSOR_RULE(Person) { CURSOR_ADD(0, id); CURSOR_ADD(1, name); }`. -/
def personBindings : List (Binding RowsCursor Person) :=
  [{ μ := Int, sel := Selector_int rowsCursor, column := 0,
     member := fun p v => { p with id := v } },
   { μ := List Byte, sel := Selector_string rowsCursor, column := 1,
     member := fun p v => { p with name := v } }]

/-- The mapper `Struct<Person>`. -/
def personMapper : CursorStruct RowsCursor Person :=
  CursorStruct.ofBindings personBindings

/-- A result of three rows with columns (id: int, name: text), not fetched yet. -/
def threeRows (id1 id2 id3 : Int) (name1 name2 name3 : Field) : RowsCursor :=
  { rest := [[Field.int id1, name1], [Field.int id2, name2], [Field.int id3, name3]],
    row := [], fetches := 0 }

end db

namespace db

/-! ## `dbconn.cpp`: the process-wide `environment` -/

/-- An entry of the array `info`: the `startup` and `shutdown` functions of a
driver, acting on the state `ω` of the process. -/
structure DriverInfo (ω : Type) where
  startup : ω → Bool × ω
  shutdown : ω → ω

/-- A call of an entry of `info`, by index; a start-up with its result. -/
inductive EnvCall where
  | startup (i : Nat) (ok : Bool)
  | shutdown (i : Nat)
  deriving DecidableEq, Repr

/-- The process as `environment` sees it: its state, the ghost log of the
calls made through `info`, and the static variable `succeeded`. -/
structure Process (ω : Type) where
  st : ω
  log : List EnvCall
  succeeded : Nat
  deriving DecidableEq

/-- The `struct environment`. -/
structure environment where
  failed : Bool
  deriving DecidableEq, Repr

/-- The loop of the constructor from index `i`, over the entries from `i` on. -/
def environment.startLoop {ω : Type} : Nat → List (DriverInfo ω) → Process ω → Process ω
  | _, [], p => p
  | i, d :: ds, p =>
    let r := d.startup p.st
    let p1 : Process ω := { p with st := r.2, log := p.log ++ [EnvCall.startup i r.1] }
    if !r.1 then { p1 with succeeded := i }
    else environment.startLoop (i + 1) ds p1

/-- The constructor `environment::environment()`. -/
def environment.new {ω : Type} (info : List (DriverInfo ω)) (p : Process ω) :
    environment × Process ω :=
  let p1 := environment.startLoop 0 info p
  ({ failed := p1.succeeded != info.length }, p1)

/-- The loop `for (i = succeeded; i > 0; --i) info[i-1].shutdown()` of the
destructor, from the value `i`. -/
def environment.stopLoop {ω : Type} (info : List (DriverInfo ω)) : Nat → Process ω → Process ω
  | 0, p => p
  | i + 1, p =>
    match info[i]? with
    | none => environment.stopLoop info i p
    | some d =>
      environment.stopLoop info i
        { p with st := d.shutdown p.st, log := p.log ++ [EnvCall.shutdown i] }

/-- The destructor `environment::~environment()`. -/
def environment.release {ω : Type} (info : List (DriverInfo ω)) (p : Process ω) : Process ω :=
  environment.stopLoop info p.succeeded p

end db

namespace db

/-! ## The property reader, word by word and line by line -/

/-- The words of a text: the maximal runs of characters that are not white
space, in order; `cur` is the word being read. -/
def wordsAux : List Char → List Char → List (List Char)
  | [], cur => if cur.isEmpty then [] else [cur]
  | ch :: cs, cur =>
    if isspace ch then (if cur.isEmpty then wordsAux cs [] else cur :: wordsAux cs [])
    else wordsAux cs (cur ++ [ch])

/-- The words of a text. -/
def words (s : List Char) : List (List Char) := wordsAux s []

/-- The lines of a text: the runs between newline characters; `cur` is the
line being read. -/
def linesAux : List Char → List Char → List (List Char)
  | [], cur => [cur]
  | ch :: cs, cur =>
    if ch = Char.ofNat 10 then cur :: linesAux cs [] else linesAux cs (cur ++ [ch])

/-- The lines of a text. -/
def lines (s : List Char) : List (List Char) := linesAux s []

/-- In the words of the claim, for one `key=value` item: if it contains '=',
the text before its first '=' and the whole rest after it; nothing else. -/
def keyValue (item : List Char) : Option (String × String) :=
  if item.contains '=' then
    some (String.mk (item.takeWhile (fun c => c != '=')),
      String.mk ((item.dropWhile (fun c => c != '=')).drop 1))
  else none

/-- In the words of the claim: the mapping read line by line, a later line
replacing an earlier one with the same key. -/
def linesProps (content : List Char) : Props :=
  ((lines content).filterMap keyValue).foldl (fun p e => p.assign e.1 e.2) []

/-- What the code reads: the mapping read word by word, a later word
replacing an earlier one with the same key. -/
def wordsProps (content : List Char) : Props :=
  ((words content).filterMap keyValue).foldl (fun p e => p.assign e.1 e.2) []

/-- A file system with one file `db.ini` of the given content. -/
def oneFile (content : String) : FileSystem :=
  fun path => if path = "db.ini" then some content.toList else none

end db

namespace db

/-! ## `mysql.cpp`: the driver and the connection -/

/-- The `struct DriverData`. -/
structure DriverData where
  user : String
  password : String
  server : String
  database : String
  deriving DecidableEq, Repr

/-- A default-constructed `DriverData`. -/
def DriverData.new : DriverData :=
  { user := "", password := "", server := "", database := "" }

/-- The method `DriverData::read(props)`; the `&&` chain stops at the first
operand that is false. -/
def DriverData.read (d : DriverData) (props : Props) : Bool × DriverData :=
  let u := Driver.getProp props "user" d.user
  let d1 := { d with user := u.2 }
  if !u.1 then (false, d1)
  else
    let p := Driver.getProp props "password" d1.password
    let d2 := { d1 with password := p.2 }
    if !p.1 then (false, d2)
    else
      let s := Driver.getProp props "server" d2.server
      let d3 := { d2 with server := s.2 }
      if !s.1 then (false, d3)
      else
        let b := Driver.getProp props "database" d3.database
        let d4 := { d3 with database := b.2 }
        if !b.1 then (false, d4)
        else
          (!d4.user.isEmpty && !d4.password.isEmpty && !d4.server.isEmpty &&
            !d4.database.isEmpty, d4)

/-- The calls of the client library on a connection handle; a connection
attempt with its arguments and whether it returned a handle. -/
inductive MysqlCall where
  | mysql_init
  | mysql_options
  | mysql_real_connect (host user passwd db : String) (port : Nat) (ok : Bool)
  | mysql_close
  deriving DecidableEq, Repr

/-- The functions of the client library on a `MYSQL` handle of state `μ`:
the state `mysql_init` leaves, `mysql_options(.., MYSQL_OPT_RECONNECT, ..)`,
and `mysql_real_connect` with host, user, password, database and port. -/
structure NativeConn (μ : Type) where
  mysql_init : μ
  mysql_options : μ → μ
  mysql_real_connect : μ → String → String → String → String → Nat → Bool × μ

/-- The function `strtoul(nptr, &ptr, 10)` on the string at `nptr`: the
value and the string at `ptr`. White space and one sign are skipped; when no
digit follows, nothing is converted and `ptr` is `nptr`. -/
def strtoul (ULONG_MAX : Nat) (nptr : List Char) : Nat × List Char :=
  let s1 := nptr.dropWhile isspace
  let signed := s1.head? = some '-' ∨ s1.head? = some '+'
  let s2 := if signed then s1.drop 1 else s1
  let digits := s2.takeWhile Char.isDigit
  if digits.isEmpty then (0, nptr)
  else
    let v := digits.foldl (fun a d => 10 * a + (d.toNat - 48)) 0
    let value :=
      if v > ULONG_MAX then ULONG_MAX
      else if s1.head? = some '-' then (ULONG_MAX + 1 - v) % (ULONG_MAX + 1)
      else v
    (value, s2.dropWhile Char.isDigit)

/-- The largest `unsigned long`. -/
def ABI.ULONG_MAX (abi : ABI) : Nat := 256 ^ abi.sizeof_long - 1

/-- The string before the last ':' of `s`, of a string that has one. -/
def beforeLastColon (s : List Char) : List Char :=
  ((s.reverse.dropWhile (fun c => c != ':')).drop 1).reverse

/-- The C string after the last ':' of `s`: it ends at the first zero
character. -/
def afterLastColon (s : List Char) : List Char :=
  ((s.reverse.takeWhile (fun c => c != ':')).reverse).takeWhile (fun c => c != Char.ofNat 0)

/-- The class `MySQLConnection`: the handle, the flag, the path of the
configuration and the display URI. -/
structure MySQLConnection (μ : Type) where
  m_mysql : μ
  m_connected : Bool
  m_path : String
  m_fake_uri : String
  deriving DecidableEq, Repr

namespace MySQLConnection

variable {μ : Type}

/-- The constructor `MySQLConnection(path)`; `log` is the ghost log of the
native calls of the process. -/
def new (L : NativeConn μ) (path : String) (log : List MysqlCall) :
    MySQLConnection μ × List MysqlCall :=
  ({ m_mysql := L.mysql_init, m_connected := false, m_path := path, m_fake_uri := "" },
    log ++ [MysqlCall.mysql_init])

/-- The destructor `~MySQLConnection()`. -/
def release (c : MySQLConnection μ) (log : List MysqlCall) : List MysqlCall :=
  if c.m_connected then log ++ [MysqlCall.mysql_close] else log

/-- The method `connect(user, password, server, database)`. -/
def connect (L : NativeConn μ) (abi : ABI) (c : MySQLConnection μ) (user password server
    database : String) (log : List MysqlCall) : Bool × MySQLConnection μ × List MysqlCall :=
  let c1 := { c with m_fake_uri := "mysql://" }
  let hasColon := server.toList.contains ':'
  let parsed := strtoul abi.ULONG_MAX (afterLastColon server.toList)
  if hasColon && !parsed.2.isEmpty then (c1.m_connected, c1, log)
  else
    let port := if hasColon then parsed.1 % 4294967296 else 0
    let srvr := if hasColon then String.mk (beforeLastColon server.toList) else server
    let m1 := L.mysql_options c1.m_mysql
    let r := L.mysql_real_connect m1 srvr user password database port
    let log1 := log ++ [MysqlCall.mysql_options,
      MysqlCall.mysql_real_connect srvr user password database port r.1]
    let c2 := { c1 with m_mysql := r.2, m_connected := r.1 }
    let c3 :=
      if r.1 then
        { c2 with m_fake_uri := "mysql://" ++ user ++ "@" ++ server ++ "/" ++ database }
      else c2
    (r.1, c3, log1)

/-- The method `reconnect()`. -/
def reconnect (L : NativeConn μ) (abi : ABI) (fs : FileSystem) (c : MySQLConnection μ)
    (log : List MysqlCall) : Bool × MySQLConnection μ × List MysqlCall :=
  let rp := Driver.readProps fs c.m_path []
  if !rp.1 then (false, c, log)
  else
    let data := DriverData.new.read rp.2
    if !data.1 then (false, c, log)
    else connect L abi c data.2.user data.2.password data.2.server data.2.database log

end MySQLConnection

/-- The method `MySQLDriver::open(ini_path, props)`; `heap` says whether
`std::make_shared<MySQLConnection>` is served. A connection that could not
connect is released before `open` returns. -/
def MySQLDriver.open {μ : Type} (L : NativeConn μ) (abi : ABI) (heap : Bool)
    (ini_path : String) (props : Props) (log : List MysqlCall) :
    Option (MySQLConnection μ) × List MysqlCall :=
  let data := DriverData.new.read props
  if !data.1 then (none, log)
  else if !heap then (none, log)
  else
    let conn := MySQLConnection.new L ini_path log
    let r := conn.1.connect L abi data.2.user data.2.password data.2.server data.2.database
      conn.2
    if !r.1 then (none, r.2.1.release r.2.2)
    else (some r.2.1, r.2.2)

/-- The four keys the MySQL driver requires are present in `props` and none
of their values is empty. -/
def RequiredProps (props : Props) (user password server database : String) : Prop :=
  props.find "user" = some user ∧ props.find "password" = some password ∧
    props.find "server" = some server ∧ props.find "database" = some database ∧
    user ≠ "" ∧ password ≠ "" ∧ server ≠ "" ∧ database ≠ ""

instance (props : Props) (user password server database : String) :
    Decidable (RequiredProps props user password server database) := by
  unfold RequiredProps; infer_instance

/-- A client library that accepts every connection; the handle counts the
connection attempts. -/
def acceptingConn : NativeConn Nat where
  mysql_init := 0
  mysql_options := fun n => n
  mysql_real_connect := fun n _ _ _ _ _ => (true, n + 1)

end db

namespace db

/-- A connection that is connected, as `reconnect()` may find it. -/
def connectedConnection : MySQLConnection Nat :=
  { m_mysql := 1, m_connected := true, m_path := "db.ini",
    m_fake_uri := "mysql://root@db:3306/shop" }

/-- The `server` value is refused by `connect`: it has a ':' and `strtoul`
does not consume all of what follows the last one. -/
def PortRefused (abi : ABI) (server : String) : Prop :=
  server.toList.contains ':' = true ∧
    (strtoul abi.ULONG_MAX (afterLastColon server.toList)).2.isEmpty = false

instance (abi : ABI) (server : String) : Decidable (PortRefused abi server) := by
  unfold PortRefused; infer_instance

end db

/-! # Theorems -/

namespace db

/-! ## Transaction -/

section TransactionLemmas

variable {σ : Type}

theorem onlyFailedBegins_snoc {F : List (ConnCall × Bool)} (h : OnlyFailedBegins F) :
    OnlyFailedBegins (F ++ [(ConnCall.beginTransaction, false)]) := by
  intro e he
  rcases List.mem_append.1 he with h1 | h1
  · exact h e h1
  · simpa using h1

theorem txShape_new (conn : ConnObj σ) : TxShape conn.log (Transaction.new conn) :=
  ⟨[], (by intro e he; cases he), (by simp [Transaction.new])⟩

theorem txShape_run (I : Connection σ) (l0 : List (ConnCall × Bool)) (t : Transaction σ)
    (op : TxOp) (h : TxShape l0 t) : TxShape l0 (op.run I t) := by
  obtain ⟨F, hF, hs⟩ := h
  rcases t with ⟨s, c⟩
  cases op <;> cases s <;>
    simp only [TxOp.run, Transaction.begin, Transaction.commit, Transaction.rollback,
      ne_eq, not_true_eq_false, not_false_eq_true, if_true, if_false, reduceCtorEq] at hs ⊢
  -- begin from UNKNOWN
  · cases hb : (I.beginTransaction c.st).1
    · refine ⟨F ++ [(ConnCall.beginTransaction, false)], onlyFailedBegins_snoc hF, ?_⟩
      simp [ConnObj.beginTransaction, hb, hs]
    · refine ⟨F, hF, ?_⟩
      simp [ConnObj.beginTransaction, hb, hs]
  all_goals first
    | exact ⟨F, hF, hs⟩
    | (refine ⟨F, hF, (I.commitTransaction c.st).1, ?_⟩
       simp only [ConnObj.commitTransaction, hs, List.append_assoc, List.singleton_append,
         List.cons_append, List.nil_append]
       done)
    | (refine ⟨F, hF, (I.rollbackTransaction c.st).1, ?_⟩
       simp only [ConnObj.rollbackTransaction, hs, List.append_assoc, List.singleton_append,
         List.cons_append, List.nil_append])

theorem txShape_foldl (I : Connection σ) (l0 : List (ConnCall × Bool)) (ops : List TxOp) :
    ∀ t : Transaction σ, TxShape l0 t → TxShape l0 (ops.foldl (TxOp.run I) t) := by
  induction ops with
  | nil => intro t h; exact h
  | cons op ops ih => intro t h; exact ih _ (txShape_run I l0 t op h)

theorem scopeShape_of_scope (I : Connection σ) (conn : ConnObj σ) (ops : List TxOp) :
    ∃ L, (txScope I conn ops).2.log = conn.log ++ L ∧ ScopeShape L := by
  have h := txShape_foldl I conn.log ops _ (txShape_new conn)
  obtain ⟨F, hF, hs⟩ := h
  simp only [txScope, Transaction.release]
  generalize ops.foldl (TxOp.run I) (Transaction.new conn) = t at hs ⊢
  rcases t with ⟨s, c⟩
  cases s <;> simp only [reduceCtorEq, if_true, if_false] at hs ⊢
  · exact ⟨F, hs, F, hF, Or.inl rfl⟩
  · refine ⟨F ++ [(ConnCall.beginTransaction, true),
      (ConnCall.rollbackTransaction, (I.rollbackTransaction c.st).1)], ?_, F, hF, Or.inr ⟨_, ?_, rfl⟩⟩
    · simp [ConnObj.rollbackTransaction, hs]
    · simp [isEnd]
  · obtain ⟨r, hr⟩ := hs
    exact ⟨_, hr, F, hF, Or.inr ⟨_, by simp [isEnd], rfl⟩⟩
  · obtain ⟨r, hr⟩ := hs
    exact ⟨_, hr, F, hF, Or.inr ⟨_, by simp [isEnd], rfl⟩⟩

theorem onlyFailedBegins_countP_begin {F : List (ConnCall × Bool)} (h : OnlyFailedBegins F) :
    F.countP isBeginOk = 0 := by
  rw [List.countP_eq_zero]
  intro e he
  rw [h e he]
  decide

theorem onlyFailedBegins_countP_end {F : List (ConnCall × Bool)} (h : OnlyFailedBegins F) :
    F.countP isEnd = 0 := by
  rw [List.countP_eq_zero]
  intro e he
  rw [h e he]
  decide

/-- Where an entry of a finished scope's calls can sit. -/
theorem scopeShape_split {L pre post : List (ConnCall × Bool)} {x : ConnCall × Bool}
    (h : ScopeShape L) (hx : L = pre ++ x :: post) :
    x = (ConnCall.beginTransaction, false) ∨
    (x = (ConnCall.beginTransaction, true) ∧ OnlyFailedBegins pre ∧
      ∃ e, isEnd e = true ∧ post = [e]) ∨
    (isEnd x = true ∧ (ConnCall.beginTransaction, true) ∈ pre ∧ post = []) := by
  obtain ⟨F, hF, hL | ⟨e, he, hL⟩⟩ := h
  · left
    apply hF
    rw [← hL, hx]
    simp
  · rw [hL] at hx
    rcases List.append_eq_append_iff.1 hx with ⟨a, ha, hb⟩ | ⟨c, hc, hd⟩
    · -- `pre = F ++ a` and `[b, e] = a ++ x :: post`
      match a, hb with
      | [], hb =>
        simp only [List.nil_append, List.cons.injEq] at hb
        right; left
        refine ⟨hb.1.symm, ?_, e, he, hb.2.symm⟩
        rw [ha]; simpa using hF
      | [b], hb =>
        simp only [List.singleton_append, List.cons.injEq] at hb
        right; right
        obtain ⟨h1, h2, h3⟩ := hb
        refine ⟨h2 ▸ he, ?_, h3.symm⟩
        rw [ha, ← h1]; simp
      | b :: b2 :: a3, hb =>
        simp at hb
    · -- `F = pre ++ c` and `x :: post = c ++ [b, e]`
      match c, hd with
      | [], hd =>
        simp only [List.nil_append, List.cons.injEq] at hd
        right; left
        refine ⟨hd.1, ?_, e, he, hd.2⟩
        rw [hc] at hF; simpa using hF
      | y :: c2, hd =>
        simp only [List.cons_append, List.cons.injEq] at hd
        left
        apply hF
        rw [hc, ← hd.1]; simp

end TransactionLemmas

/-! ### Claims C1 to C3 -/

/-- C1. `begin()` returns true iff the state is `UNKNOWN` and the
connection's `beginTransaction` succeeds, and then the state is `BEGAN`;
otherwise it returns false and keeps the state. From a state other than
`UNKNOWN` the connection is not called (its state and its call log are
untouched); from `UNKNOWN` exactly one `beginTransaction` is logged. A second
`begin()` after a successful one returns false, issues nothing and the state
stays `BEGAN`. -/
theorem transaction_begin {σ : Type} (I : Connection σ) (t : Transaction σ) :
    ((t.begin I).1 = true ↔
      t.m_state = State.UNKNOWN ∧ (I.beginTransaction t.m_conn.st).1 = true) ∧
    ((t.begin I).1 = true → (t.begin I).2.m_state = State.BEGAN) ∧
    ((t.begin I).1 = false → (t.begin I).2.m_state = t.m_state) ∧
    (t.m_state ≠ State.UNKNOWN → t.begin I = (false, t)) ∧
    (t.m_state = State.UNKNOWN → (t.begin I).2.m_conn.log =
      t.m_conn.log ++ [(ConnCall.beginTransaction, (I.beginTransaction t.m_conn.st).1)]) ∧
    ((t.begin I).1 = true → (t.begin I).2.begin I = (false, (t.begin I).2)) := by
  rcases t with ⟨s, c⟩
  cases hb : (I.beginTransaction c.st).1 <;> cases s <;>
    simp [Transaction.begin, ConnObj.beginTransaction, hb]

/-- Witness of C1 on a connection that accepts the begin. -/
theorem transaction_begin_witness :
    ((Transaction.new (ConnObj.mk [true] [])).begin scripted).1 = true ∧
    ((Transaction.new (ConnObj.mk [true] [])).begin scripted).2.m_state = State.BEGAN ∧
    (((Transaction.new (ConnObj.mk [true] [])).begin scripted).2.begin scripted =
      (false, ((Transaction.new (ConnObj.mk [true] [])).begin scripted).2)) :=
  ⟨by decide,
   (transaction_begin scripted (Transaction.new (ConnObj.mk [true] []))).2.1 (by decide),
   (transaction_begin scripted (Transaction.new (ConnObj.mk [true] []))).2.2.2.2.2 (by decide)⟩

/-- C2. `commit()` (resp. `rollback()`) calls the connection iff the state
is `BEGAN`: then exactly one connection-level commit (resp. rollback) is
logged, the state becomes `COMMITED` (resp. `REVERTED`) whatever the
connection answers, and the answer is returned. From any other state both
return false and change nothing, the connection included; so after either of
them both are without effect. -/
theorem transaction_commit_rollback {σ : Type} (I : Connection σ) (t : Transaction σ) :
    (t.m_state = State.BEGAN →
      (t.commit I).1 = (I.commitTransaction t.m_conn.st).1 ∧
      (t.commit I).2.m_state = State.COMMITED ∧
      (t.commit I).2.m_conn.st = (I.commitTransaction t.m_conn.st).2 ∧
      (t.commit I).2.m_conn.log =
        t.m_conn.log ++ [(ConnCall.commitTransaction, (I.commitTransaction t.m_conn.st).1)] ∧
      (t.rollback I).1 = (I.rollbackTransaction t.m_conn.st).1 ∧
      (t.rollback I).2.m_state = State.REVERTED ∧
      (t.rollback I).2.m_conn.st = (I.rollbackTransaction t.m_conn.st).2 ∧
      (t.rollback I).2.m_conn.log =
        t.m_conn.log ++ [(ConnCall.rollbackTransaction, (I.rollbackTransaction t.m_conn.st).1)]) ∧
    (t.m_state ≠ State.BEGAN → t.commit I = (false, t) ∧ t.rollback I = (false, t)) ∧
    ((t.commit I).2.commit I = (false, (t.commit I).2) ∧
      (t.commit I).2.rollback I = (false, (t.commit I).2) ∧
      (t.rollback I).2.commit I = (false, (t.rollback I).2) ∧
      (t.rollback I).2.rollback I = (false, (t.rollback I).2)) := by
  rcases t with ⟨s, c⟩
  cases s <;>
    simp [Transaction.commit, Transaction.rollback, ConnObj.commitTransaction,
      ConnObj.rollbackTransaction]

/-- Witness of C2: a commit the connection refuses still ends the transaction. -/
theorem transaction_commit_rollback_witness :
    (Transaction.mk State.BEGAN (ConnObj.mk [false] [])).m_state = State.BEGAN ∧
    ((Transaction.mk State.BEGAN (ConnObj.mk [false] [])).commit scripted).1 = false ∧
    ((Transaction.mk State.BEGAN (ConnObj.mk [false] [])).commit scripted).2.m_state =
      State.COMMITED :=
  ⟨by decide,
   ((transaction_commit_rollback scripted
      (Transaction.mk State.BEGAN (ConnObj.mk [false] []))).1 (by decide)).1,
   ((transaction_commit_rollback scripted
      (Transaction.mk State.BEGAN (ConnObj.mk [false] []))).1 (by decide)).2.1⟩

/-- C3. For every sequence of `begin()`/`commit()`/`rollback()` calls on a
fresh `Transaction` followed by its release, whatever the connection answers:
the release logs exactly one connection-level rollback if the state is
`BEGAN` and nothing otherwise; among the calls of the scope at most one is a
successful begin; every commit or rollback has a successful begin before it;
and a successful begin is followed by exactly one commit or rollback. -/
theorem transaction_scope {σ : Type} (I : Connection σ) (conn : ConnObj σ) (ops : List TxOp) :
    ((txScope I conn ops).2.log = (txScope I conn ops).1.m_conn.log ++
      (if (txScope I conn ops).1.m_state = State.BEGAN then
        [(ConnCall.rollbackTransaction,
          (I.rollbackTransaction (txScope I conn ops).1.m_conn.st).1)] else [])) ∧
    (txScope I conn ops).2.log = conn.log ++ txCalls I conn ops ∧
    (txCalls I conn ops).countP isBeginOk ≤ 1 ∧
    (∀ pre e post, txCalls I conn ops = pre ++ e :: post → isEnd e = true →
      (ConnCall.beginTransaction, true) ∈ pre) ∧
    (∀ pre post, txCalls I conn ops = pre ++ (ConnCall.beginTransaction, true) :: post →
      post.countP isEnd = 1) := by
  obtain ⟨L, hL, hS⟩ := scopeShape_of_scope I conn ops
  have hcalls : txCalls I conn ops = L := by
    simp [txCalls, hL]
  rw [hcalls]
  refine ⟨?_, hL, ?_, ?_, ?_⟩
  · simp only [txScope, Transaction.release]
    split <;> simp [ConnObj.rollbackTransaction]
  · obtain ⟨F, hF, h | ⟨e, he, h⟩⟩ := hS
    · rw [h, onlyFailedBegins_countP_begin hF]; exact Nat.zero_le _
    · rw [h, List.countP_append, onlyFailedBegins_countP_begin hF]
      simp only [List.countP_cons, List.countP_nil]
      have : isBeginOk (ConnCall.beginTransaction, true) = true := by decide
      have h2 : isBeginOk e = false := by
        rcases e with ⟨k, r⟩
        cases k <;> simp_all [isEnd, isBeginOk]
      simp [this, h2]
  · intro pre e post hsplit he
    rcases scopeShape_split hS hsplit with h | ⟨h, _⟩ | ⟨_, h, _⟩
    · rw [h] at he; exact absurd he (by decide)
    · rw [h] at he; exact absurd he (by decide)
    · exact h
  · intro pre post hsplit
    rcases scopeShape_split hS hsplit with h | ⟨_, _, e, he, hp⟩ | ⟨h, _⟩
    · exact absurd h (by decide)
    · rw [hp]; simp [he]
    · exact absurd h (by decide)

/-- Witness of C3's implications: a begin, a failed commit, then release. -/
theorem transaction_scope_witness :
    txCalls scripted ⟨[true, false], []⟩ [TxOp.begin, TxOp.commit, TxOp.rollback] =
      [] ++ (ConnCall.beginTransaction, true) :: [(ConnCall.commitTransaction, false)] ∧
    [(ConnCall.commitTransaction, false)].countP isEnd = 1 :=
  ⟨by decide, (transaction_scope scripted ⟨[true, false], []⟩
    [TxOp.begin, TxOp.commit, TxOp.rollback]).2.2.2.2 [] _ (by decide)⟩

end db

/-! ## The driver registry and `Connection::open` -/

namespace db

theorem StdMap.find_assign_self {κ ν : Type} [DecidableEq κ] (m : StdMap κ ν) (k : κ) (v : ν) :
    (m.assign k v).find k = some v := by
  induction m with
  | nil => simp [StdMap.assign, StdMap.find]
  | cons p m ih =>
    rcases p with ⟨k1, v1⟩
    by_cases h : k1 = k <;> simp [StdMap.assign, StdMap.find, h, ih]

theorem StdMap.find_assign_ne {κ ν : Type} [DecidableEq κ] (m : StdMap κ ν) (k k2 : κ) (v : ν)
    (hne : k ≠ k2) : (m.assign k v).find k2 = m.find k2 := by
  induction m with
  | nil => simp [StdMap.assign, StdMap.find, hne]
  | cons p m ih =>
    rcases p with ⟨k1, v1⟩
    by_cases h : k1 = k
    · subst h; simp [StdMap.assign, StdMap.find, hne]
    · by_cases h2 : k1 = k2
      · subst h2
        simp [StdMap.assign, StdMap.find, h]
      · simp [StdMap.assign, StdMap.find, h, h2, ih]

theorem Drivers.driver_registerRaw_self {δ : Type} (r : Drivers δ) (n : String) (d : δ) :
    Drivers.driver (r.registerRaw n (some d)) n = some d := by
  simp [Drivers.driver, Drivers._driver, Drivers.registerRaw, Drivers._register,
    StdMap.find_assign_self]

theorem Drivers.driver_registerRaw_ne {δ : Type} (r : Drivers δ) (m n : String) (d : δ)
    (h : m ≠ n) : Drivers.driver (r.registerRaw m (some d)) n = Drivers.driver r n := by
  simp [Drivers.driver, Drivers._driver, Drivers.registerRaw, Drivers._register,
    StdMap.find_assign_ne _ _ _ _ h]

theorem Drivers.registerAll_snoc {δ : Type} (r : Drivers δ) (regs : List (String × δ))
    (p : String × δ) :
    Drivers.registerAll r (regs ++ [p]) = (Drivers.registerAll r regs).registerRaw p.1 (some p.2) := by
  simp [Drivers.registerAll, List.foldl_append]

theorem Drivers.driver_registerAll {δ : Type} (regs : List (String × δ)) (n : String) :
    Drivers.driver (Drivers.registerAll Drivers.instance0 regs) n = lastRegistered regs n := by
  induction regs using List.reverseRecOn with
  | nil => simp [Drivers.registerAll, Drivers.instance0, Drivers.driver, Drivers._driver,
      StdMap.find, lastRegistered]
  | append_singleton regs p ih =>
    rw [Drivers.registerAll_snoc]
    by_cases h : p.1 = n
    · subst h
      rw [Drivers.driver_registerRaw_self]
      simp [lastRegistered, List.filter_append]
    · rw [Drivers.driver_registerRaw_ne _ _ _ _ h, ih]
      simp [lastRegistered, List.filter_append, h]

/-- C4. After any sequence of registrations on the registry, `lookup(n)` is
the driver stored by the last registration under `n`, and none when no
registration was made under `n`; registering under another name `m` leaves
`lookup(n)` as it was, in every state of the registry. -/
theorem registry_lookup {δ : Type} (regs : List (String × δ)) (r : Drivers δ)
    (n m : String) (d : δ) :
    Drivers.driver (Drivers.registerAll Drivers.instance0 regs) n = lastRegistered regs n ∧
    ((∀ p ∈ regs, p.1 ≠ n) →
      Drivers.driver (Drivers.registerAll Drivers.instance0 regs) n = none) ∧
    Drivers.driver (r.registerRaw n (some d)) n = some d ∧
    (m ≠ n → Drivers.driver (r.registerRaw m (some d)) n = Drivers.driver r n) := by
  refine ⟨Drivers.driver_registerAll regs n, ?_, Drivers.driver_registerRaw_self r n d,
    Drivers.driver_registerRaw_ne r m n d⟩
  intro h
  rw [Drivers.driver_registerAll]
  have : regs.filter (fun p => decide (p.1 = n)) = [] := by
    rw [List.filter_eq_nil_iff]
    intro p hp
    simpa using h p hp
  simp [lastRegistered, this]

/-- Witness of C4: a name never registered, and a registration under another name. -/
theorem registry_lookup_witness :
    Drivers.driver (Drivers.registerAll Drivers.instance0 [("mysql", 1), ("pg", 2), ("mysql", 3)])
      "sqlite" = none ∧
    Drivers.driver ((Drivers.registerAll Drivers.instance0 [("mysql", 1)]).registerRaw "pg"
      (some 2)) "mysql" = Drivers.driver (Drivers.registerAll Drivers.instance0 [("mysql", 1)])
      "mysql" :=
  ⟨(registry_lookup [("mysql", 1), ("pg", 2), ("mysql", 3)] Drivers.instance0 "sqlite" "pg" 0).2.1
      (by decide),
   (registry_lookup ([] : List (String × Nat)) (Drivers.registerAll Drivers.instance0
      [("mysql", 1)]) "mysql" "pg" 2).2.2.2 (by decide)⟩

/-- C5. `Connection::open` returns a connection iff reading the properties
succeeds, they hold the `driver` key, a driver is registered under its value
and that driver's `open` returns a connection, which is then the result. When
the first three hold the driver's `open` is called exactly once, with the
path and the whole property mapping; when one of them fails the result is
absent and no driver is called. -/
theorem connection_open {ω κ : Type} (fs : FileSystem) (reg : Drivers (Driver ω κ))
    (path : String) (w : World ω) :
    (∀ c, (Connection.open fs reg path w).1 = some c ↔
      ∃ props d, OpenReaches fs reg path props d ∧ (d.open_ path props w.st).1 = some c) ∧
    (∀ props d, OpenReaches fs reg path props d →
      Connection.open fs reg path w =
        ((d.open_ path props w.st).1,
          { st := (d.open_ path props w.st).2, opens := w.opens ++ [(path, props)] })) ∧
    ((¬ ∃ props d, OpenReaches fs reg path props d) →
      Connection.open fs reg path w = (none, w)) := by
  have key : ∀ props d, OpenReaches fs reg path props d →
      Connection.open fs reg path w =
        ((d.open_ path props w.st).1,
          { st := (d.open_ path props w.st).2, opens := w.opens ++ [(path, props)] }) := by
    rintro props d ⟨id, h1, h2, h3⟩
    simp [Connection.open, h1, h2, h3, World.driverOpen]
  have miss : (¬ ∃ props d, OpenReaches fs reg path props d) →
      Connection.open fs reg path w = (none, w) := by
    intro hno
    unfold Connection.open
    rcases h1 : Driver.readProps fs path [] with ⟨b1, props⟩
    cases b1
    · simp
    · rcases h2 : Driver.getProp props "driver" "" with ⟨b2, id⟩
      cases b2
      · simp [h2]
      · cases h3 : Drivers.driver reg id with
        | none => simp [h2, h3]
        | some d => exact absurd ⟨props, d, id, h1, h2, h3⟩ hno
  refine ⟨?_, key, miss⟩
  intro c
  constructor
  · intro h
    by_cases hr : ∃ props d, OpenReaches fs reg path props d
    · obtain ⟨props, d, hpd⟩ := hr
      refine ⟨props, d, hpd, ?_⟩
      rw [key props d hpd] at h
      exact h
    · rw [miss hr] at h
      cases h
  · rintro ⟨props, d, hpd, hc⟩
    rw [key props d hpd]
    exact hc

/-- Witness of C5: a readable file naming a registered driver. -/
theorem connection_open_witness :
    OpenReaches sampleFs (Drivers.registerAll Drivers.instance0 [("mysql", sampleDriver)])
      "db.ini" [("driver", "mysql"), ("user", "root")] sampleDriver ∧
    Connection.open sampleFs (Drivers.registerAll Drivers.instance0 [("mysql", sampleDriver)])
      "db.ini" (World.mk 0 []) =
      (some 7, World.mk 1 [("db.ini", [("driver", "mysql"), ("user", "root")])]) :=
  have h : OpenReaches sampleFs (Drivers.registerAll Drivers.instance0 [("mysql", sampleDriver)])
      "db.ini" [("driver", "mysql"), ("user", "root")] sampleDriver :=
    ⟨"mysql", by decide, by decide, rfl⟩
  ⟨h, (connection_open sampleFs _ "db.ini" (World.mk 0 [])).2.1 _ sampleDriver h⟩

end db

/-! ## Parameter binding -/

namespace db

theorem leBytes_length (n x : Nat) : (leBytes n x).length = n := by
  induction n generalizing x with
  | zero => rfl
  | succ n ih => simp [leBytes, ih]

theorem leNat_leBytes4 (x : Nat) (h : x < 4294967296) : leNat (leBytes 4 x) = x := by
  simp only [leBytes, leNat]
  omega

theorem leNat_leBytes8 (x : Nat) (h : x < 4294967296) : leNat (leBytes 8 x) = x := by
  simp only [leBytes, leNat]
  omega

theorem lp64_lawful : lp64.Lawful where
  pointer_ge := by decide
  size_max_ge := by decide
  length_short := fun v => leBytes_length _ _
  length_long := fun v => leBytes_length _ _
  length_long_long := fun v => leBytes_length _ _
  length_MYSQL_TIME := fun t => by
    simp [lp64, leInt, leBytes_length]
  load_repr_MYSQL_TIME := fun t ht => by
    obtain ⟨h1, h2, h3, h4, h5, h6, h7⟩ := ht
    rcases t with ⟨y, mo, d, h, mi, s, sp, neg, ty⟩
    simp only at h1 h2 h3 h4 h5 h6 h7
    have e1 := leNat_leBytes4 y h1
    have e2 := leNat_leBytes4 mo h2
    have e3 := leNat_leBytes4 d h3
    have e4 := leNat_leBytes4 h h4
    have e5 := leNat_leBytes4 mi h5
    have e6 := leNat_leBytes4 s h6
    have e7 := leNat_leBytes8 sp h7
    simp only [leBytes] at e1 e2 e3 e4 e5 e6 e7
    simp only [lp64, leBytes, leInt, List.cons_append, List.nil_append, List.take_succ_cons,
      List.take_zero, List.drop_succ_cons, List.drop_zero, MYSQL_TIME.mk.injEq]
    refine ⟨e1, e2, e3, e4, e5, e6, e7, ?_, ?_⟩
    · cases neg <;> simp
    · cases ty <;> decide

/-- The 32-bit platform meets the same guarantees. -/
theorem ilp32_lawful : ilp32.Lawful where
  pointer_ge := by decide
  size_max_ge := by decide
  length_short := fun v => leBytes_length _ _
  length_long := fun v => leBytes_length _ _
  length_long_long := fun v => leBytes_length _ _
  length_MYSQL_TIME := fun t => by
    simp [ilp32, leInt, leBytes_length]
  load_repr_MYSQL_TIME := fun t ht => by
    obtain ⟨h1, h2, h3, h4, h5, h6, h7⟩ := ht
    rcases t with ⟨y, mo, d, h, mi, s, sp, neg, ty⟩
    simp only at h1 h2 h3 h4 h5 h6 h7
    have e1 := leNat_leBytes4 y h1
    have e2 := leNat_leBytes4 mo h2
    have e3 := leNat_leBytes4 d h3
    have e4 := leNat_leBytes4 h h4
    have e5 := leNat_leBytes4 mi h5
    have e6 := leNat_leBytes4 s h6
    have e7 := leNat_leBytes4 sp h7
    simp only [leBytes] at e1 e2 e3 e4 e5 e6 e7
    simp only [ilp32, leBytes, leInt, List.cons_append, List.nil_append, List.take_succ_cons,
      List.take_zero, List.drop_succ_cons, List.drop_zero, MYSQL_TIME.mk.injEq]
    refine ⟨e1, e2, e3, e4, e5, e6, e7, ?_, ?_⟩
    · cases neg <;> simp
    · cases ty <;> decide

/-- An index outside `[0, n)` fails the test `(size_t)arg >= m_count`. -/
theorem size_t_ge_of_out {abi : ABI} (hl : abi.Lawful) {n : Nat}
    (hn : n * abi.sizeof_pointer ≤ abi.SIZE_MAX) {arg : Int} (hint : IsInt arg)
    (hout : arg < 0 ∨ (n : Int) ≤ arg) : abi.size_t arg ≥ n := by
  have h2 : n * 2 ≤ n * abi.sizeof_pointer := Nat.mul_le_mul_left _ hl.pointer_ge
  have h4 := hl.size_max_ge
  obtain ⟨hlo, hhi⟩ := hint
  unfold ABI.size_t
  rcases hout with hneg | hge
  · have e : arg % ((abi.SIZE_MAX + 1 : Nat) : Int) = arg + ((abi.SIZE_MAX + 1 : Nat) : Int) := by
      rw [← Int.add_emod_self]
      apply Int.emod_eq_of_lt <;> omega
    have e2 : arg % ((abi.SIZE_MAX : Int) + 1) = arg + ((abi.SIZE_MAX : Int) + 1) := by
      simpa using e
    rw [e2]
    omega
  · have e : arg % ((abi.SIZE_MAX : Int) + 1) = arg := by
      apply Int.emod_eq_of_lt <;> omega
    rw [e]
    omega

/-- An index inside `[0, n)` passes the test, and is the list index used. -/
theorem size_t_lt_of_in {abi : ABI} {n : Nat} (hn : n ≤ abi.SIZE_MAX) {arg : Int}
    (h0 : 0 ≤ arg) (h1 : arg < n) : ¬ abi.size_t arg ≥ n ∧ arg.toNat < n := by
  unfold ABI.size_t
  have e : arg % ((abi.SIZE_MAX : Int) + 1) = arg := by
    apply Int.emod_eq_of_lt <;> omega
  rw [e]
  omega

theorem allocated_count_le {abi : ABI} (hl : abi.Lawful) {b : MySQLBinding}
    (hb : b.Allocated abi) : b.m_count ≤ abi.SIZE_MAX := by
  have h2 : b.m_count * 2 ≤ b.m_count * abi.sizeof_pointer :=
    Nat.mul_le_mul_left _ hl.pointer_ge
  have := hb.2.2
  omega

theorem store_newChars (bytes : List Byte) (len : Nat) (h : bytes.length = len) :
    store (newChars len) bytes = bytes.map some := by
  subst h
  simp [store, newChars]

theorem strncpy_strlen (value : List Byte) :
    strncpy value (strlen value) = value.takeWhile (fun b => b != 0) := by
  unfold strncpy strlen
  exact List.take_left _ _

/-- What a successful `bindImpl`, the store of the value and the assignment
of the type tag leave. -/
theorem bind_core {abi : ABI} (hl : abi.Lawful) (s : MySQLStatement)
    (hs : s.toMySQLBinding.Allocated abi) (arg : Int) (h0 : 0 ≤ arg) (h1 : arg < s.m_count)
    (len : Nat) (bytes : List Byte) (hb : bytes.length = len) (ty : enum_field_types) :
    (MySQLStatement.bindImpl abi true s arg len).1 = true ∧
    (((MySQLStatement.bindImpl abi true s arg len).2.poke arg bytes).setType arg
        ty).toMySQLBinding.HoldsAt arg.toNat ty (bytes.map some) len ∧
    s.toMySQLBinding.SameExcept
      (((MySQLStatement.bindImpl abi true s arg len).2.poke arg bytes).setType arg
        ty).toMySQLBinding arg.toNat := by
  obtain ⟨hin, hlt⟩ := size_t_lt_of_in (allocated_count_le hl hs) h0 h1
  obtain ⟨hb1, hb2, _⟩ := hs
  have hlt1 : arg.toNat < s.m_bind.length := by omega
  have hlt2 : arg.toNat < s.m_buffers.length := by omega
  simp only [MySQLStatement.bindImpl, if_neg hin, Bool.not_true, Bool.false_eq_true, if_false,
    MySQLStatement.poke, MySQLStatement.setType, MySQLBinding.HoldsAt, MySQLBinding.SameExcept]
  refine ⟨trivial, ⟨?_, ?_, ?_⟩, ?_⟩
  · simp [hlt1]
  · simp [hlt2, store_newChars bytes len hb]
  · simp [hb]
  · simp only [List.length_set, true_and]
    intro j hj
    simp [List.getElem?_set_ne (Ne.symm hj)]

theorem bindNull_in_range {abi : ABI} (hl : abi.Lawful) (s : MySQLStatement)
    (hs : s.toMySQLBinding.Allocated abi) (arg : Int) (h0 : 0 ≤ arg) (h1 : arg < s.m_count) :
    s.BoundNull (MySQLStatement.bindNull abi s arg) arg.toNat := by
  obtain ⟨hin, hlt⟩ := size_t_lt_of_in (allocated_count_le hl hs) h0 h1
  obtain ⟨hb1, hb2, _⟩ := hs
  have hlt1 : arg.toNat < s.m_bind.length := by omega
  have hlt2 : arg.toNat < s.m_buffers.length := by omega
  simp only [MySQLStatement.BoundNull, MySQLStatement.bindNull, if_neg hin,
    MySQLBinding.NullAt, MySQLBinding.SameExcept]
  refine ⟨trivial, ⟨?_, ?_⟩, ?_⟩
  · simp [hlt1]
  · simp [hlt2]
  · simp only [List.length_set, true_and]
    intro j hj
    simp [List.getElem?_set_ne (Ne.symm hj)]

theorem bindImplT_in_range {abi : ABI} (hl : abi.Lawful) (s : MySQLStatement)
    (hs : s.toMySQLBinding.Allocated abi) (arg : Int) (h0 : 0 ≤ arg) (h1 : arg < s.m_count)
    (size : Nat) (repr : List Byte) (hr : repr.length = size) (ty : enum_field_types) :
    s.Bound (true, (MySQLStatement.bindImplT abi true s arg size repr).2.setType arg ty)
      arg.toNat ty (repr.map some) size ∧
    (MySQLStatement.bindImplT abi true s arg size repr).1 = true := by
  obtain ⟨c1, c2, c3⟩ := bind_core hl s hs arg h0 h1 size repr hr ty
  simp only [MySQLStatement.bindImplT, c1, Bool.not_true, Bool.false_eq_true, if_false]
  exact ⟨⟨rfl, c2, c3⟩, trivial⟩

/-- C6. On a statement with `n` parameters every binding operation given an
index outside `[0, n)`, negative ones included, returns false and leaves the
statement as it was: no type tag, buffer or length of any slot changes. -/
theorem bind_out_of_range {abi : ABI} (hl : abi.Lawful) (s : MySQLStatement)
    (hs : s.toMySQLBinding.Allocated abi) (arg : Int) (hint : IsInt arg)
    (hout : arg < 0 ∨ (s.m_count : Int) ≤ arg) (cal : Calendar) (heap : Bool) (v : Int)
    (text blob : List Byte) (size : Nat) :
    MySQLStatement.bindShort abi heap s arg v = (false, s) ∧
    MySQLStatement.bindInt abi heap s arg v = (false, s) ∧
    MySQLStatement.bindLong abi heap s arg v = (false, s) ∧
    MySQLStatement.bindLongLong abi heap s arg v = (false, s) ∧
    MySQLStatement.bindText abi heap s arg (some text) = (false, s) ∧
    MySQLStatement.bindBlob abi heap s arg (some blob) size = (false, s) ∧
    MySQLStatement.bindTime abi cal heap s arg v = (false, s) ∧
    MySQLStatement.bindNull abi s arg = (false, s) ∧
    MySQLStatement.bindText abi heap s arg none = (false, s) ∧
    MySQLStatement.bindBlob abi heap s arg none size = (false, s) := by
  have h := size_t_ge_of_out hl hs.2.2 hint hout
  simp [MySQLStatement.bindShort, MySQLStatement.bindInt, MySQLStatement.bindLong,
    MySQLStatement.bindLongLong, MySQLStatement.bindText, MySQLStatement.bindBlob,
    MySQLStatement.bindTime, MySQLStatement.bindNull, MySQLStatement.bindImplT,
    MySQLStatement.bindImpl, h]

/-- Witness of C6: index `-1` and index `3` on a statement with three parameters. -/
theorem bind_out_of_range_witness :
    MySQLStatement.bindLong ilp32 true sampleStatement (-1) 5 = (false, sampleStatement) ∧
    MySQLStatement.bindNull lp64 sampleStatement 3 = (false, sampleStatement) :=
  ⟨(bind_out_of_range ilp32_lawful sampleStatement (by decide) (-1) (by decide)
      (Or.inl (by decide)) ⟨fun _ => tm_t.zero, fun _ => 0⟩ true 5 [] [] 0).2.2.1,
   (bind_out_of_range lp64_lawful sampleStatement (by decide) 3 (by decide)
      (Or.inr (by decide)) ⟨fun _ => tm_t.zero, fun _ => 0⟩ true 5 [] [] 0).2.2.2.2.2.2.2.1⟩

/-- C7. On a statement with `n` parameters, for an index `i` in `[0, n)`
and an allocation that succeeds, each bind returns true and leaves slot `i`
with a buffer of exactly the value's encoded size, holding the value's
encoding, under the value's native type tag, and the recorded length equal to
that size: the object representation of a `short`, of a `long` (an `int` is
bound as a `long`), of a `long long`, the text up to its terminator, the
`size` bytes of the blob, the `MYSQL_TIME` record of the time. `bindNull` and
the binds of a null text or blob pointer leave slot `i` without buffer, with
length zero and the null type. No other slot changes. -/
theorem bind_in_range {abi : ABI} (hl : abi.Lawful) (s : MySQLStatement)
    (hs : s.toMySQLBinding.Allocated abi) (arg : Int) (h0 : 0 ≤ arg) (h1 : arg < s.m_count)
    (cal : Calendar) (v : Int) (text blob : List Byte) (size : Nat)
    (hsize : size ≤ blob.length) :
    s.Bound (MySQLStatement.bindShort abi true s arg v) arg.toNat MYSQL_TYPE_SHORT
      ((abi.repr_short v).map some) abi.sizeof_short ∧
    s.Bound (MySQLStatement.bindInt abi true s arg v) arg.toNat MYSQL_TYPE_LONG
      ((abi.repr_long v).map some) abi.sizeof_long ∧
    s.Bound (MySQLStatement.bindLong abi true s arg v) arg.toNat MYSQL_TYPE_LONG
      ((abi.repr_long v).map some) abi.sizeof_long ∧
    s.Bound (MySQLStatement.bindLongLong abi true s arg v) arg.toNat MYSQL_TYPE_LONGLONG
      ((abi.repr_long_long v).map some) abi.sizeof_long_long ∧
    s.Bound (MySQLStatement.bindText abi true s arg (some text)) arg.toNat MYSQL_TYPE_STRING
      ((text.takeWhile (fun b => b != 0)).map some) (strlen text) ∧
    s.Bound (MySQLStatement.bindBlob abi true s arg (some blob) size) arg.toNat MYSQL_TYPE_BLOB
      ((blob.take size).map some) size ∧
    s.Bound (MySQLStatement.bindTime abi cal true s arg v) arg.toNat MYSQL_TYPE_TIMESTAMP
      ((abi.repr_MYSQL_TIME (MYSQL_TIME.ofTm (cal.gmtime v))).map some) abi.sizeof_MYSQL_TIME ∧
    s.BoundNull (MySQLStatement.bindNull abi s arg) arg.toNat ∧
    s.BoundNull (MySQLStatement.bindText abi true s arg none) arg.toNat ∧
    s.BoundNull (MySQLStatement.bindBlob abi true s arg none size) arg.toNat := by
  have hnull := bindNull_in_range hl s hs arg h0 h1
  have hT := fun size repr hr ty => bindImplT_in_range hl s hs arg h0 h1 size repr hr ty
  have hlong : s.Bound (MySQLStatement.bindLong abi true s arg v) arg.toNat MYSQL_TYPE_LONG
      ((abi.repr_long v).map some) abi.sizeof_long := by
    have := hT _ _ (hl.length_long v) MYSQL_TYPE_LONG
    simpa [MySQLStatement.bindLong, this.2] using this.1
  refine ⟨?_, hlong, hlong, ?_, ?_, ?_, ?_, hnull, hnull, hnull⟩
  · have := hT _ _ (hl.length_short v) MYSQL_TYPE_SHORT
    simpa [MySQLStatement.bindShort, this.2] using this.1
  · have := hT _ _ (hl.length_long_long v) MYSQL_TYPE_LONGLONG
    simpa [MySQLStatement.bindLongLong, this.2] using this.1
  · obtain ⟨c1, c2, c3⟩ := bind_core hl s hs arg h0 h1 (strlen text)
      (strncpy text (strlen text)) (by rw [strncpy_strlen]; rfl) MYSQL_TYPE_STRING
    rw [strncpy_strlen] at c2 c3
    simp only [MySQLStatement.bindText, c1, Bool.not_true, Bool.false_eq_true, if_false]
    rw [strncpy_strlen]
    exact ⟨rfl, c2, c3⟩
  · obtain ⟨c1, c2, c3⟩ := bind_core hl s hs arg h0 h1 size
      (memcpy blob size) (by simp [memcpy, hsize]) MYSQL_TYPE_BLOB
    simp only [MySQLStatement.bindBlob, c1, Bool.not_true, Bool.false_eq_true, if_false]
    exact ⟨rfl, c2, c3⟩
  · have := hT _ _ (hl.length_MYSQL_TIME (MYSQL_TIME.ofTm (cal.gmtime v))) MYSQL_TYPE_TIMESTAMP
    simpa [MySQLStatement.bindTime, this.2] using this.1

end db

/-! ## Column access -/

namespace db

theorem i32_u32 (x : Int) (hx : IsInt x) : i32 (u32 x) = x := by
  unfold i32 u32 IsInt at *
  omega

theorem i32_u32_sub (y k : Int) (hy : IsInt y) : i32 (u32 ((u32 (y + k) : Int) - k)) = y := by
  unfold i32 u32 IsInt at *
  omega

theorem u32_of_nonneg (x : Int) (hx : IsInt x) (h0 : 0 ≤ x) : (u32 x : Int) = x := by
  unfold u32 IsInt at *
  omega

theorem u32_lt (x : Int) : u32 x < 4294967296 := by
  unfold u32
  omega

/-- What `getTimestamp` rebuilds from the record `bindTime` makes. -/
theorem ofTime_sameCalendar (tm : tm_t) (htm : tm.IsInts) (tv : MYSQL_TIME)
    (hf : tv.SameFields (MYSQL_TIME.ofTm tm)) : tm_t.SameCalendar (tm_t.ofTime tv) tm := by
  obtain ⟨f1, f2, f3, f4, f5, f6⟩ := hf
  obtain ⟨i1, i2, i3, i4, i5, i6, -, -⟩ := htm
  simp only [MYSQL_TIME.ofTm] at f1 f2 f3 f4 f5 f6
  simp only [tm_t.SameCalendar, tm_t.ofTime, f1, f2, f3, f4, f5, f6]
  exact ⟨i32_u32_sub _ _ i1, i32_u32_sub _ _ i2, i32_u32 _ i3, i32_u32 _ i4, i32_u32 _ i5,
    i32_u32 _ i6⟩

theorem overwrite_same_length (obj bytes : List Byte) (h : bytes.length = obj.length) :
    overwrite obj bytes = bytes := by
  simp [overwrite, ← h]

theorem sampleCalendar_inverts : sampleCalendar.Inverts := by
  intro t tm h
  obtain ⟨-, -, h3, h4, h5, h6⟩ := h
  simp only [sampleCalendar, tm_t.zero] at h3 h4 h5 h6 ⊢
  rw [h3, h4, h5, h6]
  omega

/-- C8. `bindTime` stores for the time `t` the native record whose year,
month, day, hour, minute and second are `tm_year + 1900`, `tm_mon + 1`,
`tm_mday`, `tm_hour`, `tm_min`, `tm_sec` of `gmtime(t)`; and `getTimestamp`
on a column the library reports with exactly those six fields rebuilds the
calendar fields of `gmtime(t)` and returns what `mktime` makes of them, which
is `t` when the library's `mktime` inverts its `gmtime`. -/
theorem timestamp_round_trip {σ : Type} {abi : ABI} (hl : abi.Lawful) (cal : Calendar)
    (N : Native σ) (t : Int) (htm : (cal.gmtime t).IsInts) :
    (∀ (s : MySQLStatement) (arg : Int), s.toMySQLBinding.Allocated abi → 0 ≤ arg →
      arg < s.m_count →
      (MySQLStatement.bindTime abi cal true s arg t).2.m_buffers[arg.toNat]? =
        some (some ((abi.repr_MYSQL_TIME (MYSQL_TIME.ofTm (cal.gmtime t))).map some))) ∧
    (((MYSQL_TIME.ofTm (cal.gmtime t)).year : Int) = ((cal.gmtime t).tm_year + 1900) % 4294967296 ∧
      ((MYSQL_TIME.ofTm (cal.gmtime t)).month : Int) = ((cal.gmtime t).tm_mon + 1) % 4294967296 ∧
      ((MYSQL_TIME.ofTm (cal.gmtime t)).day : Int) = (cal.gmtime t).tm_mday % 4294967296 ∧
      ((MYSQL_TIME.ofTm (cal.gmtime t)).hour : Int) = (cal.gmtime t).tm_hour % 4294967296 ∧
      ((MYSQL_TIME.ofTm (cal.gmtime t)).minute : Int) = (cal.gmtime t).tm_min % 4294967296 ∧
      ((MYSQL_TIME.ofTm (cal.gmtime t)).second : Int) = (cal.gmtime t).tm_sec % 4294967296) ∧
    (0 ≤ (cal.gmtime t).tm_year + 1900 → 0 ≤ (cal.gmtime t).tm_mon →
      0 ≤ (cal.gmtime t).tm_mday → 0 ≤ (cal.gmtime t).tm_hour → 0 ≤ (cal.gmtime t).tm_min →
      0 ≤ (cal.gmtime t).tm_sec →
      ((MYSQL_TIME.ofTm (cal.gmtime t)).year : Int) = (cal.gmtime t).tm_year + 1900 ∧
      ((MYSQL_TIME.ofTm (cal.gmtime t)).month : Int) = (cal.gmtime t).tm_mon + 1 ∧
      ((MYSQL_TIME.ofTm (cal.gmtime t)).day : Int) = (cal.gmtime t).tm_mday ∧
      ((MYSQL_TIME.ofTm (cal.gmtime t)).hour : Int) = (cal.gmtime t).tm_hour ∧
      ((MYSQL_TIME.ofTm (cal.gmtime t)).minute : Int) = (cal.gmtime t).tm_min ∧
      ((MYSQL_TIME.ofTm (cal.gmtime t)).second : Int) = (cal.gmtime t).tm_sec) ∧
    (∀ (c : MySQLCursor σ) (column : Int) (tv : MYSQL_TIME),
      c.toMySQLBinding.Allocated abi → 0 ≤ column → column < c.m_count →
      c.m_is_null.getD column.toNat false = false → tv.Valid →
      tv.SameFields (MYSQL_TIME.ofTm (cal.gmtime t)) →
      N.HoldsTime abi c.m_stmt.st (u32 column) tv →
      tm_t.SameCalendar (tm_t.ofTime tv) (cal.gmtime t) ∧
      (MySQLCursor.getTimestamp abi cal N c column).1 = cal.mktime (tm_t.ofTime tv) ∧
      (cal.Inverts → (MySQLCursor.getTimestamp abi cal N c column).1 = t)) := by
  refine ⟨?_, ?_, ?_, ?_⟩
  · intro s arg hs h0 h1
    have h := bindImplT_in_range hl s hs arg h0 h1 _ _
      (hl.length_MYSQL_TIME (MYSQL_TIME.ofTm (cal.gmtime t))) MYSQL_TYPE_TIMESTAMP
    simp only [MySQLStatement.bindTime, h.2, Bool.not_true, Bool.false_eq_true, if_false]
    exact h.1.2.1.2.1
  · simp only [MYSQL_TIME.ofTm, u32]
    refine ⟨?_, ?_, ?_, ?_, ?_, ?_⟩ <;> omega
  · obtain ⟨i1, i2, i3, i4, i5, i6, i7, i8⟩ := htm
    intro n1 n2 n3 n4 n5 n6
    simp only [MYSQL_TIME.ofTm]
    exact ⟨u32_of_nonneg _ i7 n1, u32_of_nonneg _ i8 (by omega), u32_of_nonneg _ i3 n3,
      u32_of_nonneg _ i4 n4, u32_of_nonneg _ i5 n5, u32_of_nonneg _ i6 n6⟩
  · intro c column tv hc h0 h1 hnn hv hf hN
    obtain ⟨hin, -⟩ := size_t_lt_of_in (allocated_count_le hl hc) h0 h1
    have hsame := ofTime_sameCalendar (cal.gmtime t) htm tv hf
    have hget : (MySQLCursor.getTimestamp abi cal N c column).1 =
        cal.mktime (tm_t.ofTime tv) := by
      unfold Native.HoldsTime at hN
      simp only [MySQLCursor.getTimestamp, if_neg hin, hnn, Bool.false_eq_true, if_false,
        StmtObj.mysql_stmt_fetch_column, hN, ne_eq, not_true_eq_false]
      rw [overwrite_same_length _ _ (by rw [hl.length_MYSQL_TIME, hl.length_MYSQL_TIME]),
        hl.load_repr_MYSQL_TIME tv hv]
    exact ⟨hsame, hget, fun hinv => by rw [hget]; exact hinv t _ hsame⟩

/-- Witness of C8: the fifteenth day, 10:30:00, bound and read back. -/
theorem timestamp_round_trip_witness :
    (MySQLCursor.getTimestamp lp64 sampleCalendar
      (timeNative (MYSQL_TIME.ofTm (sampleCalendar.gmtime 1247400))) sampleCursor 0).1 =
      1247400 :=
  ((timestamp_round_trip lp64_lawful sampleCalendar
      (timeNative (MYSQL_TIME.ofTm (sampleCalendar.gmtime 1247400))) 1247400
      (by decide)).2.2.2 sampleCursor 0 (MYSQL_TIME.ofTm (sampleCalendar.gmtime 1247400))
      (by decide) (by decide) (by decide) (by decide) (by decide) (by decide) rfl).2.2
    sampleCalendar_inverts

/-- Witness of C7: a text and a `long` bound to parameter 1 of three. -/
theorem bind_in_range_witness :
    (MySQLStatement.bindText lp64 true sampleStatement 1 (some [104, 105, 0, 7])).2.m_buffers =
      [none, some [some 104, some 105], none] ∧
    sampleStatement.Bound (MySQLStatement.bindLong lp64 true sampleStatement 1 258)
      (Int.toNat 1) MYSQL_TYPE_LONG
      ((lp64.repr_long 258).map some) lp64.sizeof_long :=
  ⟨by decide,
   (bind_in_range lp64_lawful sampleStatement (by decide) 1 (by decide) (by decide)
      sampleCalendar 258 [104, 105, 0, 7] [1, 2, 3] 2 (by decide)).2.2.1⟩

/-- C9. On a cursor with `n` columns, for a column index outside `[0, n)`,
negative ones included, `getInt`, `getLong`, `getLongLong` and `getTimestamp`
return 0, `getText` and `getBlob` return the null pointer, `getBlobSize`
returns 0 and `isNull` returns true; the cursor is left as it was, its
statement handle and the log of native calls included. -/
theorem cursor_out_of_range {σ : Type} {abi : ABI} (hl : abi.Lawful) (c : MySQLCursor σ)
    (hc : c.toMySQLBinding.Allocated abi) (column : Int) (hint : IsInt column)
    (hout : column < 0 ∨ (c.m_count : Int) ≤ column) (cal : Calendar) (N : Native σ)
    (heap : Bool) :
    MySQLCursor.getInt abi N c column = (0, c) ∧
    MySQLCursor.getLong abi N c column = (0, c) ∧
    MySQLCursor.getLongLong abi N c column = (0, c) ∧
    MySQLCursor.getTimestamp abi cal N c column = (0, c) ∧
    MySQLCursor.getText abi N heap c column = Except.ok (none, c) ∧
    MySQLCursor.getBlob abi N heap c column = Except.ok (none, c) ∧
    MySQLCursor.getBlobSize abi c column = 0 ∧
    MySQLCursor.isNull abi c column = true := by
  have h := size_t_ge_of_out hl hc.2.2 hint hout
  simp [MySQLCursor.getInt, MySQLCursor.getLong, MySQLCursor.getLongLong,
    MySQLCursor.getTimestamp, MySQLCursor.getText, MySQLCursor.getBlob, MySQLCursor.getBytes,
    MySQLCursor.getBlobSize, MySQLCursor.isNull, h, i32]

/-- Witness of C9: columns `-1` and `2` of a cursor with two columns. -/
theorem cursor_out_of_range_witness :
    MySQLCursor.getLong ilp32 (timeNative MYSQL_TIME.zero) sampleCursor (-1) = (0, sampleCursor) ∧
    MySQLCursor.getText lp64 (timeNative MYSQL_TIME.zero) true sampleCursor 2 =
      Except.ok (none, sampleCursor) :=
  ⟨(cursor_out_of_range ilp32_lawful sampleCursor (by decide) (-1) (by decide)
      (Or.inl (by decide)) sampleCalendar (timeNative MYSQL_TIME.zero) true).2.1,
   (cursor_out_of_range lp64_lawful sampleCursor (by decide) 2 (by decide)
      (Or.inr (by decide)) sampleCalendar (timeNative MYSQL_TIME.zero) true).2.2.2.2.1⟩

/-- C10. On a cursor, for a column in range whose null indicator is set,
`getInt`, `getLong`, `getLongLong` and `getTimestamp` return 0, `getText` and
`getBlob` return the null pointer and `isNull` returns true, whatever the
column's buffer holds and whether or not the heap could serve an allocation;
the cursor is left as it was: no native call is logged, no buffer is
replaced. -/
theorem cursor_null_column {σ : Type} {abi : ABI} (hl : abi.Lawful) (c : MySQLCursor σ)
    (hc : c.toMySQLBinding.Allocated abi) (column : Int) (h0 : 0 ≤ column)
    (h1 : column < c.m_count) (hnull : c.m_is_null.getD column.toNat false = true)
    (cal : Calendar) (N : Native σ) (heap : Bool) :
    MySQLCursor.getInt abi N c column = (0, c) ∧
    MySQLCursor.getLong abi N c column = (0, c) ∧
    MySQLCursor.getLongLong abi N c column = (0, c) ∧
    MySQLCursor.getTimestamp abi cal N c column = (0, c) ∧
    MySQLCursor.getText abi N heap c column = Except.ok (none, c) ∧
    MySQLCursor.getBlob abi N heap c column = Except.ok (none, c) ∧
    MySQLCursor.isNull abi c column = true := by
  obtain ⟨hin, -⟩ := size_t_lt_of_in (allocated_count_le hl hc) h0 h1
  simp only [MySQLCursor.getInt, MySQLCursor.getLong, MySQLCursor.getLongLong,
    MySQLCursor.getTimestamp, MySQLCursor.getText, MySQLCursor.getBlob, MySQLCursor.getBytes,
    MySQLCursor.isNull, if_neg hin, hnull, if_true]
  simp [i32]

/-- Witness of C10: column 1 of the sample cursor is null. -/
theorem cursor_null_column_witness :
    MySQLCursor.getTimestamp lp64 sampleCalendar (timeNative MYSQL_TIME.zero) sampleCursor 1 =
      (0, sampleCursor) ∧
    MySQLCursor.getBlob lp64 (timeNative MYSQL_TIME.zero) false sampleCursor 1 =
      Except.ok (none, sampleCursor) :=
  ⟨(cursor_null_column lp64_lawful sampleCursor (by decide) 1 (by decide) (by decide)
      (by decide) sampleCalendar (timeNative MYSQL_TIME.zero) false).2.2.2.1,
   (cursor_null_column lp64_lawful sampleCursor (by decide) 1 (by decide) (by decide)
      (by decide) sampleCalendar (timeNative MYSQL_TIME.zero) false).2.2.2.2.2.1⟩

/-! ## Where the hypothesis `Allocated` comes from -/

/-- A successful `allocBind(count)` leaves arrays of `count` zeroed entries
whose size in bytes fits `size_t`; a failed one leaves the binding as it was. -/
theorem allocBind_allocated (abi : ABI) (heapBind heapBuffers : Bool) (b : MySQLBinding)
    (count : Nat) :
    ((MySQLBinding.allocBind abi heapBind heapBuffers b count).1 = true →
      (MySQLBinding.allocBind abi heapBind heapBuffers b count).2.Allocated abi ∧
      (MySQLBinding.allocBind abi heapBind heapBuffers b count).2.m_count = count) ∧
    ((MySQLBinding.allocBind abi heapBind heapBuffers b count).1 = false →
      (MySQLBinding.allocBind abi heapBind heapBuffers b count).2 = b) := by
  unfold MySQLBinding.allocBind MySQLBinding.Allocated
  by_cases h1 : count * abi.sizeof_MYSQL_BIND ≤ abi.SIZE_MAX <;>
    by_cases h2 : count * abi.sizeof_pointer ≤ abi.SIZE_MAX <;>
    cases heapBind <;> cases heapBuffers <;> simp [h1, h2]

/-- A bind that changes one slot keeps the binding allocated. -/
theorem allocated_of_sameExcept {abi : ABI} {b1 b2 : MySQLBinding} {i : Nat}
    (h : b1.SameExcept b2 i) (hb : b1.Allocated abi) : b2.Allocated abi := by
  obtain ⟨h1, h2, h3, -⟩ := h
  obtain ⟨a1, a2, a3⟩ := hb
  exact ⟨by rw [h2, h1, a1], by rw [h3, h1, a2], by rw [h1]; exact a3⟩

end db

/-! ## Reading a column twice -/

namespace db

theorem store_getElem? (buf : List Cell) (d : List Byte) (hd : d.length ≤ buf.length) (j : Nat) :
    (store buf d)[j]? = if j < d.length then d[j]?.map some else buf[j]? := by
  unfold store
  rw [List.take_of_length_le hd]
  by_cases hj : j < d.length
  · rw [if_pos hj, List.getElem?_append_left (by simpa using hj)]
    simp
  · rw [if_neg hj, List.getElem?_append_right (by simpa using hj)]
    simp only [List.length_map, List.getElem?_drop]
    congr 1
    omega

theorem store_length (buf : List Cell) (d : List Byte) : (store buf d).length = buf.length := by
  unfold store
  simp only [List.length_append, List.length_map, List.length_take, List.length_drop]
  omega

/-- Storing the same bytes again below a terminator already written changes nothing. -/
theorem store_set_store (buf : List Cell) (d : List Byte) (n : Nat) (hd : d.length ≤ n)
    (hn : n < buf.length) :
    (store ((store buf d).set n (some 0)) d).set n (some 0) = (store buf d).set n (some 0) := by
  have hlen : ((store buf d).set n (some 0)).length = buf.length := by
    rw [List.length_set, store_length]
  apply List.ext_getElem?
  intro j
  by_cases hjn : j = n
  · subst hjn
    rw [List.getElem?_set_self (by rw [store_length, hlen]; exact hn),
      List.getElem?_set_self (by rw [store_length]; exact hn)]
  · rw [List.getElem?_set_ne (Ne.symm hjn), List.getElem?_set_ne (Ne.symm hjn),
      store_getElem? _ _ (by rw [hlen]; omega), store_getElem? _ _ (by omega)]
    by_cases hj : j < d.length
    · simp [hj]
    · simp only [hj, if_false]
      rw [List.getElem?_set_ne (Ne.symm hjn), store_getElem? _ _ (by omega), if_neg hj]

end db

namespace db

/-- What a call of `getText`/`getBlob` that returns a buffer has done. -/
theorem getBytes_some {σ : Type} (ty : enum_field_types) {abi : ABI} (hl : abi.Lawful)
    (N : Native σ) (c : MySQLCursor σ) (hc : c.toMySQLBinding.Allocated abi) (column : Int)
    (h0 : 0 ≤ column) (h1 : column < c.m_count) (heap : Bool) (b1 : List Cell)
    (c1 : MySQLCursor σ)
    (hfirst : MySQLCursor.getBytes ty abi N heap c column = Except.ok (some b1, c1)) :
    ∃ base : List Cell,
      c.m_is_null.getD column.toNat false = false ∧
      (N.mysql_stmt_fetch_column c.m_stmt.st ty (c.m_lengths.getD column.toNat 0)
        (u32 column)).1.1 = 0 ∧
      c.m_lengths.getD column.toNat 0 < base.length ∧
      b1 = (store base ((N.mysql_stmt_fetch_column c.m_stmt.st ty
        (c.m_lengths.getD column.toNat 0) (u32 column)).1.2.take
          (c.m_lengths.getD column.toNat 0))).set (c.m_lengths.getD column.toNat 0) (some 0) ∧
      (c.m_error.getD column.toNat false = true → base = newChars (c.m_lengths.getD column.toNat 0 + 1)) ∧
      c1.m_count = c.m_count ∧ c1.m_is_null = c.m_is_null ∧ c1.m_lengths = c.m_lengths ∧
      c1.m_error = c.m_error ∧ c1.m_buffers.getD column.toNat none = some b1 ∧
      c1.m_stmt = (c.m_stmt.mysql_stmt_fetch_column N ty (c.m_lengths.getD column.toNat 0)
        (u32 column)).2 ∧
      c1.m_buffers.set column.toNat (some b1) = c1.m_buffers ∧
      (c.m_error.getD column.toNat false = true →
        c1.m_bind.set column.toNat
          (MYSQL_BIND.mk ty BufPtr.slot (c.m_lengths.getD column.toNat 0)) = c1.m_bind) := by
  obtain ⟨hin, hlt⟩ := size_t_lt_of_in (allocated_count_le hl hc) h0 h1
  obtain ⟨hb1, hb2, _⟩ := hc
  have hlt1 : column.toNat < c.m_bind.length := by omega
  have hlt2 : column.toNat < c.m_buffers.length := by omega
  cases hnull : c.m_is_null.getD column.toNat false
  swap
  · simp only [MySQLCursor.getBytes, if_neg hin, hnull, if_true] at hfirst
    cases hfirst
  cases hg : (c.m_error.getD column.toNat false || (c.m_buffers.getD column.toNat none).isNone)
  · -- the buffer at hand is used
    simp only [MySQLCursor.getBytes, if_neg hin, hnull, hg, Bool.false_and, Bool.false_eq_true,
      if_false, StmtObj.mysql_stmt_fetch_column] at hfirst
    generalize hlen : c.m_lengths.getD column.toNat 0 = len at hfirst ⊢
    generalize hr : N.mysql_stmt_fetch_column c.m_stmt.st ty len (u32 column) = r at hfirst ⊢
    have herr : c.m_error.getD column.toNat false = false := by
      cases he : c.m_error.getD column.toNat false
      · rfl
      · rw [he] at hg; simp at hg
    by_cases hrc : r.1.1 = 0
    · rw [if_neg (by simpa using hrc)] at hfirst
      by_cases hl2 : len < (store ((c.m_buffers.getD column.toNat none).getD [])
          (List.take len r.1.2)).length
      · rw [if_pos hl2] at hfirst
        simp only [Except.ok.injEq, Prod.mk.injEq, Option.some.injEq] at hfirst
        obtain ⟨hb, hc1⟩ := hfirst
        subst hc1
        subst hb
        refine ⟨(c.m_buffers.getD column.toNat none).getD [], rfl, hrc, ?_, rfl, ?_, rfl, rfl, rfl,
          rfl, ?_, ?_, ?_, ?_⟩
        · rwa [store_length] at hl2
        · intro h; rw [herr] at h; cases h
        · show (c.m_buffers.set _ _).getD _ _ = _
          rw [List.getD_eq_getElem?_getD, List.getElem?_set_self hlt2]; rfl
        · simp only [StmtObj.mysql_stmt_fetch_column, hr]
        · exact List.set_set _ _ _ _
        · intro h; rw [herr] at h; cases h
      · rw [if_neg hl2] at hfirst
        cases hfirst
    · rw [if_pos (by simpa using hrc)] at hfirst
      simp at hfirst
  · -- a new buffer is allocated
    cases heap
    · simp only [MySQLCursor.getBytes, if_neg hin, hnull, hg, Bool.not_false, Bool.and_self,
        if_true, Bool.false_eq_true, if_false] at hfirst
      cases hfirst
    simp only [MySQLCursor.getBytes, if_neg hin, hnull, hg, Bool.not_true, Bool.and_false,
      Bool.false_eq_true, if_false, if_true, StmtObj.mysql_stmt_fetch_column] at hfirst
    generalize hlen : c.m_lengths.getD column.toNat 0 = len at hfirst ⊢
    generalize hr : N.mysql_stmt_fetch_column c.m_stmt.st ty len (u32 column) = r at hfirst ⊢
    by_cases hrc : r.1.1 = 0
    · rw [if_neg (by simpa using hrc)] at hfirst
      simp only [List.getD_eq_getElem?_getD, List.getElem?_set_self hlt2, Option.getD_some] at hfirst
      by_cases hl2 : len < (store (newChars (len + 1)) (List.take len r.1.2)).length
      · rw [if_pos hl2] at hfirst
        simp only [Except.ok.injEq, Prod.mk.injEq, Option.some.injEq] at hfirst
        obtain ⟨hb, hc1⟩ := hfirst
        subst hc1
        subst hb
        refine ⟨newChars (len + 1), rfl, hrc, ?_, rfl, fun _ => rfl, rfl, rfl, rfl,
          rfl, ?_, ?_, ?_, ?_⟩
        · simp [newChars]
        · show ((c.m_buffers.set _ _).set _ _).getD _ _ = _
          rw [List.getD_eq_getElem?_getD, List.getElem?_set_self (by simpa using hlt2)]; rfl
        · simp only [StmtObj.mysql_stmt_fetch_column, hr]
        · exact List.set_set _ _ _ _
        · intro _; exact List.set_set _ _ _ _
      · rw [if_neg hl2] at hfirst
        cases hfirst
    · rw [if_pos (by simpa using hrc)] at hfirst
      simp at hfirst


/-- The second of two reads of a column in a row, after a first that
returned a buffer, when the library delivers the same bytes again. -/
theorem getBytes_twice {σ : Type} (ty : enum_field_types) {abi : ABI} (hl : abi.Lawful)
    (N : Native σ) (c : MySQLCursor σ) (hc : c.toMySQLBinding.Allocated abi) (column : Int)
    (h0 : 0 ≤ column) (h1 : column < c.m_count) (heap : Bool) (b1 : List Cell)
    (c1 : MySQLCursor σ)
    (hfirst : MySQLCursor.getBytes ty abi N heap c column = Except.ok (some b1, c1))
    (hsame : (N.mysql_stmt_fetch_column c1.m_stmt.st ty (c.m_lengths.getD column.toNat 0)
        (u32 column)).1 =
      (N.mysql_stmt_fetch_column c.m_stmt.st ty (c.m_lengths.getD column.toNat 0)
        (u32 column)).1) :
    MySQLCursor.getBytes ty abi N true c1 column = Except.ok (some b1,
      { c1 with m_stmt := (c1.m_stmt.mysql_stmt_fetch_column N ty
          (c.m_lengths.getD column.toNat 0) (u32 column)).2 }) ∧
    (c.m_error.getD column.toNat false = true →
      MySQLCursor.getBytes ty abi N false c1 column = Except.ok (none, c1)) ∧
    (c.m_error.getD column.toNat false = false →
      MySQLCursor.getBytes ty abi N false c1 column =
        MySQLCursor.getBytes ty abi N true c1 column) := by
  obtain ⟨base, hnull, hrc, hlb, hb, hbase, e1, e2, e3, e4, e5, e6, e7, e8⟩ :=
    getBytes_some ty hl N c hc column h0 h1 heap b1 c1 hfirst
  obtain ⟨hin, hlt⟩ := size_t_lt_of_in (allocated_count_le hl hc) h0 h1
  have hin1 : ¬ abi.size_t column ≥ c1.m_count := by rw [e1]; exact hin
  have hnone : (c1.m_buffers.getD column.toNat none).isNone = false := by rw [e5]; rfl
  generalize hlen : c.m_lengths.getD column.toNat 0 = len at *
  generalize hr : N.mysql_stmt_fetch_column c.m_stmt.st ty len (u32 column) = r at *
  have hd : (List.take len r.1.2).length ≤ len := by
    rw [List.length_take]; exact Nat.min_le_left _ _
  cases herr : c.m_error.getD column.toNat false
  · -- the buffer of the first read is used again
    have key : ∀ heap2, MySQLCursor.getBytes ty abi N heap2 c1 column = Except.ok (some b1,
        { c1 with m_stmt := (c1.m_stmt.mysql_stmt_fetch_column N ty len (u32 column)).2 }) := by
      intro heap2
      simp only [MySQLCursor.getBytes, if_neg hin1, e2, hnull, e3, hlen, e4, herr, hnone,
        Bool.or_self, Bool.false_and, Bool.false_eq_true, if_false,
        StmtObj.mysql_stmt_fetch_column, hsame, hrc, ne_eq, not_true_eq_false, e5,
        Option.getD_some, Option.isNone_some]
      have hl3 : len < (store b1 (List.take len r.1.2)).length := by
        rw [store_length, hb, List.length_set, store_length]; exact hlb
      rw [if_pos hl3]
      have hb2 : (store b1 (List.take len r.1.2)).set len (some 0) = b1 := by
        rw [hb]; exact store_set_store base _ len hd hlb
      rw [hb2, e7]
    refine ⟨key true, ?_, ?_⟩
    · intro h; cases h
    · intro _; rw [key false, key true]
  · -- the truncation flag is still set: a new buffer is allocated
    have hbase2 := hbase herr
    have e8b := e8 herr
    refine ⟨?_, ?_, ?_⟩
    rotate_left
    · intro _
      simp only [MySQLCursor.getBytes, if_neg hin1, e2, hnull, e4, herr, hnone,
        Bool.or_false, Bool.not_false, Bool.and_self, Bool.false_eq_true, if_false, if_true]
    · intro h; cases h
    · simp only [MySQLCursor.getBytes, if_neg hin1, e2, hnull, e3, hlen, e4, herr, hnone,
        Bool.or_false, Bool.not_true, Bool.and_false, Bool.false_eq_true, if_false, if_true,
        StmtObj.mysql_stmt_fetch_column, hsame, hrc, ne_eq, not_true_eq_false]
      have hlt2 : column.toNat < c1.m_buffers.length := by
        by_contra hcon
        have : c1.m_buffers.getD column.toNat none = none := by
          rw [List.getD_eq_getElem?_getD, List.getElem?_eq_none (by omega)]; rfl
        rw [this] at e5; cases e5
      simp only [List.getD_eq_getElem?_getD, List.getElem?_set_self hlt2, Option.getD_some]
      have hl3 : len < (store (newChars (len + 1)) (List.take len r.1.2)).length := by
        rw [store_length]; simp [newChars]
      rw [if_pos hl3, ← hbase2, ← hb, List.set_set, e7, e8b]

end db

namespace db

/-- C11, as the code has it. When `getText(c)` (or `getBlob(c)`) on an
in-range column returns a buffer and the library delivers the same bytes for
the column at the next single-column fetch, a second call in a row returns
identical bytes and leaves the slots and indicators as the first call left
them. The second call issues a native single-column fetch of its own; it
allocates the buffer anew exactly when the column's truncation indicator is
set (it then returns null when the heap does not serve), and otherwise uses
the buffer of the first call whatever the heap does. -/
theorem read_twice {σ : Type} {abi : ABI} (hl : abi.Lawful) (N : Native σ)
    (c : MySQLCursor σ) (hc : c.toMySQLBinding.Allocated abi) (column : Int)
    (h0 : 0 ≤ column) (h1 : column < c.m_count) (ty : enum_field_types)
    (hty : ty = MYSQL_TYPE_STRING ∨ ty = MYSQL_TYPE_BLOB) (heap : Bool) (b1 : List Cell)
    (c1 : MySQLCursor σ)
    (hfirst : (if ty = MYSQL_TYPE_STRING then MySQLCursor.getText abi N heap c column
      else MySQLCursor.getBlob abi N heap c column) = Except.ok (some b1, c1))
    (hsame : (N.mysql_stmt_fetch_column c1.m_stmt.st ty (c.m_lengths.getD column.toNat 0)
        (u32 column)).1 =
      (N.mysql_stmt_fetch_column c.m_stmt.st ty (c.m_lengths.getD column.toNat 0)
        (u32 column)).1) :
    ∃ c2 : MySQLCursor σ,
      (if ty = MYSQL_TYPE_STRING then MySQLCursor.getText abi N true c1 column
        else MySQLCursor.getBlob abi N true c1 column) = Except.ok (some b1, c2) ∧
      c2.toMySQLBinding = c1.toMySQLBinding ∧ c2.m_lengths = c1.m_lengths ∧
      c2.m_is_null = c1.m_is_null ∧ c2.m_error = c1.m_error ∧
      c2.m_stmt.log = c1.m_stmt.log ++
        [NativeCall.mysql_stmt_fetch_column ty (c.m_lengths.getD column.toNat 0) (u32 column)] ∧
      (c.m_error.getD column.toNat false = true →
        (if ty = MYSQL_TYPE_STRING then MySQLCursor.getText abi N false c1 column
          else MySQLCursor.getBlob abi N false c1 column) = Except.ok (none, c1)) ∧
      (c.m_error.getD column.toNat false = false →
        (if ty = MYSQL_TYPE_STRING then MySQLCursor.getText abi N false c1 column
          else MySQLCursor.getBlob abi N false c1 column) = Except.ok (some b1, c2)) := by
  have hget : ∀ heap2 (d : MySQLCursor σ),
      (if ty = MYSQL_TYPE_STRING then MySQLCursor.getText abi N heap2 d column
        else MySQLCursor.getBlob abi N heap2 d column) =
      MySQLCursor.getBytes ty abi N heap2 d column := by
    intro heap2 d
    rcases hty with h | h <;> subst h <;> simp [MySQLCursor.getText, MySQLCursor.getBlob]
  simp only [hget] at hfirst ⊢
  obtain ⟨k1, k2, k3⟩ := getBytes_twice ty hl N c hc column h0 h1 heap b1 c1 hfirst hsame
  refine ⟨_, k1, rfl, rfl, rfl, rfl, rfl, k2, ?_⟩
  intro h
  rw [k3 h, k1]

/-- Witness of C11 as amended: a truncated text column read twice. -/
theorem read_twice_witness :
    ∃ c2 : MySQLCursor Nat,
      MySQLCursor.getText lp64 (bytesNative [104, 105]) true truncatedCursorRead 0 =
        Except.ok (some [some 104, some 105, some 0], c2) ∧
      c2.m_stmt.log = truncatedCursorRead.m_stmt.log ++
        [NativeCall.mysql_stmt_fetch_column MYSQL_TYPE_STRING 2 0] ∧
      MySQLCursor.getText lp64 (bytesNative [104, 105]) false truncatedCursorRead 0 =
        Except.ok (none, truncatedCursorRead) := by
  obtain ⟨c2, k1, -, -, -, -, k5, k6, -⟩ :=
    read_twice lp64_lawful (bytesNative [104, 105]) truncatedCursor (by decide) 0 (by decide)
      (by decide) MYSQL_TYPE_STRING (Or.inl rfl) true [some 104, some 105, some 0]
      truncatedCursorRead (by rfl) rfl
  exact ⟨c2, k1, k5, k6 (by decide)⟩

/-- Counterexample to C11 as stated: on a truncated text column the second
`getText` issues a second native fetch (two are logged after it, one after
the first), and it allocates again: with a heap that does not serve, the
second call returns null after the first returned the text. -/
theorem read_twice_refetches :
    MySQLCursor.fetchCounts (MySQLCursor.getBytesTwice MYSQL_TYPE_STRING lp64
      (bytesNative [104, 105]) true true truncatedCursor 0) = some (1, 2) ∧
    MySQLCursor.results (MySQLCursor.getBytesTwice MYSQL_TYPE_STRING lp64
      (bytesNative [104, 105]) true false truncatedCursor 0) =
      some (some [some 104, some 105, some 0], none) := by
  constructor <;> decide

end db

/-! ## Preparing a cursor -/

namespace db

theorem fieldSize_eq {abi : ABI} (ty : enum_field_types) :
    fieldSize abi ty = (supportedWidth abi ty).getD abi.SIZE_MAX := by
  cases ty <;> rfl

theorem supportedWidth_lt {abi : ABI} (hs : abi.SizesFit) {ty : enum_field_types} {w : Nat}
    (h : supportedWidth abi ty = some w) : w < abi.SIZE_MAX ∧ fieldSize abi ty = w := by
  obtain ⟨h0, h1, h2, h3, h4, h5, h6⟩ := hs
  cases ty <;> simp [supportedWidth, claimedWidth] at h <;> subst h <;>
    simp [fieldSize] <;> omega

/-- One column: `bindResult` on a fresh slot fails for an unsupported type,
and leaves a prepared slot when it succeeds. -/
theorem bindResult_fresh {abi : ABI} (hs : abi.SizesFit) (heap : Bool) (ty : enum_field_types)
    (bind : MYSQL_BIND) :
    (supportedWidth abi ty = none → (bindResult abi heap ty bind none).1 = false) ∧
    ((bindResult abi heap ty bind none).1 = true →
      PreparedSlot abi ty (bindResult abi heap ty bind none).2.1
        (bindResult abi heap ty bind none).2.2) := by
  constructor
  · intro h
    have := @fieldSize_eq abi ty
    rw [h] at this
    simp [bindResult, this]
  · intro h
    cases hw : supportedWidth abi ty with
    | none =>
      have := @fieldSize_eq abi ty
      rw [hw] at this
      simp [bindResult, this] at h
    | some w =>
      obtain ⟨hlt, hfs⟩ := supportedWidth_lt hs hw
      have hne : ¬ w = abi.SIZE_MAX := by omega
      refine ⟨w, hw, ?_⟩
      by_cases hw0 : w = 0
      · left
        subst hw0
        simp [bindResult, hfs, hne]
      · right
        cases heap
        · simp [bindResult, hfs, hne, hw0] at h
        · refine ⟨by omega, ?_, newChars w, ?_, by simp [newChars]⟩
          · simp [bindResult, hfs, hne, hw0]
          · simp [bindResult, hfs, hne, hw0]

end db

namespace db

theorem getD_set_self {α : Type} (l : List α) (i : Nat) (h : i < l.length) (a d : α) :
    (l.set i a).getD i d = a := by
  rw [List.getD_eq_getElem?_getD, List.getElem?_set_self h]; rfl

theorem getD_set_ne {α : Type} (l : List α) (i j : Nat) (h : i ≠ j) (a d : α) :
    (l.set i a).getD j d = l.getD j d := by
  rw [List.getD_eq_getElem?_getD, List.getD_eq_getElem?_getD, List.getElem?_set_ne h]

/-- The loop of `prepare` over fresh slots from index `i`. -/
theorem bindResults_spec {abi : ABI} (hs : abi.SizesFit) (heap : PrepareHeap) :
    ∀ (fields : List enum_field_types) (i : Nat) (b : MySQLBinding),
      (∀ j, i ≤ j → b.m_buffers.getD j none = none) →
      i + fields.length ≤ b.m_bind.length → i + fields.length ≤ b.m_buffers.length →
      (MySQLCursor.bindResults abi heap fields i b).2.m_count = b.m_count ∧
      (∀ j, j < i →
        (MySQLCursor.bindResults abi heap fields i b).2.m_bind.getD j default =
          b.m_bind.getD j default ∧
        (MySQLCursor.bindResults abi heap fields i b).2.m_buffers.getD j none =
          b.m_buffers.getD j none) ∧
      ((MySQLCursor.bindResults abi heap fields i b).1 = true →
        ∀ k ty, fields[k]? = some ty →
          PreparedSlot abi ty
            ((MySQLCursor.bindResults abi heap fields i b).2.m_bind.getD (i + k) default)
            ((MySQLCursor.bindResults abi heap fields i b).2.m_buffers.getD (i + k) none)) ∧
      ((∃ ty, ty ∈ fields ∧ supportedWidth abi ty = none) →
        (MySQLCursor.bindResults abi heap fields i b).1 = false) := by
  intro fields
  induction fields with
  | nil =>
    intro i b _ _ _
    refine ⟨rfl, fun j _ => ⟨rfl, rfl⟩, ?_, ?_⟩
    · intro _ k ty h; simp at h
    · rintro ⟨ty, hty, _⟩; simp at hty
  | cons field fields ih =>
    intro i b hfresh hl1 hl2
    simp only [List.length_cons] at hl1 hl2
    have hi1 : i < b.m_bind.length := by omega
    have hi2 : i < b.m_buffers.length := by omega
    have hnone : b.m_buffers.getD i none = none := hfresh i (Nat.le_refl i)
    obtain ⟨f1, f2⟩ := bindResult_fresh hs (heap.column i) field (b.m_bind.getD i default)
    unfold MySQLCursor.bindResults
    simp only [hnone]
    generalize hr : bindResult abi (heap.column i) field (b.m_bind.getD i default) none = r
      at f1 f2 ⊢
    cases hr1 : r.1
    · -- this column fails
      simp only [Bool.not_false, if_true]
      refine ⟨?_, ?_, ?_, ?_⟩
      · trivial
      · intro j hj
        exact ⟨getD_set_ne _ _ _ (by omega) _ _, getD_set_ne _ _ _ (by omega) _ _⟩
      · intro h; cases h
      · intro _; trivial
    · -- this column is bound, the loop goes on
      simp only [Bool.not_true, Bool.false_eq_true, if_false]
      obtain ⟨g1, g2, g3, g4⟩ := ih (i + 1)
        { b with m_bind := b.m_bind.set i r.2.1, m_buffers := b.m_buffers.set i r.2.2 }
        (by
          intro j hj
          show (b.m_buffers.set i r.2.2).getD j none = none
          rw [getD_set_ne _ _ _ (by omega)]
          exact hfresh j (by omega))
        (by simp only [List.length_set]; omega)
        (by simp only [List.length_set]; omega)
      refine ⟨g1, ?_, ?_, ?_⟩
      · intro j hj
        obtain ⟨a1, a2⟩ := g2 j (by omega)
        rw [a1, a2]
        exact ⟨getD_set_ne _ _ _ (by omega) _ _, getD_set_ne _ _ _ (by omega) _ _⟩
      · intro hok k ty hk
        cases k with
        | zero =>
          simp only [List.getElem?_cons_zero, Option.some.injEq] at hk
          subst hk
          obtain ⟨a1, a2⟩ := g2 i (by omega)
          have e1 : (b.m_bind.set i r.2.1).getD i default = r.2.1 := getD_set_self _ _ hi1 _ _
          have e2 : (b.m_buffers.set i r.2.2).getD i none = r.2.2 := getD_set_self _ _ hi2 _ _
          have key := f2 hr1
          rw [← e1, ← e2] at key
          rw [← a1, ← a2] at key
          exact key
        | succ k =>
          simp only [List.getElem?_cons_succ] at hk
          have key := g3 hok k ty hk
          rw [show i + 1 + k = i + (k + 1) by omega] at key
          exact key
      · rintro ⟨ty, hty, hw⟩
        rcases List.mem_cons.1 hty with h | h
        · subst h
          rw [f1 hw] at hr1
          cases hr1
        · exact g4 ⟨ty, h, hw⟩

end db

namespace db

/-- A successful `MySQLCursor::allocBind(count)` leaves `count` zeroed slots
without buffers and keeps the statement handle. -/
theorem cursor_allocBind_ok {σ : Type} (abi : ABI) (heap : PrepareHeap) (c : MySQLCursor σ)
    (count : Nat) (h : (MySQLCursor.allocBind abi heap c count).1 = true) :
    (MySQLCursor.allocBind abi heap c count).2.toMySQLBinding =
      { m_bind := List.replicate count MYSQL_BIND.zero,
        m_buffers := List.replicate count none, m_count := count } ∧
    (MySQLCursor.allocBind abi heap c count).2.m_stmt = c.m_stmt := by
  rcases heap with ⟨a1, a2, a3, a4, a5, col⟩
  unfold MySQLCursor.allocBind MySQLBinding.allocBind at h ⊢
  by_cases c1 : count * abi.sizeof_MYSQL_BIND ≤ abi.SIZE_MAX <;>
    by_cases c2 : count * abi.sizeof_pointer ≤ abi.SIZE_MAX <;>
    cases a1 <;> cases a2 <;> cases a3 <;> cases a4 <;> cases a5 <;>
    simp [c1, c2] at h ⊢

/-- C12, as the code has it. Whenever `prepare()` returns true, the result
has metadata, the cursor has one slot per field, every field's type is a
supported one, and every slot carries the field's type as its tag, with no
buffer and length zero for a type of width zero (the variable-width types
and the null type) and a buffer of the static width, recorded as the length,
for a fixed-width type. If some field has a type outside the supported ones,
`prepare()` returns false; and `query()` returns a cursor only when its
`prepare()` returned true. -/
theorem prepare_slots {σ : Type} {abi : ABI} (hs : abi.SizesFit) (N : NativeStmt σ)
    (heap : PrepareHeap) (c : MySQLCursor σ) :
    ((MySQLCursor.prepare abi N heap c).1 = true →
      ∃ fields, (N.mysql_stmt_result_metadata c.m_stmt.st).1 = some fields ∧
        PreparedSlots abi fields (MySQLCursor.prepare abi N heap c).2.toMySQLBinding) ∧
    (∀ fields, (N.mysql_stmt_result_metadata c.m_stmt.st).1 = some fields →
      (∃ ty, ty ∈ fields ∧ supportedWidth abi ty = none) →
      (MySQLCursor.prepare abi N heap c).1 = false) ∧
    (∀ (qheap : QueryHeap) (s : MySQLStatement) (stmt : StmtObj σ) (cur : MySQLCursor σ),
      (MySQLStatement.query abi N qheap s stmt).1 = some cur →
      ∃ c0, MySQLCursor.prepare abi N qheap.prepare c0 = (true, cur)) := by
  have main : ∀ fields, (N.mysql_stmt_result_metadata c.m_stmt.st).1 = some fields →
      ((MySQLCursor.prepare abi N heap c).1 = true →
        PreparedSlots abi fields (MySQLCursor.prepare abi N heap c).2.toMySQLBinding) ∧
      ((∃ ty, ty ∈ fields ∧ supportedWidth abi ty = none) →
        (MySQLCursor.prepare abi N heap c).1 = false) := by
    intro fields hm
    have hm2 : (c.m_stmt.mysql_stmt_result_metadata N).1 = some fields := hm
    unfold MySQLCursor.prepare
    simp only [hm2]
    generalize (c.m_stmt.mysql_stmt_result_metadata N).2 = st2
    generalize hc0 : ({ c with m_stmt := st2 } : MySQLCursor σ) = c0
    cases ha : (MySQLCursor.allocBind abi heap c0 fields.length).1
    · exact ⟨fun h => (by cases h), fun _ => rfl⟩
    obtain ⟨hab, -⟩ := cursor_allocBind_ok abi heap c0 fields.length ha
    simp only [Bool.not_true, Bool.false_eq_true, if_false, hab]
    obtain ⟨g1, -, g3, g4⟩ := bindResults_spec hs heap fields 0
      { m_bind := List.replicate fields.length MYSQL_BIND.zero,
        m_buffers := List.replicate fields.length none, m_count := fields.length }
      (by
        intro j _
        rw [List.getD_eq_getElem?_getD, List.getElem?_replicate]
        split <;> rfl)
      (by simp) (by simp)
    generalize MySQLCursor.bindResults abi heap fields 0
      { m_bind := List.replicate fields.length MYSQL_BIND.zero,
        m_buffers := List.replicate fields.length none, m_count := fields.length } = b
      at g1 g3 g4 ⊢
    cases hb : b.1
    · exact ⟨fun h => (by cases h), fun _ => rfl⟩
    · simp only [Bool.not_true, Bool.false_eq_true, if_false]
      refine ⟨fun _ => ⟨g1, ?_⟩, ?_⟩
      · intro i ty hi
        have := g3 hb i ty hi
        rwa [Nat.zero_add] at this
      · intro hbad
        rw [g4 hbad] at hb
        cases hb
  refine ⟨?_, fun fields hm => (main fields hm).2, ?_⟩
  · intro h
    cases hm : (N.mysql_stmt_result_metadata c.m_stmt.st).1 with
    | none =>
      simp [MySQLCursor.prepare, StmtObj.mysql_stmt_result_metadata, hm] at h
    | some fields => exact ⟨fields, rfl, (main fields hm).1 h⟩
  · intro qheap s stmt cur h
    unfold MySQLStatement.query at h
    simp only at h
    split at h
    · cases h
    split at h
    · cases h
    split at h
    · cases h
    split at h
    · cases h
    split at h
    · cases h
    · rename_i hp
      simp only [Option.some.injEq] at h
      refine ⟨_, Prod.ext ?_ h⟩
      simpa using hp

/-- Witness of C12 as amended: a `long` column and a var-string column. -/
theorem prepare_slots_witness :
    PreparedSlots lp64 [MYSQL_TYPE_LONG, MYSQL_TYPE_VAR_STRING]
      (MySQLCursor.prepare lp64 (fieldsNative [MYSQL_TYPE_LONG, MYSQL_TYPE_VAR_STRING] [])
        PrepareHeap.all (MySQLCursor.new (StmtObj.mk 0 []))).2.toMySQLBinding := by
  obtain ⟨fields, hm, hp⟩ :=
    (@prepare_slots Nat lp64 (by decide)
      (fieldsNative [MYSQL_TYPE_LONG, MYSQL_TYPE_VAR_STRING] [])
      PrepareHeap.all (MySQLCursor.new (StmtObj.mk 0 []))).1 (by decide)
  cases hm
  exact hp

/-- Counterexample to C12 as stated: a result whose only column has the
null type, which is in neither of the claim's lists, is prepared with
success. -/
theorem prepare_null_column :
    (MySQLCursor.prepare lp64 (fieldsNative [MYSQL_TYPE_NULL] []) PrepareHeap.all
      (MySQLCursor.new (StmtObj.mk 0 []))).1 = true ∧
    claimedWidth lp64 MYSQL_TYPE_NULL = none := by
  decide

end db

/-! ## The terminator byte of `getText` and `getBlob` -/

namespace db

/-- C19 fails on the code. A cursor is prepared over one `TINY` column and
moved to a row; the library reports length 1 for the column, which does not
exceed the one-byte buffer bound at prepare time, so no truncation is
flagged. `getText(0)` and `getBlob(0)` then keep that buffer and write the
terminator at offset 1 of a buffer of 1 byte. -/
theorem getText_fixed_width_overflow :
    (MySQLCursor.prepare lp64 (fieldsNative [MYSQL_TYPE_TINY] tinyRow) PrepareHeap.all
      (MySQLCursor.new (StmtObj.mk 0 []))).1 = true ∧
    (MySQLCursor.next (fieldsNative [MYSQL_TYPE_TINY] tinyRow)
      (MySQLCursor.prepare lp64 (fieldsNative [MYSQL_TYPE_TINY] tinyRow) PrepareHeap.all
        (MySQLCursor.new (StmtObj.mk 0 []))).2).1 = true ∧
    tinyCursor.m_buffers = [some [some 5]] ∧
    tinyCursor.m_bind = [MYSQL_BIND.mk MYSQL_TYPE_TINY BufPtr.slot 1] ∧
    tinyCursor.m_lengths = [1] ∧ tinyCursor.m_is_null = [false] ∧
    tinyCursor.m_error = [false] ∧
    MySQLCursor.getText lp64 (fieldsNative [MYSQL_TYPE_TINY] tinyRow).toNative true tinyCursor 0 =
      Except.error (Fault.outOfBounds 1 1) ∧
    MySQLCursor.getBlob lp64 (fieldsNative [MYSQL_TYPE_TINY] tinyRow).toNative true tinyCursor 0 =
      Except.error (Fault.outOfBounds 1 1) := by
  refine ⟨by decide, by decide, by decide, by decide, by decide, by decide, by decide, ?_, ?_⟩ <;>
    rfl

/-- The same for every fixed-width slot: when the column is in range and not
null, the buffer has exactly the bound length, the reported length equals it
and no truncation is flagged, a successful fetch is followed by a write one
past the end of the buffer. -/
theorem getBytes_exact_buffer_faults {σ : Type} (ty : enum_field_types) {abi : ABI}
    (hl : abi.Lawful) (N : Native σ) (heap : Bool) (c : MySQLCursor σ)
    (hc : c.toMySQLBinding.Allocated abi) (column : Int) (h0 : 0 ≤ column)
    (h1 : column < c.m_count) (hnn : c.m_is_null.getD column.toNat false = false)
    (herr : c.m_error.getD column.toNat false = false) (cells : List Cell)
    (hbuf : c.m_buffers.getD column.toNat none = some cells)
    (hlen : c.m_lengths.getD column.toNat 0 = cells.length)
    (hrc : (N.mysql_stmt_fetch_column c.m_stmt.st ty cells.length (u32 column)).1.1 = 0) :
    MySQLCursor.getBytes ty abi N heap c column =
      Except.error (Fault.outOfBounds cells.length cells.length) := by
  obtain ⟨hin, -⟩ := size_t_lt_of_in (allocated_count_le hl hc) h0 h1
  simp only [MySQLCursor.getBytes, if_neg hin, hnn, herr, hbuf, hlen, Option.isNone_some,
    Bool.or_self, Bool.false_and, Bool.false_eq_true, if_false,
    StmtObj.mysql_stmt_fetch_column, hrc, ne_eq, not_true_eq_false, Option.getD_some,
    store_length, Nat.lt_irrefl]

/-- The sibling path: when the truncation indicator is set or the column
has no buffer, the buffer is allocated with one byte more than the reported
length and the terminator is written inside it: the call does not fault. -/
theorem getBytes_grow_no_fault {σ : Type} (ty : enum_field_types) (abi : ABI) (N : Native σ)
    (heap : Bool) (c : MySQLCursor σ) (column : Int)
    (hlt : column.toNat < c.m_buffers.length)
    (hgrow : c.m_error.getD column.toNat false = true ∨
      c.m_buffers.getD column.toNat none = none) (f : Fault) :
    MySQLCursor.getBytes ty abi N heap c column ≠ Except.error f := by
  have hg : (c.m_error.getD column.toNat false ||
      (c.m_buffers.getD column.toNat none).isNone) = true := by
    rcases hgrow with h | h <;> rw [h] <;> simp
  unfold MySQLCursor.getBytes
  split
  · simp
  split
  · simp
  simp only [hg, Bool.true_and, if_true]
  cases heap
  · simp
  · simp only [Bool.not_true, Bool.false_eq_true, if_false]
    split
    · simp
    · rw [if_pos]
      · simp
      · rw [store_length, getD_set_self _ _ hlt]
        simp [newChars]

end db

/-! ## The row mapper -/

namespace db

theorem getLoop_memberSelectors {γ τ : Type} (bs : List (Binding γ τ)) :
    ∀ (c : γ) (x : τ),
      CursorStruct.getLoop (bs.map (fun b => MemberSelector b.sel b.column b.member)) c x =
        (true, (applyBindings bs c x).1, (applyBindings bs c x).2) := by
  induction bs with
  | nil => intro c x; rfl
  | cons b bs ih =>
    intro c x
    simp only [List.map_cons, CursorStruct.getLoop, MemberSelector, Bool.not_true,
      Bool.false_eq_true, if_false, Option.getD_some, applyBindings]
    exact ih _ _

theorem ofBindings_selectors {γ τ : Type} (bs : List (Binding γ τ)) :
    (CursorStruct.ofBindings bs).m_selectors =
      bs.map (fun b => MemberSelector b.sel b.column b.member) := by
  have key : ∀ (bs : List (Binding γ τ)) (M : CursorStruct γ τ),
      (bs.foldl (fun M b => M.add b.sel b.column b.member) M).m_selectors =
        M.m_selectors ++ bs.map (fun b => MemberSelector b.sel b.column b.member) := by
    intro bs
    induction bs with
    | nil => intro M; simp
    | cons b bs ih =>
      intro M
      rw [List.foldl_cons, ih]
      simp [CursorStruct.add]
  simpa [CursorStruct.ofBindings] using key bs { m_selectors := [] }

theorem getVector_eq_getList {γ τ : Type} (M : CursorStruct γ τ) (C : Cursor γ) (item : τ) :
    ∀ (fuel : Nat) (c : γ) (ctx : List τ),
      CursorStruct.getVector M C item fuel c ctx = CursorStruct.getList M C item fuel c ctx := by
  intro fuel
  induction fuel with
  | zero => intro c ctx; rfl
  | succ fuel ih =>
    intro c ctx
    simp only [CursorStruct.getVector, CursorStruct.getList, ih]

/-- The loop of `mapAll` along `n` rows that are fetched and mapped. -/
theorem getList_mappedRows {γ τ : Type} (M : CursorStruct γ τ) (C : Cursor γ) (item : τ) :
    ∀ (n : Nat) (c : γ) (out recs : List τ) (c1 : γ),
      mappedRows M C item n c = some (recs, c1) →
      recs.length = n ∧
      ∀ fuel, CursorStruct.getList M C item (n + fuel) c out =
        CursorStruct.getList M C item fuel c1 (out ++ recs) := by
  intro n
  induction n with
  | zero =>
    intro c out recs c1 h
    simp only [mappedRows, Option.some.injEq, Prod.mk.injEq] at h
    obtain ⟨h1, h2⟩ := h
    subst h1; subst h2
    simp
  | succ n ih =>
    intro c out recs c1 h
    unfold mappedRows at h
    split at h
    · rename_i hcond
      obtain ⟨hn, hm⟩ := hcond
      cases hrec : mappedRows M C item n (M.get (C.next c).2 item).2.1 with
      | none => rw [hrec] at h; cases h
      | some p =>
        rw [hrec] at h
        simp only [Option.map_some', Option.some.injEq, Prod.mk.injEq] at h
        obtain ⟨h1, h2⟩ := h
        subst h1; subst h2
        obtain ⟨i1, i2⟩ := ih (M.get (C.next c).2 item).2.1
          (out ++ [(M.get (C.next c).2 item).2.2]) p.1 p.2 hrec
        refine ⟨by simp [i1], ?_⟩
        intro fuel
        rw [show n + 1 + fuel = (n + fuel) + 1 by omega]
        simp only [CursorStruct.getList, hn, hm, Bool.not_true, Bool.false_eq_true, if_false]
        rw [i2 fuel]
        simp
    · cases h

end db

namespace db

/-- C13. When the next `n` rows of the cursor are fetched and mapped with
success into `recs`, and then `next()` returns false, `mapAll` in the list
and in the vector form returns true with the output `out` followed by
exactly those `n` records in fetch order. When instead a further row is
fetched and its `mapOne` fails, `mapAll` returns false with the output `out`
followed by the `n` records mapped before, and the cursor is the one the
failed `mapOne` left: no further row is fetched. For a mapper built by
registering bindings, `mapOne` succeeds and the record has every bound field
set to what its column accessor returns on the row, the bindings applied in
registration order. -/
theorem mapAll_rows {γ τ : Type} (M : CursorStruct γ τ) (C : Cursor γ) (item : τ) (n : Nat)
    (c : γ) (out recs : List τ) (c1 : γ)
    (h : mappedRows M C item n c = some (recs, c1)) :
    recs.length = n ∧
    ((C.next c1).1 = false → ∀ fuel, n < fuel →
      CursorStruct.getList M C item fuel c out = some (true, (C.next c1).2, out ++ recs) ∧
      CursorStruct.getVector M C item fuel c out = some (true, (C.next c1).2, out ++ recs)) ∧
    ((C.next c1).1 = true → (M.get (C.next c1).2 item).1 = false → ∀ fuel, n < fuel →
      CursorStruct.getList M C item fuel c out =
        some (false, (M.get (C.next c1).2 item).2.1, out ++ recs) ∧
      CursorStruct.getVector M C item fuel c out =
        some (false, (M.get (C.next c1).2 item).2.1, out ++ recs)) ∧
    (∀ bs : List (Binding γ τ), M = CursorStruct.ofBindings bs → ∀ c0 x,
      M.get c0 x = (true, (applyBindings bs c0 x).1, (applyBindings bs c0 x).2)) := by
  obtain ⟨hlen, hrun⟩ := getList_mappedRows M C item n c out recs c1 h
  refine ⟨hlen, ?_, ?_, ?_⟩
  · intro hend fuel hf
    obtain ⟨k, rfl⟩ : ∃ k, fuel = n + (k + 1) := ⟨fuel - n - 1, by omega⟩
    rw [getVector_eq_getList, hrun]
    simp [CursorStruct.getList, hend]
  · intro hnext hfail fuel hf
    obtain ⟨k, rfl⟩ : ∃ k, fuel = n + (k + 1) := ⟨fuel - n - 1, by omega⟩
    rw [getVector_eq_getList, hrun]
    simp [CursorStruct.getList, hnext, hfail]
  · intro bs hM c0 x
    subst hM
    unfold CursorStruct.get
    rw [ofBindings_selectors]
    exact getLoop_memberSelectors bs c0 x

/-- Witness of C13: three rows mapped onto `Person` records after one
record already in the output. -/
theorem mapAll_rows_witness :
    CursorStruct.getList personMapper rowsCursor (Person.mk 0 []) 4
      (threeRows 1 2 3 (Field.text [97]) (Field.text [98]) (Field.text [99]))
      [Person.mk 9 [122]] =
    some (true, RowsCursor.mk [] [Field.int 3, Field.text [99]] 4,
      [Person.mk 9 [122]] ++ [Person.mk 1 [97], Person.mk 2 [98], Person.mk 3 [99]]) :=
  ((mapAll_rows personMapper rowsCursor (Person.mk 0 []) 3
    (threeRows 1 2 3 (Field.text [97]) (Field.text [98]) (Field.text [99]))
    [Person.mk 9 [122]] [Person.mk 1 [97], Person.mk 2 [98], Person.mk 3 [99]]
    (RowsCursor.mk [] [Field.int 3, Field.text [99]] 3) (by decide)).2.1 (by decide) 4
    (by decide)).1

end db

namespace db

/-- C14, as the code has it. On every cursor, `Selector<std::string>` gives
the empty string for a column that `isNull` reports null, without reading the
text, and a `MemberSelector` given a record never fails. So when a result of
three rows with columns (id: int, name: text) is mapped by `mapAll` onto
records whose name is a `std::string` and the name column of row 2 is null,
`mapAll` returns true and the output holds the three records in fetch order,
the second with an empty name. -/
theorem mapAll_null_name_is_empty (id1 id2 id3 : Int) (name1 name3 : List Byte) (item : Person)
    (out : List Person) (fuel : Nat) :
    (∀ (γ : Type) (C : Cursor γ) (c : γ) (column : Int), (C.isNull c column).1 = true →
      Selector_string C c column = ([], (C.isNull c column).2)) ∧
    (∀ (γ τ μ : Type) (sel : γ → Int → μ × γ) (column : Int) (member : τ → μ → τ) (c : γ)
      (ctx : τ), ((MemberSelector sel column member).get c (some ctx)).1 = true) ∧
    CursorStruct.getList personMapper rowsCursor item (fuel + 4)
      (threeRows id1 id2 id3 (Field.text name1) Field.null (Field.text name3)) out =
    some (true, RowsCursor.mk [] [Field.int id3, Field.text name3] 4,
      out ++ [Person.mk id1 (name1.takeWhile (fun b => b != 0)), Person.mk id2 [],
        Person.mk id3 (name3.takeWhile (fun b => b != 0))]) := by
  refine ⟨?_, ?_, ?_⟩
  · intro γ C c column h
    simp [Selector_string, h]
  · intro γ τ μ sel column member c ctx
    rfl
  · simp [CursorStruct.getList, CursorStruct.get, CursorStruct.getLoop, personMapper,
      CursorStruct.ofBindings, personBindings, CursorStruct.add, MemberSelector, rowsCursor,
      threeRows, Selector_int, Selector_string, stringOfCStr, RowsCursor.field, Field.toInt,
      Field.toText]

/-- Witness of C14 as amended: the null name of the second of three rows. -/
theorem mapAll_null_name_is_empty_witness :
    (rowsCursor.isNull (RowsCursor.mk [] [Field.int 2, Field.null] 2) 1).1 = true ∧
    Selector_string rowsCursor (RowsCursor.mk [] [Field.int 2, Field.null] 2) 1 =
      ([], (rowsCursor.isNull (RowsCursor.mk [] [Field.int 2, Field.null] 2) 1).2) :=
  ⟨by decide, (mapAll_null_name_is_empty 1 2 3 [] [] (Person.mk 0 []) [] 0).1 RowsCursor
    rowsCursor (RowsCursor.mk [] [Field.int 2, Field.null] 2) 1 (by decide)⟩

/-- Counterexample to C14 as stated: with the name of row 2 null, `mapAll`
does not fail at row 2; it returns true with three records. -/
theorem mapAll_null_name_succeeds :
    CursorStruct.getList personMapper rowsCursor (Person.mk 0 []) 4
      (threeRows 1 2 3 (Field.text [97, 110, 110]) Field.null (Field.text [99, 121])) [] =
    some (true, RowsCursor.mk [] [Field.int 3, Field.text [99, 121]] 4,
      [Person.mk 1 [97, 110, 110], Person.mk 2 [], Person.mk 3 [99, 121]]) := by
  decide

end db

/-! ## The environment -/

namespace db

end db

namespace db

end db

/-! ## The property reader -/

namespace db

theorem wordsAux_dropSpace (s : List Char) :
    wordsAux s [] = wordsAux (s.dropWhile isspace) [] := by
  induction s with
  | nil => rfl
  | cons ch cs ih =>
    by_cases h : isspace ch = true
    · simp [wordsAux, List.dropWhile, h, ih]
    · simp [List.dropWhile, h]

theorem wordsAux_takeWord (s : List Char) :
    ∀ cur, wordsAux s cur =
      wordsAux (s.dropWhile (fun c => !isspace c))
        (cur ++ s.takeWhile (fun c => !isspace c)) := by
  induction s with
  | nil => intro cur; simp
  | cons ch cs ih =>
    intro cur
    by_cases h : isspace ch = true
    · simp [List.dropWhile, List.takeWhile, h]
    · have h2 : isspace ch = false := by simpa using h
      rw [List.dropWhile_cons, List.takeWhile_cons]
      simp only [h2, Bool.not_false, if_true]
      rw [wordsAux]
      simp only [h2, Bool.false_eq_true, if_false]
      rw [ih]
      simp

/-- The words of a text, one at a time, as `ini >> line` takes them. -/
theorem words_unfold (s : List Char) :
    words s =
      if (s.dropWhile isspace).isEmpty then []
      else (s.dropWhile isspace).takeWhile (fun c => !isspace c) ::
        words ((s.dropWhile isspace).dropWhile (fun c => !isspace c)) := by
  unfold words
  rw [wordsAux_dropSpace]
  generalize hr : s.dropWhile isspace = r
  cases r with
  | nil => rfl
  | cons ch cs =>
    have hch : isspace ch = false := by
      have := List.head_dropWhile_not isspace s
      simp only [hr, List.head?_cons] at this
      simpa using this
    simp only [List.isEmpty_cons, Bool.false_eq_true, if_false]
    rw [wordsAux_takeWord, List.nil_append]
    generalize hw : (ch :: cs).takeWhile (fun c => !isspace c) = w
    have hwne : w ≠ [] := by
      rw [← hw, List.takeWhile_cons]
      simp [hch]
    generalize hr2 : (ch :: cs).dropWhile (fun c => !isspace c) = r2
    cases r2 with
    | nil =>
      cases w with
      | nil => exact absurd rfl hwne
      | cons a b => simp [wordsAux]
    | cons c2 cs2 =>
      have hc2 : isspace c2 = true := by
        have := List.head_dropWhile_not (fun c => !isspace c) (ch :: cs)
        simp only [hr2, List.head?_cons] at this
        simpa using this
      cases w with
      | nil => exact absurd rfl hwne
      | cons a b =>
        rw [wordsAux]
        simp only [hc2, if_true, List.isEmpty_cons, Bool.false_eq_true, if_false]
        congr 1
        rw [wordsAux]
        simp [hc2]

end db

namespace db

theorem StdMap.assign_assign {κ ν : Type} [DecidableEq κ] (m : StdMap κ ν) (k : κ) (v : ν) :
    (m.assign k v).assign k v = m.assign k v := by
  induction m with
  | nil => simp [StdMap.assign]
  | cons p m ih =>
    rcases p with ⟨k1, v1⟩
    by_cases h : k1 = k
    · simp [StdMap.assign, h]
    · simp [StdMap.assign, h, ih]

theorem readPropsLine_eq (line : List Char) (props : Props) :
    readPropsLine line props =
      match keyValue line with
      | some e => props.assign e.1 e.2
      | none => props := by
  unfold readPropsLine keyValue
  split <;> rfl

theorem readPropsLine_idem (line : List Char) (props : Props) :
    readPropsLine line (readPropsLine line props) = readPropsLine line props := by
  unfold readPropsLine
  split
  · exact StdMap.assign_assign _ _ _
  · rfl

theorem readPropsLoop_eof (fuel : Nat) (ini : IfStream) (line : List Char) (props : Props)
    (h : ini.eofbit = true) : readPropsLoop fuel ini line props = props := by
  cases fuel with
  | zero => rfl
  | succ fuel => simp [readPropsLoop, h]

/-- The loop of `readProps` on a stream in good state handles the words of
what is left, one after the other. -/
theorem readPropsLoop_words :
    ∀ (fuel : Nat) (s line : List Char) (props : Props), s.length < fuel →
      readPropsLine line props = props →
      readPropsLoop fuel { rest := s, eofbit := false, failbit := false } line props =
        (words s).foldl (fun p w => readPropsLine w p) props := by
  intro fuel
  induction fuel with
  | zero => intro s line props h; omega
  | succ fuel ih =>
    intro s line props hlen hinv
    rw [words_unfold]
    simp only [readPropsLoop, Bool.false_eq_true, if_false, IfStream.extract, Bool.or_self]
    by_cases hr : (s.dropWhile isspace).isEmpty = true
    · simp only [hr, if_true, List.foldl_nil]
      rw [readPropsLoop_eof _ _ _ _ rfl, hinv]
    · simp only [hr, Bool.false_eq_true, if_false, List.foldl_cons]
      generalize hw : (s.dropWhile isspace).takeWhile (fun c => !isspace c) = w
      generalize hr2 : (s.dropWhile isspace).dropWhile (fun c => !isspace c) = r2
      have hsplit : w ++ r2 = s.dropWhile isspace := by
        rw [← hw, ← hr2]; exact List.takeWhile_append_dropWhile _ _
      have hle : (s.dropWhile isspace).length ≤ s.length :=
        (List.dropWhile_sublist isspace).length_le
      cases r2 with
      | nil =>
        rw [readPropsLoop_eof _ _ _ _ rfl]
        rw [words_unfold]
        simp
      | cons c2 cs2 =>
        have hwne : w ≠ [] := by
          intro h0
          rw [h0, List.nil_append] at hsplit
          have h1 := List.head?_dropWhile_not isspace s
          have h2 := List.head?_dropWhile_not (fun c => !isspace c) (s.dropWhile isspace)
          rw [hr2] at h2
          rw [← hsplit] at h1
          simp only [List.head?_cons] at h1 h2
          rw [h1] at h2
          cases h2
        have hlen2 : (c2 :: cs2).length < fuel := by
          have : (w ++ c2 :: cs2).length = (s.dropWhile isspace).length := by rw [hsplit]
          rw [List.length_append] at this
          have : 0 < w.length := List.length_pos.2 hwne
          omega
        have := ih (c2 :: cs2) w (readPropsLine w props) hlen2 (readPropsLine_idem w props)
        simpa using this

end db

namespace db

theorem foldl_readPropsLine (ws : List (List Char)) :
    ∀ p : Props, ws.foldl (fun p w => readPropsLine w p) p =
      (ws.filterMap keyValue).foldl (fun p e => p.assign e.1 e.2) p := by
  induction ws with
  | nil => intro p; rfl
  | cons w ws ih =>
    intro p
    rw [List.foldl_cons, ih, readPropsLine_eq]
    cases h : keyValue w with
    | none => simp [List.filterMap_cons, h]
    | some e => simp [List.filterMap_cons, h]

theorem StdMap.find_foldl_assign {δ : Type} (entries : List (String × δ)) (k : String) :
    StdMap.find (entries.foldl (fun p e => StdMap.assign p e.1 e.2) []) k =
      lastRegistered entries k := by
  induction entries using List.reverseRecOn with
  | nil => simp [StdMap.find, lastRegistered]
  | append_singleton entries e ih =>
    rw [List.foldl_append]
    simp only [List.foldl_cons, List.foldl_nil]
    by_cases h : e.1 = k
    · subst h
      rw [StdMap.find_assign_self]
      simp [lastRegistered, List.filter_append]
    · rw [StdMap.find_assign_ne _ _ _ _ h, ih]
      simp [lastRegistered, List.filter_append, h]

theorem wordsAux_no_space (s : List Char) :
    ∀ cur : List Char, (∀ c ∈ cur, isspace c = false) →
      ∀ w ∈ wordsAux s cur, ∀ c ∈ w, isspace c = false := by
  induction s with
  | nil =>
    intro cur hcur w hw
    unfold wordsAux at hw
    split at hw
    · cases hw
    · simp only [List.mem_singleton] at hw
      subst hw
      exact hcur
  | cons ch cs ih =>
    intro cur hcur w hw
    unfold wordsAux at hw
    split at hw
    · split at hw
      · exact ih [] (by intro c hc; cases hc) w hw
      · rcases List.mem_cons.1 hw with h | h
        · subst h; exact hcur
        · exact ih [] (by intro c hc; cases hc) w h
    · rename_i hsp
      refine ih (cur ++ [ch]) ?_ w hw
      intro c hc
      rcases List.mem_append.1 hc with h | h
      · exact hcur c h
      · simp only [List.mem_singleton] at h
        subst h
        simpa using hsp

/-- C16, as the code has it. A file that cannot be opened gives failure and
leaves the mapping alone. Otherwise the reader succeeds and yields the
mapping read word by word, the words being the runs of characters between
white space (no word holds a space, a tab or a line end): each word that
contains '=' sends the text before its first '=' to the whole rest of the
word, further '=' kept; words without '=' add nothing; and for every key the
value is that of the last word with that key. -/
theorem readProps_words (fs : FileSystem) (path : String) :
    (fs path = none → ∀ props, Driver.readProps fs path props = (false, props)) ∧
    (∀ content, fs path = some content →
      Driver.readProps fs path [] = (true, wordsProps content) ∧
      (∀ k, (wordsProps content).find k =
        lastRegistered ((words content).filterMap keyValue) k) ∧
      (∀ w ∈ words content, ∀ c ∈ w, isspace c = false)) := by
  constructor
  · intro h props
    simp [Driver.readProps, h]
  · intro content h
    refine ⟨?_, ?_, ?_⟩
    · simp only [Driver.readProps, h]
      rw [readPropsLoop_words _ _ _ _ (Nat.lt_succ_self _) rfl, foldl_readPropsLine]
      rfl
    · intro k
      exact StdMap.find_foldl_assign _ k
    · exact wordsAux_no_space content [] (by intro c hc; cases hc)

/-- Witness of C16 as amended: two keys, one of them given twice. -/
theorem readProps_words_witness :
    Driver.readProps (oneFile "user=root pw=a=b\nuser=admin\n") "db.ini" [] =
      (true, [("user", "admin"), ("pw", "a=b")]) :=
  ((readProps_words (oneFile "user=root pw=a=b\nuser=admin\n") "db.ini").2 _ rfl).1.trans
    (by decide)

/-- Counterexample to C16 as stated: of the line `name=John Smith` the
reader keeps `John` as the value, not the whole rest of the line. -/
theorem readProps_splits_at_space :
    Driver.readProps (oneFile "name=John Smith\n") "db.ini" [] = (true, [("name", "John")]) ∧
    linesProps "name=John Smith\n".toList = [("name", "John Smith")] := by
  constructor <;> decide

end db

/-! ## The MySQL driver and its connection -/

namespace db

theorem isEmpty_false_iff (s : String) : s.isEmpty = false ↔ s ≠ "" := by
  have h := String.isEmpty_iff s
  constructor
  · intro h1 h2
    rw [h.2 h2] at h1
    cases h1
  · intro h1
    cases h2 : s.isEmpty
    · rfl
    · exact absurd (h.1 h2) h1

/-- The method `DriverData::read` succeeds exactly on the required
properties, and then holds their values. -/
theorem DriverData.read_spec (props : Props) :
    (∀ u p s d, RequiredProps props u p s d →
      DriverData.new.read props = (true, DriverData.mk u p s d)) ∧
    ((DriverData.new.read props).1 = true →
      ∃ u p s d, RequiredProps props u p s d ∧
        (DriverData.new.read props).2 = DriverData.mk u p s d) := by
  constructor
  · rintro u p s d ⟨h1, h2, h3, h4, n1, n2, n3, n4⟩
    simp [DriverData.read, DriverData.new, Driver.getProp, h1, h2, h3, h4,
      (isEmpty_false_iff _).2 n1, (isEmpty_false_iff _).2 n2, (isEmpty_false_iff _).2 n3,
      (isEmpty_false_iff _).2 n4]
  · intro h
    cases h1 : StdMap.find props "user" with
    | none => simp [DriverData.read, DriverData.new, Driver.getProp, h1] at h
    | some u =>
      cases h2 : StdMap.find props "password" with
      | none => simp [DriverData.read, DriverData.new, Driver.getProp, h1, h2] at h
      | some p =>
        cases h3 : StdMap.find props "server" with
        | none => simp [DriverData.read, DriverData.new, Driver.getProp, h1, h2, h3] at h
        | some s =>
          cases h4 : StdMap.find props "database" with
          | none =>
            simp [DriverData.read, DriverData.new, Driver.getProp, h1, h2, h3, h4] at h
          | some d =>
            simp only [DriverData.read, DriverData.new, Driver.getProp, h1, h2, h3, h4,
              Bool.not_true, Bool.false_eq_true, if_false, Bool.and_eq_true,
              Bool.not_eq_true', isEmpty_false_iff] at h ⊢
            obtain ⟨⟨⟨n1, n2⟩, n3⟩, n4⟩ := h
            exact ⟨u, p, s, d, ⟨h1, h2, h3, h4, n1, n2, n3, n4⟩, rfl⟩

/-- C17. The MySQL driver's `open` makes native calls only when `user`,
`password`, `server` and `database` are all present in the properties and
none is empty: if one of the four is missing or empty, `open` returns no
connection and the log of native calls is as it was; and whenever `open`
returns a connection or logs any native call, the four are present and not
empty. -/
theorem mysql_open_requires {μ : Type} (L : NativeConn μ) (abi : ABI) (heap : Bool)
    (ini_path : String) (props : Props) (log : List MysqlCall) :
    ((¬ ∃ u p s d, RequiredProps props u p s d) →
      MySQLDriver.open L abi heap ini_path props log = (none, log)) ∧
    ((MySQLDriver.open L abi heap ini_path props log).2 ≠ log →
      ∃ u p s d, RequiredProps props u p s d) ∧
    (∀ conn, (MySQLDriver.open L abi heap ini_path props log).1 = some conn →
      ∃ u p s d, RequiredProps props u p s d) := by
  have key : (¬ ∃ u p s d, RequiredProps props u p s d) →
      MySQLDriver.open L abi heap ini_path props log = (none, log) := by
    intro hno
    cases hr : (DriverData.new.read props).1
    · simp [MySQLDriver.open, hr]
    · exact absurd (by
        obtain ⟨u, p, s, d, h, -⟩ := (DriverData.read_spec props).2 hr
        exact ⟨u, p, s, d, h⟩) hno
  refine ⟨key, ?_, ?_⟩
  · intro hne
    by_contra hno
    exact hne (by rw [key hno])
  · intro conn hc
    by_contra hno
    rw [key hno] at hc
    cases hc

/-- Witness of C17: properties without a password. -/
theorem mysql_open_requires_witness :
    MySQLDriver.open acceptingConn lp64 true "db.ini"
      [("user", "root"), ("server", "db"), ("database", "shop")] [] = (none, []) :=
  (mysql_open_requires acceptingConn lp64 true "db.ini"
    [("user", "root"), ("server", "db"), ("database", "shop")] []).1
    (by
      rintro ⟨u, p, s, d, -, h2, -⟩
      have hnone : StdMap.find [("user", "root"), ("server", "db"), ("database", "shop")]
          "password" = none := by decide
      rw [hnone] at h2
      cases h2)

end db

namespace db

/-- C18 fails on the code. A connection that is connected re-reads a
configuration whose `server` value ends in `:33o6`, which is no decimal port
number. `connect` leaves through `return m_connected`, the flag of the old
connection: `reconnect()` returns true although no native connection was
attempted (the log of native calls stays empty), and the display URI is left
at `mysql://`. -/
theorem reconnect_returns_stale_flag :
    MySQLConnection.reconnect acceptingConn lp64
      (oneFile "driver=mysql user=root password=pw server=db:33o6 database=shop")
      connectedConnection [] =
    (true, { connectedConnection with m_fake_uri := "mysql://" }, []) := by
  decide

/-- A second way in which the code departs from C18: an empty suffix after
the last ':' is no decimal port number either, but `strtoul` converts nothing
and leaves nothing over, so the connection is attempted to port 0. -/
theorem reconnect_accepts_empty_port :
    MySQLConnection.reconnect acceptingConn lp64
      (oneFile "driver=mysql user=root password=pw server=db: database=shop")
      { connectedConnection with m_connected := false } [] =
    (true, { m_mysql := 2, m_connected := true, m_path := "db.ini",
             m_fake_uri := "mysql://root@db:/shop" },
      [MysqlCall.mysql_options, MysqlCall.mysql_real_connect "db" "root" "pw" "shop" 0 true]) := by
  decide

/-- What `reconnect()` does apart from that. It returns false without any
native call when the configuration cannot be read or a required key is
missing or empty. With the four values read, when the `server` value is
refused no native call is made, and the result is false on a connection that
was not connected; otherwise one connection attempt is logged, with the
values read, and `reconnect()` returns whether it succeeded, the display URI
being `mysql://user@server/database` after a success. -/
theorem reconnect_cases {μ : Type} (L : NativeConn μ) (abi : ABI) (fs : FileSystem)
    (c : MySQLConnection μ) (log : List MysqlCall) :
    (fs c.m_path = none → MySQLConnection.reconnect L abi fs c log = (false, c, log)) ∧
    (∀ content, fs c.m_path = some content →
      (¬ ∃ u p s d, RequiredProps (wordsProps content) u p s d) →
      MySQLConnection.reconnect L abi fs c log = (false, c, log)) ∧
    (∀ content u p s d, fs c.m_path = some content →
      RequiredProps (wordsProps content) u p s d →
      (PortRefused abi s →
        (MySQLConnection.reconnect L abi fs c log).2.2 = log ∧
        (c.m_connected = false → (MySQLConnection.reconnect L abi fs c log).1 = false)) ∧
      (¬ PortRefused abi s →
        ∃ host port ok,
          (MySQLConnection.reconnect L abi fs c log).2.2 =
            log ++ [MysqlCall.mysql_options, MysqlCall.mysql_real_connect host u p d port ok] ∧
          (MySQLConnection.reconnect L abi fs c log).1 = ok ∧
          (MySQLConnection.reconnect L abi fs c log).2.1.m_connected = ok ∧
          (ok = true → (MySQLConnection.reconnect L abi fs c log).2.1.m_fake_uri =
            "mysql://" ++ u ++ "@" ++ s ++ "/" ++ d))) := by
  refine ⟨?_, ?_, ?_⟩
  · intro h
    simp [MySQLConnection.reconnect, Driver.readProps, h]
  · intro content h hno
    have hrp := ((readProps_words fs c.m_path).2 content h).1
    cases hr : (DriverData.new.read (wordsProps content)).1
    · simp [MySQLConnection.reconnect, hrp, hr]
    · exact absurd (by
        obtain ⟨u, p, s, d, hreq, -⟩ := (DriverData.read_spec _).2 hr
        exact ⟨u, p, s, d, hreq⟩) hno
  · intro content u p s d h hreq
    have hrp := ((readProps_words fs c.m_path).2 content h).1
    have hread := (DriverData.read_spec (wordsProps content)).1 u p s d hreq
    have hrec : MySQLConnection.reconnect L abi fs c log =
        MySQLConnection.connect L abi c u p s d log := by
      simp [MySQLConnection.reconnect, hrp, hread]
    rw [hrec]
    constructor
    · rintro ⟨hc, hrest⟩
      have hcond : (s.toList.contains ':' &&
          !(strtoul abi.ULONG_MAX (afterLastColon s.toList)).2.isEmpty) = true := by
        rw [hc, hrest]; rfl
      simp only [MySQLConnection.connect, hcond, if_true]
      exact ⟨trivial, fun h => h⟩
    · intro hnot
      have hcond : (s.toList.contains ':' &&
          !(strtoul abi.ULONG_MAX (afterLastColon s.toList)).2.isEmpty) = false := by
        cases hc : s.toList.contains ':'
        · rfl
        · cases hrest : (strtoul abi.ULONG_MAX (afterLastColon s.toList)).2.isEmpty
          · exact absurd ⟨hc, hrest⟩ hnot
          · rfl
      simp only [MySQLConnection.connect, hcond, Bool.false_eq_true, if_false]
      generalize L.mysql_real_connect (L.mysql_options c.m_mysql)
        (if s.toList.contains ':' = true then String.mk (beforeLastColon s.toList) else s) u p d
        (if s.toList.contains ':' = true then
          (strtoul abi.ULONG_MAX (afterLastColon s.toList)).1 % 4294967296 else 0) = r
      refine ⟨_, _, r.1, rfl, rfl, ?_, ?_⟩
      · cases r.1 <;> rfl
      · intro hok
        rw [hok]
        rfl

end db
